import Mathlib

/-!
# OpenVPN 2.0 core: control-channel packets and the TLS key-state machine

A shallow embedding of parts of `ssl.c` (tls-auth HMAC swap, opcode byte,
`tls_pre_decrypt`, `tls_process`, `key_state_soft_reset`,
`lame_duck_must_die`), followed by theorems about them.

Conventions: C `int`, `time_t` and `interval_t` values are `Int`; a byte is a
`Nat` (stores into a `uint8_t` are reduced `% 256`); an `ASSERT` that fails is
the result `none`; a `struct buffer` is represented by the bytes visible
between `BPTR (buf)` and `BPTR (buf) + BLEN (buf)`.
-/

namespace OpenVPN

/-! ## Constants of `ssl.h` (the header is not part of the sources read) -/

/-- Modelled from the spec: `P_OPCODE_SHIFT` of ssl.h; the first byte of a
packet is `opcode<<3 | key_id`. -/
def P_OPCODE_SHIFT : Nat := 3

/-- Modelled from the spec: `P_KEY_ID_MASK` of ssl.h; the key id is the low
3 bits of the first byte. -/
def P_KEY_ID_MASK : Nat := 7

/-- Modelled from the spec: `SID_SIZE` of ssl.h; a session id is 64 bits. -/
def SID_SIZE : Nat := 8

/-- The value `packet_id_size (true)` of packet_id.h, as the comment in
`swap_hmac` gives it: "hmac + packet_id (8 bytes)". -/
def packet_id_size_long : Nat := 8

/-- `SWAP_BUF_SIZE` (ssl.c). -/
def SWAP_BUF_SIZE : Nat := 256

/-! ## Buffers and the tls-auth HMAC swap -/

/-- A `struct buffer`, seen through `BPTR`/`BLEN`: the `len` bytes starting at
`data + offset`. -/
structure buffer where
  data : List Nat
  deriving DecidableEq, Repr

/-- `BLEN (buf)`. -/
def BLEN (buf : buffer) : Nat := buf.data.length

/-- A `struct key_ctx`: `hmac` is `none` for a NULL HMAC context, otherwise
`some n` with `n = HMAC_size (ctx->hmac)`. -/
structure key_ctx where
  hmac : Option Nat
  deriving DecidableEq, Repr

/-- A `struct key_ctx_bi`. -/
structure key_ctx_bi where
  encrypt : key_ctx
  decrypt : key_ctx
  deriving DecidableEq, Repr

/-- A `struct crypto_options`. `key_ctx_bi` is the pair of key contexts the
pointer of that name refers to, `none` for NULL; `packet_id` and `pid_persist`
record whether those pointers are set (`some i`: the tracker of the key
`key_scan[i]`). -/
structure crypto_options where
  key_ctx_bi : Option key_ctx_bi
  packet_id : Option Nat := none
  pid_persist : Option Nat := none
  packet_id_long_form : Bool := false
  deriving DecidableEq, Repr

/-- `memcpy (dst, b + off, n)`: the `n` bytes of `b` from offset `off`. -/
def memcpy_from (b : List Nat) (off n : Nat) : List Nat :=
  (b.drop off).take n

/-- `memcpy (b + off, src, |src|)`: `b` with `src` written at offset `off`. -/
def memcpy_to (b : List Nat) (off : Nat) (src : List Nat) : List Nat :=
  b.take off ++ src ++ b.drop (off + src.length)

/-- `swap_hmac` (ssl.c). The result is `none` when an `ASSERT` fails or
`co->key_ctx_bi` is NULL, else the returned flag and the buffer after the
call. -/
def swap_hmac (buf : buffer) (co : crypto_options) (incoming : Bool) :
    Option (Bool × buffer) :=
  match co.key_ctx_bi.bind
      (fun kb => (if incoming then kb.decrypt else kb.encrypt).hmac) with
  | none => none
  | some hsz =>
    let hmac_size := hsz + packet_id_size_long
    let osid_size := 1 + SID_SIZE
    let e1 := if incoming then osid_size else hmac_size
    let e2 := if incoming then hmac_size else osid_size
    if e1 ≤ SWAP_BUF_SIZE ∧ e2 ≤ SWAP_BUF_SIZE then
      if e1 + e2 ≤ BLEN buf then
        let b := buf.data
        let buf1 := memcpy_from b 0 e1
        let buf2 := memcpy_from b e1 e2
        let b := memcpy_to b 0 buf2
        let b := memcpy_to b e2 buf1
        some (true, { data := b })
      else
        some (false, buf)
    else
      none

/-- A tls-auth configuration whose two HMAC contexts use SHA1 (20-byte
digests). -/
def tls_auth_sha1 : crypto_options :=
  { key_ctx_bi := some { encrypt := { hmac := some 20 }, decrypt := { hmac := some 20 } } }

/-! ## Key states, sessions and the per-peer TLS aggregate -/

/-- Modelled from the spec: `S_ERROR` of ssl.h, placed below `S_UNDEF`, as the
final `else if (lame->state == S_ERROR)` of `lame_duck_must_die` requires. -/
def S_ERROR : Int := -1

/-- Modelled from the spec: `S_UNDEF` of ssl.h, first in the spec's order of
states `UNDEF, INITIAL, PRE_START, START, SENT_KEY, GOT_KEY, ACTIVE, NORMAL`. -/
def S_UNDEF : Int := 0

/-- Modelled from the spec: `S_INITIAL` of ssl.h (second in the spec's order). -/
def S_INITIAL : Int := 1

/-- Modelled from the spec: `S_PRE_START` of ssl.h (third in the spec's order). -/
def S_PRE_START : Int := 2

/-- Modelled from the spec: `S_START` of ssl.h (fourth in the spec's order). -/
def S_START : Int := 3

/-- Modelled from the spec: `S_SENT_KEY` of ssl.h (fifth in the spec's order). -/
def S_SENT_KEY : Int := 4

/-- Modelled from the spec: `S_GOT_KEY` of ssl.h (sixth in the spec's order). -/
def S_GOT_KEY : Int := 5

/-- Modelled from the spec: `S_ACTIVE` of ssl.h (seventh in the spec's order). -/
def S_ACTIVE : Int := 6

/-- Modelled from the spec: `S_NORMAL` of ssl.h (eighth in the spec's order). -/
def S_NORMAL : Int := 7

/-- Modelled from the spec: `TM_ACTIVE` of ssl.h, first of the three sessions
`ACTIVE, UNTRUSTED, LAME_DUCK` of a peer. -/
def TM_ACTIVE : Nat := 0

/-- Modelled from the spec: `TM_UNTRUSTED` of ssl.h (second session). -/
def TM_UNTRUSTED : Nat := 1

/-- Modelled from the spec: `TM_LAME_DUCK` of ssl.h (third session). -/
def TM_LAME_DUCK : Nat := 2

/-- Modelled from the spec: `TM_SIZE` of ssl.h, "up to three concurrent"
sessions. -/
def TM_SIZE : Nat := 3

/-- The packet opcodes `P_*` of ssl.h. The header is not among the sources, so
the numeric values are parameters of the embedding. -/
structure opcodes where
  P_CONTROL_HARD_RESET_CLIENT_V1 : Nat
  P_CONTROL_HARD_RESET_SERVER_V1 : Nat
  P_CONTROL_SOFT_RESET_V1 : Nat
  P_CONTROL_V1 : Nat
  P_ACK_V1 : Nat
  P_DATA_V1 : Nat
  P_CONTROL_HARD_RESET_CLIENT_V2 : Nat
  P_CONTROL_HARD_RESET_SERVER_V2 : Nat
  P_FIRST_OPCODE : Nat
  P_LAST_OPCODE : Nat
  deriving DecidableEq, Repr

/-- What the code relies on about the opcode numbering: the four hard-reset
opcodes are control opcodes, that is, they lie between `P_FIRST_OPCODE` and
`P_LAST_OPCODE` and none of them is `P_DATA_V1`. -/
def opcodes.hard_resets_are_control (P : opcodes) : Prop :=
  [P.P_CONTROL_HARD_RESET_CLIENT_V1, P.P_CONTROL_HARD_RESET_SERVER_V1,
    P.P_CONTROL_HARD_RESET_CLIENT_V2, P.P_CONTROL_HARD_RESET_SERVER_V2].all
      (fun op => decide (op ≠ P.P_DATA_V1 ∧ P.P_FIRST_OPCODE ≤ op ∧ op ≤ P.P_LAST_OPCODE)) = true

/-- The opcode numbering of the OpenVPN wire protocol. -/
def openvpn_opcodes : opcodes :=
  { P_CONTROL_HARD_RESET_CLIENT_V1 := 1
    P_CONTROL_HARD_RESET_SERVER_V1 := 2
    P_CONTROL_SOFT_RESET_V1 := 3
    P_CONTROL_V1 := 4
    P_ACK_V1 := 5
    P_DATA_V1 := 6
    P_CONTROL_HARD_RESET_CLIENT_V2 := 7
    P_CONTROL_HARD_RESET_SERVER_V2 := 8
    P_FIRST_OPCODE := 1
    P_LAST_OPCODE := 8 }

/-- A `struct session_id`: the `SID_SIZE` bytes of the id. -/
structure session_id where
  id : List Nat
  deriving DecidableEq, Repr

/-- A `struct sockaddr_in`, reduced to address and port. -/
structure sockaddr_in where
  sin_addr : Nat
  sin_port : Nat
  deriving DecidableEq, Repr

/-- The fields of `struct tls_options` that the embedded functions read. -/
structure tls_options where
  server : Bool
  key_method : Int
  single_session : Bool
  replay : Bool
  packet_id_long_form : Bool
  renegotiate_seconds : Int
  renegotiate_bytes : Int
  renegotiate_packets : Int
  handshake_window : Int
  transition_window : Int
  /-- The member `tls_auth`, the control-channel authentication parameters. -/
  tls_auth : crypto_options := { key_ctx_bi := none }
  /-- The member `pass_config_info`. -/
  pass_config_info : Bool := false
  /-- The characters of the string `local_options`, without its final NUL. -/
  local_options : List Nat := []
  deriving DecidableEq, Repr

/-- A `struct key_state`. The TLS object, the BIOs and the reliability
objects are owned by code outside the sources read; what they answer is an
input of the functions below. `packet_id_send` is `packet_id.send.id`. -/
structure key_state where
  state : Int
  key_id : Nat
  initial_opcode : Nat
  session_id_remote : session_id
  remote_addr : sockaddr_in
  established : Int
  must_negotiate : Int
  must_die : Int
  n_bytes : Int
  n_packets : Int
  key : key_ctx_bi
  plaintext_read_buf : buffer
  plaintext_write_buf : buffer
  packet_id_send : Nat
  deriving DecidableEq, Repr

/-- `CLEAR (*ks)`: every field zero. -/
def key_state_clear : key_state :=
  { state := 0, key_id := 0, initial_opcode := 0
    session_id_remote := { id := List.replicate SID_SIZE 0 }
    remote_addr := { sin_addr := 0, sin_port := 0 }
    established := 0, must_negotiate := 0, must_die := 0
    n_bytes := 0, n_packets := 0
    key := { encrypt := { hmac := none }, decrypt := { hmac := none } }
    plaintext_read_buf := { data := [] }
    plaintext_write_buf := { data := [] }
    packet_id_send := 0 }

/-- A `struct tls_session`; `key_primary` is `key[KS_PRIMARY]` and
`key_lame_duck` is `key[KS_LAME_DUCK]`. The pointer `opt` always refers to the
options of the owning `tls_multi`, which the functions take as an argument. -/
structure tls_session where
  session_id : session_id
  initial_opcode : Nat
  key_id : Nat
  tls_auth : crypto_options
  burst : Bool
  untrusted_sockaddr : sockaddr_in
  key_primary : key_state
  key_lame_duck : key_state
  deriving DecidableEq, Repr

/-- A `struct tls_multi`; the three fields `session_*` are
`session[TM_ACTIVE]`, `session[TM_UNTRUSTED]` and `session[TM_LAME_DUCK]`. -/
structure tls_multi where
  opt : tls_options
  session_active : tls_session
  session_untrusted : tls_session
  session_lame_duck : tls_session
  n_errors : Int
  n_sessions : Int
  deriving DecidableEq, Repr

/-- Helper functions of headers outside the sources read (session_id.h,
socket.h, ssl.h, packet_id.h), taken as parameters. -/
structure externals where
  session_id_read : buffer → Option session_id
  session_id_defined : session_id → Bool
  session_id_equal : session_id → session_id → Bool
  addr_defined : sockaddr_in → Bool
  addr_port_match : sockaddr_in → sockaddr_in → Bool
  DECRYPT_KEY_ENABLED : tls_options → key_state → Bool
  packet_id_close_to_wrapping : Nat → Bool

/-- `multi->session[i]`. -/
def tls_multi.session (multi : tls_multi) (i : Nat) : tls_session :=
  if i = TM_ACTIVE then multi.session_active
  else if i = TM_UNTRUSTED then multi.session_untrusted
  else multi.session_lame_duck

/-- The assignment `multi->session[i] = s`. -/
def tls_multi.set_session (multi : tls_multi) (i : Nat) (s : tls_session) : tls_multi :=
  if i = TM_ACTIVE then { multi with session_active := s }
  else if i = TM_UNTRUSTED then { multi with session_untrusted := s }
  else { multi with session_lame_duck := s }

/-- The key `*multi->key_scan[i]`, with the pointers that `tls_multi_init`
sets up: the primary and the lame-duck key of the active session, then the
lame-duck key of the lame-duck session. -/
def tls_multi.key_scan (multi : tls_multi) (i : Nat) : key_state :=
  if i = 0 then multi.session_active.key_primary
  else if i = 1 then multi.session_active.key_lame_duck
  else multi.session_lame_duck.key_lame_duck

/-- An assignment through `multi->key_scan[i]`. -/
def tls_multi.set_key_scan (multi : tls_multi) (i : Nat) (ks : key_state) : tls_multi :=
  if i = 0 then { multi with session_active := { multi.session_active with key_primary := ks } }
  else if i = 1 then
    { multi with session_active := { multi.session_active with key_lame_duck := ks } }
  else { multi with session_lame_duck := { multi.session_lame_duck with key_lame_duck := ks } }

/-- `is_hard_reset` (ssl.c). -/
def is_hard_reset (P : opcodes) (op : Nat) (key_method : Int) : Bool :=
  if (key_method = 0 ∨ key_method = 1)
      ∧ (op = P.P_CONTROL_HARD_RESET_CLIENT_V1 ∨ op = P.P_CONTROL_HARD_RESET_SERVER_V1) then
    true
  else if (key_method = 0 ∨ key_method ≥ 2)
      ∧ (op = P.P_CONTROL_HARD_RESET_CLIENT_V2 ∨ op = P.P_CONTROL_HARD_RESET_SERVER_V2) then
    true
  else
    false

/-- `key_state_init` (ssl.c) on `session->key[KS_PRIMARY]`, the slot both
callers pass. The key state is cleared, takes the session's pending opcode and
key id and starts in `S_INITIAL`; the session's opcode for later keys becomes
the soft reset and its key id advances, wrapping from 7 to 1. -/
def key_state_init (P : opcodes) (session : tls_session) : tls_session :=
  let ks := key_state_clear
  let ks := { ks with initial_opcode := session.initial_opcode }
  let session := { session with initial_opcode := P.P_CONTROL_SOFT_RESET_V1 }
  let ks := { ks with state := S_INITIAL }
  let ks := { ks with key_id := session.key_id }
  let session := { session with key_id := session.key_id + 1 }
  let session := { session with key_id := session.key_id &&& P_KEY_ID_MASK }
  let session := if session.key_id = 0 then { session with key_id := 1 } else session
  { session with key_primary := ks }

/-- `key_state_free (ks, clear)` (ssl.c). -/
def key_state_free (ks : key_state) (clear : Bool) : key_state :=
  let ks := { ks with state := S_UNDEF }
  let ks := { ks with key := { encrypt := { hmac := none }, decrypt := { hmac := none } }
                      plaintext_read_buf := { data := [] }
                      plaintext_write_buf := { data := [] } }
  if clear then key_state_clear else ks

/-- `key_state_soft_reset` (ssl.c); `now` is the global of that name on
entry. -/
def key_state_soft_reset (P : opcodes) (opt : tls_options) (now : Int)
    (session : tls_session) : tls_session :=
  let session := { session with
    key_primary := { session.key_primary with must_die := now + opt.transition_window } }
  let session := { session with key_lame_duck := key_state_free session.key_lame_duck false }
  let session := { session with key_lame_duck := session.key_primary }
  let session := key_state_init P session
  let session := { session with key_primary := { session.key_primary with
    session_id_remote := session.key_lame_duck.session_id_remote } }
  { session with key_primary := { session.key_primary with
    remote_addr := session.key_lame_duck.remote_addr } }

/-! ## `tls_pre_decrypt` -/

/-- What `tls_pre_decrypt` leaves behind: its return value, the `tls_multi`,
the packet buffer and the crypto options handed back to the caller. -/
structure tls_pre_decrypt_result where
  ret : Bool
  multi : tls_multi
  buf : buffer
  opt : crypto_options
  deriving DecidableEq, Repr

/-- The answers of the two stateful calls of `tls_pre_decrypt` whose outcome is
decided outside the sources read: `read_control_auth` (HMAC verification) and
`reliable_ack_read`. -/
structure tls_pre_decrypt_env where
  read_control_auth : Bool
  reliable_ack_read : Bool
  deriving DecidableEq, Repr

/-- The label `done:` of `tls_pre_decrypt`. -/
def tls_pre_decrypt_done (ret : Bool) (multi : tls_multi) (opt : crypto_options) :
    tls_pre_decrypt_result :=
  { ret := ret
    multi := multi
    buf := { data := [] }
    opt := { opt with key_ctx_bi := none, packet_id := none, pid_persist := none
                      packet_id_long_form := false } }

/-- The label `error:` of `tls_pre_decrypt`: `++multi->n_errors; goto done`. -/
def tls_pre_decrypt_error (ret : Bool) (multi : tls_multi) (opt : crypto_options) :
    tls_pre_decrypt_result :=
  tls_pre_decrypt_done ret { multi with n_errors := multi.n_errors + 1 } opt

/-- The data-channel loop of `tls_pre_decrypt` over `key_scan`: the first index
in the list whose key can decrypt, has the packet's key id and the sender's
address. -/
def tls_pre_decrypt_key_scan (X : externals) (multi : tls_multi) (src : sockaddr_in)
    (key_id : Nat) : List Nat → Option Nat
  | [] => none
  | i :: rest =>
    let ks := multi.key_scan i
    if X.DECRYPT_KEY_ENABLED multi.opt ks ∧ key_id = ks.key_id
        ∧ X.addr_port_match src ks.remote_addr then
      some i
    else
      tls_pre_decrypt_key_scan X multi src key_id rest

/-- The loop of `tls_pre_decrypt` that matches the packet's session id with a
session: `some i` when the loop stops at session `i` (or runs to the end,
`i = TM_SIZE`), `none` when it leaves through `goto error` on a match with the
lame-duck session. -/
def tls_pre_decrypt_match_session (X : externals) (multi : tls_multi) (sid : session_id) :
    List Nat → Option Nat
  | [] => some TM_SIZE
  | i :: rest =>
    if X.session_id_equal (multi.session i).key_primary.session_id_remote sid then
      if i = TM_LAME_DUCK then none else some i
    else
      tls_pre_decrypt_match_session X multi sid rest

/-- The last block of the control-channel branch of `tls_pre_decrypt`
("We have an authenticated packet"), for the session index `i`. -/
def tls_pre_decrypt_reliable (X : externals) (e : tls_pre_decrypt_env) (multi : tls_multi)
    (src : sockaddr_in) (opt : crypto_options) (key_id : Nat) (sid : session_id)
    (i : Nat) (new_link do_burst : Bool) : Option tls_pre_decrypt_result :=
  let session := multi.session i
  let ks := session.key_primary
  if ks.state = S_UNDEF ∨ ks.state = S_ERROR ∨ X.session_id_defined session.session_id = false then
    none
  else
    let ret := true
    if new_link = false ∧ X.addr_port_match ks.remote_addr src = false then
      tls_pre_decrypt_error ret multi opt
    else
      let ks := if new_link then { ks with session_id_remote := sid, remote_addr := src } else ks
      let multi := if new_link then { multi with n_sessions := multi.n_sessions + 1 } else multi
      let session := { session with key_primary := ks }
      let session :=
        if do_burst ∧ session.burst = false then { session with burst := true } else session
      let multi := multi.set_session i session
      if ks.key_id ≠ key_id then
        tls_pre_decrypt_error ret multi opt
      else if e.reliable_ack_read = false then
        tls_pre_decrypt_error ret multi opt
      else
        tls_pre_decrypt_done ret multi opt

/-- The control-channel branch of `tls_pre_decrypt` from the session lookup
on, for a packet with a legal opcode `op` and remote session id `sid`. -/
def tls_pre_decrypt_control (P : opcodes) (X : externals) (e : tls_pre_decrypt_env)
    (now : Int) (multi : tls_multi) (src : sockaddr_in) (opt : crypto_options)
    (op key_id : Nat) (sid : session_id) : Option tls_pre_decrypt_result :=
  match tls_pre_decrypt_match_session X multi sid [0, 1, 2] with
  | none => tls_pre_decrypt_error false multi opt
  | some i =>
    let initial := decide (i = TM_SIZE) && is_hard_reset P op 0
    if initial ∧ is_hard_reset P op multi.opt.key_method = false then
      tls_pre_decrypt_error false multi opt
    else
      let fresh := initial
        && !X.session_id_defined multi.session_active.key_primary.session_id_remote
      if fresh ∧ multi.opt.single_session ∧ multi.n_sessions ≠ 0 then
        tls_pre_decrypt_error false multi opt
      else
        let do_burst := fresh
        let new_link := fresh
        let i := if fresh then TM_ACTIVE else i
        let multi := if fresh then
            { multi with session_active := { multi.session_active with untrusted_sockaddr := src } }
          else multi
        if i = TM_SIZE ∧ is_hard_reset P op 0 then
          if multi.opt.single_session then
            tls_pre_decrypt_error false multi opt
          else if is_hard_reset P op multi.opt.key_method = false then
            tls_pre_decrypt_error false multi opt
          else if e.read_control_auth = false then
            tls_pre_decrypt_error false multi opt
          else
            let multi := { multi with
              session_untrusted := { multi.session_untrusted with untrusted_sockaddr := src } }
            tls_pre_decrypt_reliable X e multi src opt key_id sid TM_UNTRUSTED true do_burst
        else if i ≠ TM_ACTIVE ∧ i ≠ TM_UNTRUSTED then
          tls_pre_decrypt_error false multi opt
        else
          let session := multi.session i
          let ks := session.key_primary
          if new_link = false ∧ X.addr_port_match ks.remote_addr src = false then
            tls_pre_decrypt_error false multi opt
          else if op = P.P_CONTROL_SOFT_RESET_V1 ∧ X.DECRYPT_KEY_ENABLED multi.opt ks then
            if e.read_control_auth = false then
              tls_pre_decrypt_error false multi opt
            else
              let multi := multi.set_session i (key_state_soft_reset P multi.opt now session)
              tls_pre_decrypt_reliable X e multi src opt key_id sid i new_link do_burst
          else
            let do_burst := do_burst || decide (op = P.P_CONTROL_SOFT_RESET_V1)
            if e.read_control_auth = false then
              tls_pre_decrypt_error false multi opt
            else
              tls_pre_decrypt_reliable X e multi src opt key_id sid i new_link do_burst

/-- `tls_pre_decrypt` (ssl.c). `src` is the argument `from`, `now` the global
of that name; the result is `none` when an `ASSERT` fails. -/
def tls_pre_decrypt (P : opcodes) (X : externals) (e : tls_pre_decrypt_env) (now : Int)
    (multi : tls_multi) (src : sockaddr_in) (buf : buffer) (opt : crypto_options) :
    Option tls_pre_decrypt_result :=
  match buf.data with
  | [] => tls_pre_decrypt_done false multi opt
  | c :: _ =>
    let op := c >>> P_OPCODE_SHIFT
    let key_id := c &&& P_KEY_ID_MASK
    if op = P.P_DATA_V1 then
      match tls_pre_decrypt_key_scan X multi src key_id [0, 1, 2] with
      | some i =>
        let ks := multi.key_scan i
        let opt := { opt with
          key_ctx_bi := some ks.key
          packet_id := if multi.opt.replay then some i else none
          pid_persist := none
          packet_id_long_form := multi.opt.packet_id_long_form }
        let buf : buffer := { data := buf.data.drop 1 }
        let ks := { ks with n_packets := ks.n_packets + 1 }
        let ks := { ks with n_bytes := ks.n_bytes + BLEN buf }
        some { ret := false, multi := multi.set_key_scan i ks, buf := buf, opt := opt }
      | none => tls_pre_decrypt_error false multi opt
    else if op < P.P_FIRST_OPCODE ∨ op > P.P_LAST_OPCODE then
      tls_pre_decrypt_error false multi opt
    else if is_hard_reset P op 0
        ∧ (((op = P.P_CONTROL_HARD_RESET_CLIENT_V1 ∨ op = P.P_CONTROL_HARD_RESET_CLIENT_V2)
              ∧ multi.opt.server = false)
          ∨ ((op = P.P_CONTROL_HARD_RESET_SERVER_V1 ∨ op = P.P_CONTROL_HARD_RESET_SERVER_V2)
              ∧ multi.opt.server = true)) then
      tls_pre_decrypt_error false multi opt
    else
      match X.session_id_read { data := buf.data.drop 1 } with
      | none => tls_pre_decrypt_error false multi opt
      | some sid =>
        if X.session_id_defined sid = false then
          tls_pre_decrypt_error false multi opt
        else
          tls_pre_decrypt_control P X e now multi src opt op key_id sid

/-! ## `tls_process` -/

/-- `compute_earliest_wakeup` (ssl.c): the new value of `*earliest`. -/
def compute_earliest_wakeup (earliest seconds_from_now : Int) : Int :=
  let earliest := if seconds_from_now < earliest then seconds_from_now else earliest
  if earliest < 0 then 0 else earliest

/-- `lame_duck_must_die` (ssl.c): the returned flag and the new `*wakeup`;
`none` when the `ASSERT (lame->must_die)` fails. `now` is the global. -/
def lame_duck_must_die (now : Int) (session : tls_session) (wakeup : Int) :
    Option (Bool × Int) :=
  let lame := session.key_lame_duck
  if lame.state ≥ S_INITIAL then
    let local_now := now
    if lame.must_die = 0 then
      none
    else if local_now < lame.must_die then
      some (false, compute_earliest_wakeup wakeup (lame.must_die - local_now))
    else
      some (true, wakeup)
  else if lame.state = S_ERROR then
    some (true, wakeup)
  else
    some (false, wakeup)

/-- The condition of the `if` that guards `key_state_soft_reset` at the head of
`tls_process` ("Should we trigger a soft reset?"). -/
def tls_process_soft_reset_due (X : externals) (opt : tls_options) (now : Int)
    (ks : key_state) : Bool :=
  decide (ks.state ≥ S_ACTIVE) &&
    ((decide (opt.renegotiate_seconds ≠ 0)
        && decide (now ≥ ks.established + opt.renegotiate_seconds))
      || (decide (opt.renegotiate_bytes ≠ 0) && decide (ks.n_bytes ≥ opt.renegotiate_bytes))
      || (decide (opt.renegotiate_packets ≠ 0)
        && decide (ks.n_packets ≥ opt.renegotiate_packets))
      || X.packet_id_close_to_wrapping ks.packet_id_send)

/-- The first statement of `tls_process` after its `ASSERT`s: the soft reset,
when due. The result is the session and the global `now`, which the
`update_time ()` inside `key_state_init` sets to the clock reading `clock`. -/
def tls_process_soft_reset (P : opcodes) (X : externals) (opt : tls_options) (clock now : Int)
    (session : tls_session) : tls_session × Int :=
  if tls_process_soft_reset_due X opt now session.key_primary then
    (key_state_soft_reset P opt now session, clock)
  else
    (session, now)

/-- The second statement of `tls_process`: "Kill lame duck key transition_window
seconds after primary key negotiation". The result is the session and
`*wakeup`; `none` when the `ASSERT` of `lame_duck_must_die` fails. -/
def tls_process_kill_lame_duck (now : Int) (session : tls_session) (wakeup : Int) :
    Option (tls_session × Int) :=
  match lame_duck_must_die now session wakeup with
  | none => none
  | some (true, wakeup) =>
    some ({ session with key_lame_duck := key_state_free session.key_lame_duck true }, wakeup)
  | some (false, wakeup) => some (session, wakeup)

/-- What one call of `BIO_write` or `BIO_read` answers: its return value,
`BIO_should_retry`, and for a read the bytes placed in the buffer. -/
structure bio_answer where
  i : Int
  should_retry : Bool
  bytes : List Nat
  deriving DecidableEq, Repr

/-- `bio_write` (ssl.c): the returned status and the buffer afterwards. -/
def bio_write (a : bio_answer) (buf : buffer) : Int × buffer :=
  if BLEN buf ≠ 0 then
    if a.i < 0 then
      if a.should_retry then (0, buf) else (-1, buf)
    else if a.i ≠ BLEN buf then (-1, buf)
    else (1, { data := [] })
  else (0, buf)

/-- `bio_read` (ssl.c): the returned status and the buffer afterwards; after a
successful read the buffer holds the `i` bytes read. -/
def bio_read (a : bio_answer) (buf : buffer) : Int × buffer :=
  if BLEN buf ≠ 0 then (0, buf)
  else if a.i < 0 then
    if a.should_retry then (0, buf) else (-1, { data := [] })
  else if a.i = 0 then (0, { data := [] })
  else (1, { data := (a.bytes ++ List.replicate a.i.toNat 0).take a.i.toNat })

/-- How a key exchange step of `tls_process` ("Send Key", "Receive Key") ends:
an `ASSERT` on a buffer operation fails, the step leaves through `goto error`,
or it completes and leaves the key contexts `key` in the key state. The
computations behind it (key generation, key expansion, parsing of the peer's
payload) are inputs; what a step that leaves through `goto error` has done to
the plaintext buffers before is not tracked. -/
inductive key_answer where
  | abort
  | error
  | ok (key : key_ctx_bi)
  deriving DecidableEq, Repr

/-- The answers, during one pass of the `do ... while (state_change)` loop of
`tls_process`, of the reliability layer, the TLS BIOs, the clock and the key
exchange. -/
structure tls_process_env where
  /-- The clock reading of `update_time ()` at the head of the pass. -/
  clock_top : Int
  /-- The clock reading of `update_time ()` after `key_state_read_plaintext`. -/
  clock_read : Int
  /-- Whether `reliable_get_buf_output_sequenced` has a buffer for the reset. -/
  get_buf_output_sequenced_initial : Bool
  /-- The value of `reliable_empty (ks->send_reliable)`. -/
  reliable_empty : Bool
  /-- The value of `reliable_ack_empty (ks->rec_ack)`. -/
  reliable_ack_empty : Bool
  /-- The value of `reliable_can_send (ks->send_reliable)`. -/
  reliable_can_send : Bool
  /-- Whether the `ASSERT`s on `reliable_send`, `buf_init` and inside
  `write_control_auth` (other than `addr_defined`) hold. -/
  write_control_auth_asserts : Bool
  /-- The packet `write_control_auth` builds from the reliable send buffer. -/
  control_packet : buffer
  /-- The packet `write_control_auth` builds for a dedicated ACK. -/
  ack_packet : buffer
  /-- The buffer `reliable_get_buf_sequenced (ks->rec_reliable)` returns, if any. -/
  get_buf_sequenced : Option buffer
  /-- The `BIO_write` behind `key_state_write_ciphertext`. -/
  write_ciphertext : bio_answer
  /-- The `BIO_read` behind `key_state_read_plaintext`. -/
  read_plaintext : bio_answer
  /-- The outcome of the step "Send Key". -/
  send_key : key_answer
  /-- The payload that "Send Key" leaves in `plaintext_write_buf`. -/
  send_key_payload : buffer
  /-- The outcome of the step "Receive Key". -/
  recv_key : key_answer
  /-- The `BIO_write` behind `key_state_write_plaintext`. -/
  write_plaintext : bio_answer
  /-- Whether `reliable_get_buf_output_sequenced` has a buffer for ciphertext. -/
  get_buf_output_sequenced : Bool
  /-- The `BIO_read` behind `key_state_read_ciphertext`. -/
  read_ciphertext : bio_answer
  deriving DecidableEq, Repr

/-- The variables of `tls_process` that change inside its loop: the primary key
state `ks`, the global `now`, `*to_link`, `*to_link_addr`, `state_change` and
`active`. -/
structure tls_process_st where
  ks : key_state
  now : Int
  to_link : buffer
  to_link_addr : sockaddr_in
  state_change : Bool
  active : Bool
  deriving DecidableEq, Repr

/-- Where control goes after a block of the loop body: on to the next block,
out of the loop (`break`), to the label `error:`, or into a failed `ASSERT`. -/
inductive tls_flow where
  | next (st : tls_process_st)
  | brk (st : tls_process_st)
  | err (st : tls_process_st)
  | abort
  deriving DecidableEq, Repr

/-- `FULL_SYNC` (ssl.c): "true if no in/out acknowledgements pending". -/
def FULL_SYNC (e : tls_process_env) : Bool :=
  e.reliable_empty && e.reliable_ack_empty

/-- Loop body, "Initial handshake". -/
def tls_process_initial (opt : tls_options) (e : tls_process_env) (st : tls_process_st) :
    tls_flow :=
  if st.ks.state = S_INITIAL ∧ e.get_buf_output_sequenced_initial then
    let ks := { st.ks with must_negotiate := st.now + opt.handshake_window }
    let ks := { ks with state := S_PRE_START }
    .next { st with ks := ks, state_change := true }
  else
    .next st

/-- Loop body, "Are we timed out on receive?". -/
def tls_process_timeout (st : tls_process_st) : tls_flow :=
  if st.now ≥ st.ks.must_negotiate then
    if st.ks.state < S_ACTIVE then
      .err st
    else
      .next { st with ks := { st.ks with state := S_NORMAL, must_negotiate := 0 } }
  else
    .next st

/-- Loop body, "Wait for Initial Handshake ACK". -/
def tls_process_pre_start (e : tls_process_env) (st : tls_process_st) : tls_flow :=
  if st.ks.state = S_PRE_START ∧ FULL_SYNC e then
    .next { st with ks := { st.ks with state := S_START }, state_change := true }
  else
    .next st

/-- Loop body, "Wait for ACK". -/
def tls_process_wait_ack (opt : tls_options) (e : tls_process_env) (st : tls_process_st) :
    tls_flow :=
  if (st.ks.state = S_GOT_KEY ∧ opt.server = false)
      ∨ (st.ks.state = S_SENT_KEY ∧ opt.server = true) then
    if FULL_SYNC e then
      let ks := { st.ks with established := st.now }
      let ks := { ks with state := S_ACTIVE }
      .next { st with ks := ks, state_change := true }
    else
      .next st
  else
    .next st

/-- Loop body, "Reliable buffer to outgoing TCP/UDP". -/
def tls_process_send (X : externals) (e : tls_process_env) (st : tls_process_st) : tls_flow :=
  if BLEN st.to_link = 0 ∧ e.reliable_can_send then
    if X.addr_defined st.ks.remote_addr = false ∨ e.write_control_auth_asserts = false then
      .abort
    else
      .brk { st with to_link := e.control_packet, to_link_addr := st.ks.remote_addr
                     active := true, state_change := true }
  else
    .next st

/-- Loop body, "Send 1 or more ACKs". -/
def tls_process_send_ack (X : externals) (e : tls_process_env) (st : tls_process_st) :
    tls_flow :=
  if BLEN st.to_link = 0 ∧ e.reliable_ack_empty = false then
    if X.addr_defined st.ks.remote_addr = false ∨ e.write_control_auth_asserts = false then
      .abort
    else
      .brk { st with to_link := e.ack_packet, to_link_addr := st.ks.remote_addr
                     active := true, state_change := true }
  else
    .next st

/-- Loop body, "Write incoming ciphertext to TLS object". -/
def tls_process_ciphertext_in (e : tls_process_env) (st : tls_process_st) : tls_flow :=
  match e.get_buf_sequenced with
  | none => .next st
  | some buf =>
    let status : Int := if BLEN buf ≠ 0 then (bio_write e.write_ciphertext buf).1 else 1
    if BLEN buf ≠ 0 ∧ status = -1 then .err st
    else if status = 1 then .next { st with state_change := true }
    else .next st

/-- Loop body, "Read incoming plaintext from TLS object". -/
def tls_process_plaintext_in (e : tls_process_env) (st : tls_process_st) : tls_flow :=
  if BLEN st.ks.plaintext_read_buf = 0 then
    let r := bio_read e.read_plaintext { data := [] }
    let st := { st with ks := { st.ks with plaintext_read_buf := r.2 }, now := e.clock_read }
    if r.1 = -1 then .err st
    else if r.1 = 1 then .next { st with state_change := true }
    else .next st
  else
    .next st

/-- Loop body, "Send Key". -/
def tls_process_send_key (opt : tls_options) (e : tls_process_env) (st : tls_process_st) :
    tls_flow :=
  if BLEN st.ks.plaintext_write_buf = 0
      ∧ ((st.ks.state = S_START ∧ opt.server = false)
        ∨ (st.ks.state = S_GOT_KEY ∧ opt.server = true)) then
    if opt.key_method ≠ 1 ∧ opt.key_method ≠ 2 then .abort
    else
      match e.send_key with
      | .abort => .abort
      | .error => .err st
      | .ok key =>
        let ks := { st.ks with plaintext_write_buf := e.send_key_payload, key := key }
        let ks := { ks with state := S_SENT_KEY }
        .next { st with ks := ks, state_change := true }
  else
    .next st

/-- Loop body, "Receive Key". -/
def tls_process_recv_key (opt : tls_options) (e : tls_process_env) (st : tls_process_st) :
    tls_flow :=
  if BLEN st.ks.plaintext_read_buf ≠ 0
      ∧ ((st.ks.state = S_SENT_KEY ∧ opt.server = false)
        ∨ (st.ks.state = S_START ∧ opt.server = true)) then
    if opt.key_method ≠ 1 ∧ opt.key_method < 2 then .abort
    else
      match e.recv_key with
      | .abort => .abort
      | .error => .err st
      | .ok key =>
        let ks := { st.ks with plaintext_read_buf := { data := [] }, key := key }
        let ks := { ks with state := S_GOT_KEY }
        .next { st with ks := ks, state_change := true }
  else
    .next st

/-- Loop body, "Write outgoing plaintext to TLS object". -/
def tls_process_plaintext_out (e : tls_process_env) (st : tls_process_st) : tls_flow :=
  if BLEN st.ks.plaintext_write_buf ≠ 0 then
    let r := bio_write e.write_plaintext st.ks.plaintext_write_buf
    let st := { st with ks := { st.ks with plaintext_write_buf := r.2 } }
    if r.1 = -1 then .err st
    else if r.1 = 1 then .next { st with state_change := true }
    else .next st
  else
    .next st

/-- Loop body, "Outgoing Ciphertext to reliable buffer". -/
def tls_process_ciphertext_out (e : tls_process_env) (st : tls_process_st) : tls_flow :=
  if st.ks.state ≥ S_START ∧ e.get_buf_output_sequenced then
    let status := (bio_read e.read_ciphertext { data := [] }).1
    if status = -1 then .err st
    else if status = 1 then .next { st with state_change := true }
    else .next st
  else
    .next st

/-- The blocks of the body of the loop of `tls_process`, in program order. -/
def tls_process_blocks (X : externals) (opt : tls_options) (e : tls_process_env) :
    List (tls_process_st → tls_flow) :=
  [tls_process_initial opt e, tls_process_timeout, tls_process_pre_start e,
   tls_process_wait_ack opt e, tls_process_send X e, tls_process_send_ack X e,
   tls_process_ciphertext_in e, tls_process_plaintext_in e, tls_process_send_key opt e,
   tls_process_recv_key opt e, tls_process_plaintext_out e, tls_process_ciphertext_out e]

/-- Runs blocks one after the other until one leaves the straight path. The
first component lists the primary key state after each block that ran. -/
def run_blocks : List (tls_process_st → tls_flow) → tls_process_st →
    List key_state × tls_flow
  | [], st => ([], .next st)
  | b :: bs, st =>
    match b st with
    | .next st1 => ((run_blocks bs st1).1.cons st1.ks, (run_blocks bs st1).2)
    | .brk st1 => ([st1.ks], .brk st1)
    | .err st1 => ([st1.ks], .err st1)
    | .abort => ([], .abort)

/-- How the loop of `tls_process` ends: it falls through to the wakeup
computation, it jumps to `error:`, an `ASSERT` fails, or the passes for which
answers were supplied did not suffice. -/
inductive tls_loop_end where
  | done (st : tls_process_st)
  | error (st : tls_process_st)
  | abort
  | unfinished (st : tls_process_st)
  deriving DecidableEq, Repr

/-- The `do ... while (state_change)` loop of `tls_process`, one element of the
list of answers per pass. The first component lists the primary key state
after each block that ran. -/
def tls_process_loop (X : externals) (opt : tls_options) :
    List tls_process_env → tls_process_st → List key_state × tls_loop_end
  | [], st => ([], .unfinished st)
  | e :: es, st =>
    let st := { st with now := e.clock_top, state_change := false }
    match run_blocks (tls_process_blocks X opt e) st with
    | (tr, .next st1) =>
      if st1.state_change then
        (tr ++ (tls_process_loop X opt es st1).1, (tls_process_loop X opt es st1).2)
      else (tr, .done st1)
    | (tr, .brk st1) => (tr, .done st1)
    | (tr, .err st1) => (tr, .error st1)
    | (tr, .abort) => (tr, .abort)

/-- What a call of `tls_process` leaves behind: the return value, the session,
`*to_link`, `*to_link_addr`, `*wakeup` and the global `now`. -/
structure tls_process_result where
  ret : Bool
  session : tls_session
  to_link : buffer
  to_link_addr : sockaddr_in
  wakeup : Int
  now : Int
  deriving DecidableEq, Repr

/-- How a call of `tls_process` ends. -/
inductive tls_process_end where
  | returned (r : tls_process_result)
  | abort
  | unfinished
  deriving DecidableEq, Repr

/-- The answers that `tls_process` gets outside its loop: the clock readings of
`update_time ()` in `key_state_init` and after the loop, and
`reliable_send_timeout`. -/
structure tls_process_outer_env where
  clock_init : Int
  clock_end : Int
  reliable_send_timeout : Int
  deriving DecidableEq, Repr

/-- The tail of `tls_process`, "When should we wake up again?": the new
`*wakeup` and `active`. -/
def tls_process_wakeup (opt : tls_options) (o : tls_process_outer_env) (now : Int)
    (ks : key_state) (wakeup : Int) (active : Bool) : Int × Bool :=
  let wakeup :=
    if ks.state ≥ S_INITIAL then
      let wakeup := compute_earliest_wakeup wakeup o.reliable_send_timeout
      if ks.must_negotiate ≠ 0 then compute_earliest_wakeup wakeup (ks.must_negotiate - now)
      else wakeup
    else wakeup
  let wakeup :=
    if ks.established ≠ 0 ∧ opt.renegotiate_seconds ≠ 0 then
      compute_earliest_wakeup wakeup (ks.established + opt.renegotiate_seconds - now)
    else wakeup
  if wakeup ≤ 0 then (1, true) else (wakeup, active)

/-- The two ways out of `tls_process` behind its loop: the wakeup computation
with `return active`, and the label `error:`, which puts the primary key in
`S_ERROR` and returns false. `session` and `wakeup` are the session and
`*wakeup` as they were when the loop was entered, `run` is what the loop
produced. -/
def tls_process_finish (opt : tls_options) (o : tls_process_outer_env) (session : tls_session)
    (wakeup : Int) (run : List key_state × tls_loop_end) : List key_state × tls_process_end :=
  match run.2 with
  | .abort => (run.1, .abort)
  | .unfinished _ => (run.1, .unfinished)
  | .error st =>
    let ks := { st.ks with state := S_ERROR }
    (run.1 ++ [ks], .returned
      { ret := false, session := { session with key_primary := ks }, to_link := st.to_link
        to_link_addr := st.to_link_addr, wakeup := wakeup, now := st.now })
  | .done st =>
    let w := tls_process_wakeup opt o o.clock_end st.ks wakeup st.active
    (run.1, .returned
      { ret := w.2, session := { session with key_primary := st.ks }, to_link := st.to_link
        to_link_addr := st.to_link_addr, wakeup := w.1, now := o.clock_end })

/-- `tls_process` (ssl.c). `now` is the global on entry, `o` and `envs` are the
answers of the code it calls into. The first component lists the values of the
primary key state `session->key[KS_PRIMARY]` in the order in which the call
produces them, starting with the one on entry. -/
def tls_process (P : opcodes) (X : externals) (opt : tls_options) (o : tls_process_outer_env)
    (envs : List tls_process_env) (now : Int) (session : tls_session) (to_link : buffer)
    (to_link_addr : sockaddr_in) (wakeup : Int) : List key_state × tls_process_end :=
  if session.key_primary.state = S_UNDEF ∨ session.key_primary.state = S_ERROR
      ∨ X.session_id_defined session.session_id = false then
    ([session.key_primary], .abort)
  else
    let reset := tls_process_soft_reset P X opt o.clock_init now session
    match tls_process_kill_lame_duck reset.2 reset.1 wakeup with
    | none => ([session.key_primary, reset.1.key_primary], .abort)
    | some (session1, wakeup) =>
      let st : tls_process_st :=
        { ks := session1.key_primary, now := reset.2, to_link := to_link
          to_link_addr := to_link_addr, state_change := false, active := false }
      let fin := tls_process_finish opt o session1 wakeup (tls_process_loop X opt envs st)
      (session.key_primary :: session1.key_primary :: fin.1, fin.2)

/-- Concrete helper functions for evaluating the embedding: a session id is
read as the next `SID_SIZE` bytes and is defined when some byte is nonzero,
addresses match when address and port agree, a key can decrypt from
`S_GOT_KEY` on (one state earlier on a server), and a send packet id is close
to wrapping from `2^32 - 2^16` on. -/
def sample_externals : externals :=
  { session_id_read := fun buf =>
      if SID_SIZE ≤ BLEN buf then some { id := buf.data.take SID_SIZE } else none
    session_id_defined := fun sid => sid.id.any (fun b => b != 0)
    session_id_equal := fun a b => a == b
    addr_defined := fun a => a.sin_addr != 0
    addr_port_match := fun a b => a == b
    DECRYPT_KEY_ENABLED := fun opt ks =>
      decide (ks.state ≥ S_GOT_KEY - (if opt.server then 1 else 0))
    packet_id_close_to_wrapping := fun id => decide (id ≥ 2 ^ 32 - 2 ^ 16) }

/-- Options of a key-method-2 client that renegotiates hourly. -/
def sample_client_options : tls_options :=
  { server := false, key_method := 2, single_session := false, replay := true
    packet_id_long_form := false, renegotiate_seconds := 3600, renegotiate_bytes := 0
    renegotiate_packets := 0, handshake_window := 60, transition_window := 3600 }

/-- A session as `tls_session_init` leaves it on a key-method-2 client, with
session id `1 2 3 4 5 6 7 8` and no tls-auth key. -/
def sample_session : tls_session :=
  key_state_init openvpn_opcodes
    { session_id := { id := [1, 2, 3, 4, 5, 6, 7, 8] }
      initial_opcode := openvpn_opcodes.P_CONTROL_HARD_RESET_CLIENT_V2
      key_id := 0
      tls_auth := { key_ctx_bi := some { encrypt := { hmac := none }, decrypt := { hmac := none } } }
      burst := false
      untrusted_sockaddr := { sin_addr := 0, sin_port := 0 }
      key_primary := key_state_clear
      key_lame_duck := key_state_clear }

/-- A client-side `tls_multi` right after `tls_multi_init_finalize`. -/
def sample_multi : tls_multi :=
  { opt := sample_client_options
    session_active := sample_session
    session_untrusted := sample_session
    session_lame_duck :=
      { sample_session with initial_opcode := 0, key_id := 0, key_primary := key_state_clear }
    n_errors := 0
    n_sessions := 0 }

/-- The position of a key state in the handshake of one side. A client passes
`S_SENT_KEY` before `S_GOT_KEY`, a server passes them in the other order;
`S_ERROR` comes after every other state. -/
def key_state_stage (server : Bool) (state : Int) : Int :=
  if state = S_ERROR then S_NORMAL + 1
  else if server = true ∧ state = S_SENT_KEY then S_GOT_KEY
  else if server = true ∧ state = S_GOT_KEY then S_SENT_KEY
  else state

/-- The assignments to `ks->state` in the body of the loop of `tls_process`,
as a relation between the old and the new value. -/
def key_state_step (server : Bool) (a b : Int) : Prop :=
  a = b
  ∨ (a = S_INITIAL ∧ b = S_PRE_START)
  ∨ (S_ACTIVE ≤ a ∧ b = S_NORMAL)
  ∨ (a = S_PRE_START ∧ b = S_START)
  ∨ (((a = S_GOT_KEY ∧ server = false) ∨ (a = S_SENT_KEY ∧ server = true)) ∧ b = S_ACTIVE)
  ∨ (((a = S_START ∧ server = false) ∨ (a = S_GOT_KEY ∧ server = true)) ∧ b = S_SENT_KEY)
  ∨ (((a = S_SENT_KEY ∧ server = false) ∨ (a = S_START ∧ server = true)) ∧ b = S_GOT_KEY)

/-- The state after a block, when the block does not end in a failed
`ASSERT`. -/
def tls_flow.st? : tls_flow → Option tls_process_st
  | .next st => some st
  | .brk st => some st
  | .err st => some st
  | .abort => none

/-- The state at the end of the loop, when there is one. -/
def tls_loop_end.st? : tls_loop_end → Option tls_process_st
  | .done st => some st
  | .error st => some st
  | .unfinished st => some st
  | .abort => none

/-- An environment for one pass in which nothing is pending: no buffer is
free, nothing is to be sent and the TLS object has nothing to read. -/
def idle_env (clock : Int) : tls_process_env :=
  { clock_top := clock, clock_read := clock
    get_buf_output_sequenced_initial := false
    reliable_empty := false, reliable_ack_empty := true, reliable_can_send := false
    write_control_auth_asserts := true
    control_packet := { data := [] }, ack_packet := { data := [] }
    get_buf_sequenced := none
    write_ciphertext := { i := 0, should_retry := false, bytes := [] }
    read_plaintext := { i := -1, should_retry := true, bytes := [] }
    send_key := .error, send_key_payload := { data := [] }, recv_key := .error
    write_plaintext := { i := 0, should_retry := false, bytes := [] }
    get_buf_output_sequenced := false
    read_ciphertext := { i := -1, should_retry := true, bytes := [] } }

/-- The session `sample_session` once its primary key has become active at
time 1000 with the peer `10.0.0.2:1194`. -/
def sample_active_session : tls_session :=
  { sample_session with
    key_primary := { sample_session.key_primary with
      state := S_ACTIVE, established := 1000, must_negotiate := 1060
      session_id_remote := { id := [8, 7, 6, 5, 4, 3, 2, 1] }
      remote_addr := { sin_addr := 167772162, sin_port := 1194 } } }

/-- Answers around the loop for a call at time 4600 with two seconds until
the next retransmission. -/
def sample_outer_env : tls_process_outer_env :=
  { clock_init := 4600, clock_end := 4600, reliable_send_timeout := 2 }

/-- A pass at time 4600 in which the reliability layer has a free buffer for
the reset packet and nothing else is pending. -/
def sample_reset_env : tls_process_env :=
  { idle_env 4600 with get_buf_output_sequenced_initial := true }

/-- The loop variables of a client whose primary key is in `S_GOT_KEY` at
time 1000. -/
def sample_got_key_st : tls_process_st :=
  { ks := { sample_session.key_primary with state := S_GOT_KEY, must_negotiate := 1060 }
    now := 1000
    to_link := { data := [] }
    to_link_addr := { sin_addr := 0, sin_port := 0 }
    state_change := false
    active := false }

/-- A pass at time 1000 in which everything sent has been acknowledged and no
acknowledgement is owed. -/
def sample_sync_env : tls_process_env :=
  { idle_env 1000 with reliable_empty := true, reliable_ack_empty := true }

/-- The rekey policy in the words of the specification (section 4.E): "elapsed
since established > renegotiate_seconds, bytes on key > renegotiate_bytes,
packets on key > renegotiate_packets", or the send packet id close to
wrapping. It is compared below with the condition in the code,
`tls_process_soft_reset_due`. -/
def soft_reset_policy_as_claimed (X : externals) (opt : tls_options) (now : Int)
    (ks : key_state) : Prop :=
  now - ks.established > opt.renegotiate_seconds
  ∨ ks.n_bytes > opt.renegotiate_bytes
  ∨ ks.n_packets > opt.renegotiate_packets
  ∨ X.packet_id_close_to_wrapping ks.packet_id_send = true

/-- What `key_state_init` establishes about a session, whatever session it is
called on, and what no other assignment in ssl.c changes: the opcode for the
next key is the soft reset, and the key id for the next key differs from the
primary key's. -/
def tls_session_keyed (P : opcodes) (session : tls_session) : Prop :=
  session.initial_opcode = P.P_CONTROL_SOFT_RESET_V1
  ∧ session.key_id ≠ session.key_primary.key_id

/-! ## `tls_multi_process`: sessions that end in `S_ERROR` -/

/-- How a piece of code that may loop or fail an `ASSERT` ends: with a value,
in a failed `ASSERT`, or without having finished on the answers supplied. -/
inductive run_result (α : Type) where
  | done (a : α)
  | abort
  | unfinished
  deriving DecidableEq, Repr

/-- `CLEAR (*session)`: every field zero. -/
def tls_session_clear : tls_session :=
  { session_id := { id := List.replicate SID_SIZE 0 }
    initial_opcode := 0
    key_id := 0
    tls_auth := { key_ctx_bi := none }
    burst := false
    untrusted_sockaddr := { sin_addr := 0, sin_port := 0 }
    key_primary := key_state_clear
    key_lame_duck := key_state_clear }

/-- The loop `while (!session_id_defined (&session->session_id))
session_id_random (&session->session_id)` of `tls_session_init`: `cur` is the
session id on entry and the list holds the ids that `session_id_random` draws;
`none` when the draws run out before a defined id turns up. -/
def session_id_randomize (X : externals) : session_id → List session_id → Option session_id
  | cur, [] => if X.session_id_defined cur then some cur else none
  | cur, r :: rest =>
    if X.session_id_defined cur then some cur else session_id_randomize X r rest

/-- `tls_session_init` (ssl.c); `opt` is `multi->opt` and `rnd` lists the draws
of `session_id_random`. -/
def tls_session_init (P : opcodes) (X : externals) (opt : tls_options)
    (rnd : List session_id) : run_result tls_session :=
  let session := tls_session_clear
  match session_id_randomize X session.session_id rnd with
  | none => .unfinished
  | some sid =>
    let session := { session with session_id := sid }
    if opt.key_method < 1 then .abort
    else
      let session := { session with
        initial_opcode :=
          if opt.key_method = 1 then
            (if opt.server then P.P_CONTROL_HARD_RESET_SERVER_V1
             else P.P_CONTROL_HARD_RESET_CLIENT_V1)
          else
            (if opt.server then P.P_CONTROL_HARD_RESET_SERVER_V2
             else P.P_CONTROL_HARD_RESET_CLIENT_V2) }
      let session := { session with tls_auth := opt.tls_auth }
      .done (key_state_init P session)

/-- `tls_session_free (session, clear)` (ssl.c). -/
def tls_session_free (session : tls_session) (clear : Bool) : tls_session :=
  let session := { session with key_primary := key_state_free session.key_primary false }
  let session := { session with key_lame_duck := key_state_free session.key_lame_duck false }
  if clear then tls_session_clear else session

/-- `move_session` (ssl.c). -/
def move_session (P : opcodes) (X : externals) (rnd : List session_id) (multi : tls_multi)
    (dest src : Nat) (reinit_src : Bool) : run_result tls_multi :=
  if src = dest ∨ ¬ src < TM_SIZE ∨ ¬ dest < TM_SIZE then .abort
  else
    let multi := multi.set_session dest (tls_session_free (multi.session dest) false)
    let multi := multi.set_session dest (multi.session src)
    if reinit_src then
      match tls_session_init P X multi.opt rnd with
      | .done s => .done (multi.set_session src s)
      | .abort => .abort
      | .unfinished => .unfinished
    else
      .done (multi.set_session src tls_session_clear)

/-- `reset_session` (ssl.c) on `&multi->session[i]`. -/
def reset_session (P : opcodes) (X : externals) (rnd : List session_id) (multi : tls_multi)
    (i : Nat) : run_result tls_multi :=
  let multi := multi.set_session i (tls_session_free (multi.session i) false)
  match tls_session_init P X multi.opt rnd with
  | .done s => .done (multi.set_session i s)
  | .abort => .abort
  | .unfinished => .unfinished

/-- The statement of `tls_multi_process` that follows the call of `tls_process`
for session `i`: "If tls_process hits an error: (1) If the session has an
unexpired lame duck key, preserve it. (2) Reinitialize the session." -/
def tls_multi_process_error_check (P : opcodes) (X : externals) (rnd : List session_id)
    (multi : tls_multi) (i : Nat) : run_result tls_multi :=
  let ks := (multi.session i).key_primary
  let ks_lame := (multi.session i).key_lame_duck
  if ks.state = S_ERROR then
    let multi := { multi with n_errors := multi.n_errors + 1 }
    if i = TM_ACTIVE ∧ ks_lame.state ≥ S_ACTIVE ∧ multi.opt.single_session = false then
      move_session P X rnd multi TM_LAME_DUCK TM_ACTIVE true
    else
      reset_session P X rnd multi i
  else
    .done multi

/-- The answers that one pass of the `for` loop of `tls_multi_process` gets:
the clock reading of its `update_time ()`, the answers for `tls_process`, and
the draws of `session_id_random` should the session be initialised anew. -/
structure tls_multi_process_env where
  clock : Int
  outer : tls_process_outer_env
  envs : List tls_process_env
  rnd : List session_id
  deriving DecidableEq, Repr

/-- The variables of `tls_multi_process` that change in its loop: the
`tls_multi`, the global `now`, `*to_link`, `*to_link_addr`, `*wakeup` and
`active`. -/
structure tls_multi_process_st where
  multi : tls_multi
  now : Int
  to_link : buffer
  to_link_addr : sockaddr_in
  wakeup : Int
  active : Bool
  deriving DecidableEq, Repr

/-- The body of the `for` loop of `tls_multi_process` for session `i`;
`actual` is `to_link_socket_info->lsa->actual`. -/
def tls_multi_process_session (P : opcodes) (X : externals) (actual : sockaddr_in)
    (e : tls_multi_process_env) (st : tls_multi_process_st) (i : Nat) :
    run_result tls_multi_process_st :=
  let session := st.multi.session i
  let session :=
    if i = TM_ACTIVE ∧ session.key_primary.state = S_INITIAL ∧ X.addr_defined actual then
      { session with key_primary := { session.key_primary with remote_addr := actual } }
    else session
  let st := { st with multi := st.multi.set_session i session }
  if session.key_primary.state ≥ S_INITIAL ∧ X.addr_defined session.key_primary.remote_addr then
    match (tls_process P X st.multi.opt e.outer e.envs e.clock session st.to_link
        st.to_link_addr st.wakeup).2 with
    | .abort => .abort
    | .unfinished => .unfinished
    | .returned r =>
      let st := { st with
        multi := st.multi.set_session i r.session, now := r.now, to_link := r.to_link
        to_link_addr := r.to_link_addr, wakeup := r.wakeup, active := st.active || r.ret }
      match tls_multi_process_error_check P X e.rnd st.multi i with
      | .done multi => .done { st with multi := multi }
      | .abort => .abort
      | .unfinished => .unfinished
  else
    .done st

/-- The `for (i = 0; i < TM_SIZE; ++i)` loop of `tls_multi_process`, over the
session indices in the list, with one record of answers per session. -/
def tls_multi_process_loop (P : opcodes) (X : externals) (actual : sockaddr_in) :
    List (Nat × tls_multi_process_env) → tls_multi_process_st →
    run_result tls_multi_process_st
  | [], st => .done st
  | (i, e) :: rest, st =>
    match tls_multi_process_session P X actual e st i with
    | .done st1 => tls_multi_process_loop P X actual rest st1
    | .abort => .abort
    | .unfinished => .unfinished

/-- `tls_multi_process` (ssl.c). `e0`, `e1`, `e2` are the answers for the three
sessions, `clock_end` the clock reading of the `update_time ()` behind the loop
and `rnd` the draws of `session_id_random` for the promotion of the untrusted
session. -/
def tls_multi_process (P : opcodes) (X : externals) (actual : sockaddr_in)
    (e0 e1 e2 : tls_multi_process_env) (clock_end : Int) (rnd : List session_id)
    (st : tls_multi_process_st) : run_result tls_multi_process_st :=
  match tls_multi_process_loop P X actual
      [(TM_ACTIVE, e0), (TM_UNTRUSTED, e1), (TM_LAME_DUCK, e2)] { st with active := false } with
  | .abort => .abort
  | .unfinished => .unfinished
  | .done st =>
    let st := { st with now := clock_end }
    match lame_duck_must_die st.now st.multi.session_lame_duck st.wakeup with
    | none => .abort
    | some (die, wakeup) =>
      let st := { st with wakeup := wakeup }
      let st :=
        if die then
          { st with multi := { st.multi with
              session_lame_duck := tls_session_free st.multi.session_lame_duck true } }
        else st
      if X.DECRYPT_KEY_ENABLED st.multi.opt st.multi.session_untrusted.key_primary then
        match move_session P X rnd st.multi TM_ACTIVE TM_UNTRUSTED true with
        | .done multi => .done { st with multi := multi }
        | .abort => .abort
        | .unfinished => .unfinished
      else
        .done st

/-- The sizes of the members `pre_master`, `random1` and `random2` of
`struct key_source`. ssl.h is not among the sources, so the sizes are
parameters. -/
structure key_source_sizes where
  pre_master : Nat
  random1 : Nat
  random2 : Nat
  deriving DecidableEq, Repr

/-- The sizes the specification names: 48 bytes of pre-master secret and 64
bytes of random material, here as two halves of 32 bytes. -/
def openvpn_key_source_sizes : key_source_sizes :=
  { pre_master := 48, random1 := 32, random2 := 32 }

/-- A `struct key_source`. -/
structure key_source where
  pre_master : List Nat
  random1 : List Nat
  random2 : List Nat
  deriving DecidableEq, Repr

/-- A `struct key_source2`. -/
structure key_source2 where
  client : key_source
  server : key_source
  deriving DecidableEq, Repr

/-- `CLEAR (*k)` for a `struct key_source`. -/
def key_source_clear (Z : key_source_sizes) : key_source :=
  { pre_master := List.replicate Z.pre_master 0
    random1 := List.replicate Z.random1 0
    random2 := List.replicate Z.random2 0 }

/-- Modelled from the spec: `buf_write` of buffer.h, "append N bytes (fails if
offset+length+N > capacity)", for a buffer with offset 0 and the given
capacity; `none` is the result false. -/
def buf_write (capacity : Nat) (buf : buffer) (src : List Nat) : Option buffer :=
  if BLEN buf + src.length ≤ capacity then some { data := buf.data ++ src } else none

/-- Modelled from the spec: `buf_read` of buffer.h, which consumes `size` bytes
from the front of the buffer and fails when fewer are left; `none` is the
result false. -/
def buf_read (buf : buffer) (size : Nat) : Option (List Nat × buffer) :=
  if size ≤ BLEN buf then some (buf.data.take size, { data := buf.data.drop size }) else none

/-- The four bytes that `buf_write_u32` appends, in network byte order. -/
def u32_bytes (n : Nat) : List Nat :=
  [n / 16777216 % 256, n / 65536 % 256, n / 256 % 256, n % 256]

/-- The two bytes that `buf_write_u16` appends, in network byte order. -/
def u16_bytes (n : Nat) : List Nat :=
  [n / 256 % 256, n % 256]

/-- `random_bytes_to_buf` (ssl.c). `rand` is the stream of bytes that
`RAND_bytes` delivers; the result is the array `out`, the buffer and the rest
of the stream, or `none` when `RAND_bytes` fails (fatal) or the `ASSERT` on
`buf_write` fails. -/
def random_bytes_to_buf (capacity : Nat) (rand : List Nat) (buf : buffer) (outlen : Nat) :
    Option (List Nat × buffer × List Nat) :=
  if rand.length < outlen then none
  else
    match buf_write capacity buf (rand.take outlen) with
    | none => none
    | some buf1 => some (rand.take outlen, buf1, rand.drop outlen)

/-- `key_source2_randomize_write` (ssl.c): the key source, the buffer and the
rest of the random stream afterwards. -/
def key_source2_randomize_write (Z : key_source_sizes) (capacity : Nat) (rand : List Nat)
    (k2 : key_source2) (buf : buffer) (server : Bool) :
    Option (key_source2 × buffer × List Nat) :=
  let k := key_source_clear Z
  match (if server = false then
      (random_bytes_to_buf capacity rand buf Z.pre_master).map
        (fun r => ({ k with pre_master := r.1 }, r.2.1, r.2.2))
    else some (k, buf, rand)) with
  | none => none
  | some (k, buf, rand) =>
    match random_bytes_to_buf capacity rand buf Z.random1 with
    | none => none
    | some (r1, buf, rand) =>
      let k := { k with random1 := r1 }
      match random_bytes_to_buf capacity rand buf Z.random2 with
      | none => none
      | some (r2, buf, rand) =>
        let k := { k with random2 := r2 }
        some (if server then { k2 with server := k } else { k2 with client := k }, buf, rand)

/-- `key_source2_read` (ssl.c): the returned value, the key source and the
buffer afterwards. -/
def key_source2_read (Z : key_source_sizes) (k2 : key_source2) (buf : buffer) (server : Bool) :
    Int × key_source2 × buffer :=
  let store := fun (k : key_source) =>
    if server = false then { k2 with server := k } else { k2 with client := k }
  let k := key_source_clear Z
  match (if server then
      (buf_read buf Z.pre_master).map (fun r => ({ k with pre_master := r.1 }, r.2))
    else some (k, buf)) with
  | none => (0, store k, buf)
  | some (k, buf) =>
    match buf_read buf Z.random1 with
    | none => (0, store k, buf)
    | some (r1, buf1) =>
      let k := { k with random1 := r1 }
      match buf_read buf1 Z.random2 with
      | none => (0, store k, buf1)
      | some (r2, buf2) => (1, store { k with random2 := r2 }, buf2)

/-- The key-method-2 branch of the block "Send Key" of `tls_process`, up to the
options string: what it leaves in `plaintext_write_buf` and in `ks->key_src`,
and the rest of the random stream; `none` when an `ASSERT` fails.
`KEY_METHOD_MASK` and `TLS_PASS_CONFIG_INFO` are constants of ssl.h and
`capacity` is the size of the plaintext buffer. -/
def tls_process_send_key_method_2 (Z : key_source_sizes) (capacity : Nat)
    (KEY_METHOD_MASK TLS_PASS_CONFIG_INFO : Nat) (opt : tls_options) (rand : List Nat)
    (key_src : key_source2) : Option (buffer × key_source2 × List Nat) :=
  let optlen := opt.local_options.length + 1
  if opt.key_method ≠ 2 then none
  else
    let buf : buffer := { data := [] }
    match buf_write capacity buf (u32_bytes 0) with
    | none => none
    | some buf =>
      match buf_write capacity buf
          [((opt.key_method.toNat &&& KEY_METHOD_MASK)
            ||| (if opt.pass_config_info then TLS_PASS_CONFIG_INFO else 0)) % 256] with
      | none => none
      | some buf =>
        match key_source2_randomize_write Z capacity rand key_src buf opt.server with
        | none => none
        | some (key_src, buf, rand) =>
          if ¬ optlen < 65536 then none
          else
            match buf_write capacity buf (u16_bytes optlen) with
            | none => none
            | some buf =>
              match buf_write capacity buf (opt.local_options ++ [0]) with
              | none => none
              | some buf => some (buf, key_src, rand)

/-- The key-method-2 payload in the order of the specification (section 4.E):
`uint32 zero || uint8 method_flags || client_random || pre_master (client
only) || uint16 options_len || options_string`. It is compared below with what
the code writes. -/
def key_method_2_payload_as_specified (flags : Nat) (server : Bool) (k : key_source)
    (options : List Nat) : List Nat :=
  u32_bytes 0 ++ [flags] ++ (k.random1 ++ k.random2)
    ++ (if server then [] else k.pre_master)
    ++ u16_bytes (options.length + 1) ++ (options ++ [0])

/-- Options of a key-method-2 client with the options string `V4` and no
configuration exchange. -/
def sample_key_options : tls_options :=
  { sample_client_options with local_options := [86, 52] }

/-- A key source with all fields zero. -/
def sample_key_source2 : key_source2 :=
  { client := key_source_clear openvpn_key_source_sizes
    server := key_source_clear openvpn_key_source_sizes }

/-- The bytes of a key source in the order in which
`key_source2_randomize_write` appends them and `key_source2_read` consumes
them: the pre-master secret (client only), then `random1`, then `random2`. -/
def key_source_bytes (server : Bool) (k : key_source) : List Nat :=
  (if server then [] else k.pre_master) ++ k.random1 ++ k.random2

/-- The half of a `key_source2` that belongs to the given side. -/
def key_source2.side (k2 : key_source2) (server : Bool) : key_source :=
  if server then k2.server else k2.client

/-! ## Key expansion (`ssl.c`) -/

/-- The character NUL that ends a C string. -/
def NUL : Char := Char.ofNat 0

/-- The C string stored in a `char` array: the characters before the first
NUL. -/
def c_str (a : List Char) : List Char :=
  a.takeWhile (fun c => c != NUL)

/-- The variables of `extract_common_name`: the array that `out` points into,
the number of elements by which `out` has been advanced, `size` and `state`. -/
structure extract_common_name_st where
  out : List Char
  pos : Nat
  size : Nat
  state : Nat
  deriving DecidableEq, Repr

/-- The body of the `do ... while` loop of `extract_common_name` for the
character `c` just read: the variables afterwards, the value of `c` at the
end of the body, and whether the body left through `break`. -/
def extract_common_name_body (st : extract_common_name_st) (c : Char) :
    extract_common_name_st × Char × Bool :=
  if st.state = 4 then
    let c := if c = '/' then NUL else c
    if st.size > 0 then
      ({ st with out := st.out.set st.pos c, pos := st.pos + 1, size := st.size - 1 }, c, false)
    else
      (st, c, true)
  else if c = '/' then ({ st with state := 1 }, c, false)
  else if st.state = 1 then
    ({ st with state := if c = 'C' then 2 else 0 }, c, false)
  else if st.state = 2 then
    ({ st with state := if c = 'N' then 3 else 0 }, c, false)
  else if st.state = 3 then
    ({ st with state := if c = '=' then 4 else 0 }, c, false)
  else
    (st, c, false)

/-- The `do ... while (c != '\0')` loop of `extract_common_name` over the
characters of `subject`; behind the last character of the list the loop reads
the terminating NUL. -/
def extract_common_name_loop (st : extract_common_name_st) :
    List Char → extract_common_name_st
  | [] => (extract_common_name_body st NUL).1
  | c :: rest =>
    let r := extract_common_name_body st c
    if r.2.2 = true ∨ r.2.1 = NUL then r.1 else extract_common_name_loop r.1 rest

/-- `extract_common_name` (ssl.c): the array `out` after the call, for the
array on entry, `size` and the characters of `subject`; `none` when the
`ASSERT (size > 0)` fails. -/
def extract_common_name (out : List Char) (size : Int) (subject : List Char) :
    Option (List Char) :=
  if size > 0 then
    let size := size.toNat - 1
    let out := out.set size NUL
    some (extract_common_name_loop { out := out, pos := 0, size := size, state := 0 }
      subject).out
  else
    none

/-- The state of `extract_common_name` while it looks for `/CN=`, as a
function of the state before and the character read; state 4 is kept. -/
def common_name_scan_step (state : Nat) (c : Char) : Nat :=
  if state = 4 then 4
  else if c = '/' then 1
  else if state = 1 then (if c = 'C' then 2 else 0)
  else if state = 2 then (if c = 'N' then 3 else 0)
  else if state = 3 then (if c = '=' then 4 else 0)
  else state

/-- The scan state after a sequence of characters. -/
def common_name_scan (state : Nat) (p : List Char) : Nat :=
  p.foldl common_name_scan_step state

/-! ## forward.c: the point-to-point I/O loop -/

/-- The bits of `c->c2.event_set_status` tested by `process_io` and set by
`io_wait`. Their values are in forward.h, so they are parameters here. -/
structure event_status_bits where
  SOCKET_READ : Nat
  SOCKET_WRITE : Nat
  TUN_READ : Nat
  TUN_WRITE : Nat
  deriving DecidableEq, Repr

/-- The values the shift constants of `io_wait` lead to (`socket_shift = 0`,
`tun_shift = 2`, with a read bit 1 and a write bit 2). -/
def openvpn_event_status_bits : event_status_bits :=
  { SOCKET_READ := 1, SOCKET_WRITE := 2, TUN_READ := 4, TUN_WRITE := 8 }

/-- The functions `process_io` may call, in the order of the source. -/
inductive io_action where
  | process_outgoing_link
  | process_outgoing_tun
  | read_incoming_link
  | process_incoming_link
  | read_incoming_tun
  | process_incoming_tun
  deriving DecidableEq, Repr

/-- The four I/O actions `process_io` chooses between: a write to the
endpoint, a write to the tun device, a read from the endpoint, a read from the
tun device. The two `process_incoming_*` calls follow a read. -/
def io_action.is_io (a : io_action) : Bool :=
  match a with
  | .process_outgoing_link => true
  | .process_outgoing_tun => true
  | .read_incoming_link => true
  | .read_incoming_tun => true
  | .process_incoming_link => false
  | .process_incoming_tun => false

/-- What `process_io` uses of a `struct context` of type `κ`: the field
`c2.event_set_status`, the macro `IS_SIG (c)` (`c->sig->signal_received`),
and the six functions it calls, each a transformer of the context. -/
structure process_io_env (κ : Type) where
  event_set_status : κ → Nat
  IS_SIG : κ → Bool
  process_outgoing_link : κ → κ
  process_outgoing_tun : κ → κ
  read_incoming_link : κ → κ
  process_incoming_link : κ → κ
  read_incoming_tun : κ → κ
  process_incoming_tun : κ → κ

/-- `process_io` of forward.c. The result is the context after the call and
the list of the functions called, in order. -/
def process_io {κ : Type} (B : event_status_bits) (E : process_io_env κ) (c : κ) :
    κ × List io_action :=
  let status := E.event_set_status c
  if status &&& B.SOCKET_WRITE ≠ 0 then
    (E.process_outgoing_link c, [io_action.process_outgoing_link])
  else if status &&& B.TUN_WRITE ≠ 0 then
    (E.process_outgoing_tun c, [io_action.process_outgoing_tun])
  else if status &&& B.SOCKET_READ ≠ 0 then
    let c := E.read_incoming_link c
    if !E.IS_SIG c then
      (E.process_incoming_link c,
        [io_action.read_incoming_link, io_action.process_incoming_link])
    else (c, [io_action.read_incoming_link])
  else if status &&& B.TUN_READ ≠ 0 then
    let c := E.read_incoming_tun c
    if !E.IS_SIG c then
      (E.process_incoming_tun c,
        [io_action.read_incoming_tun, io_action.process_incoming_tun])
    else (c, [io_action.read_incoming_tun])
  else (c, [])

/-- A sample context for `process_io`: the status word and the signal. -/
structure sample_io_context where
  status : Nat
  signal_received : Int
  deriving DecidableEq, Repr

/-- A sample environment: no function changes the context. -/
def sample_process_io_env : process_io_env sample_io_context :=
  { event_set_status := fun c => c.status
    IS_SIG := fun c => decide (c.signal_received ≠ 0)
    process_outgoing_link := id
    process_outgoing_tun := id
    read_incoming_link := id
    process_incoming_link := id
    read_incoming_tun := id
    process_incoming_tun := id }

/-- The `IOW_*` flags of `io_wait` (forward.h), as bit masks; and the two
bits `EVENT_READ`, `EVENT_WRITE` of event.h. Parameters, as neither header
is part of the sources at hand. -/
structure iow_bits where
  IOW_TO_TUN : Nat
  IOW_TO_LINK : Nat
  IOW_READ_TUN : Nat
  IOW_READ_LINK : Nat
  IOW_SHAPER : Nat
  IOW_CHECK_RESIDUAL : Nat
  IOW_FRAG : Nat
  IOW_MBUF : Nat
  IOW_READ_TUN_FORCE : Nat
  IOW_WAIT_SIGNAL : Nat
  EVENT_READ : Nat
  EVENT_WRITE : Nat
  deriving DecidableEq, Repr

/-- One bit per flag, in the order of the structure; `EVENT_READ = 1` and
`EVENT_WRITE = 2` as the mask `rwflags & 3` and the shifts of `io_wait`
suggest. -/
def openvpn_iow_bits : iow_bits :=
  { IOW_TO_TUN := 1, IOW_TO_LINK := 2, IOW_READ_TUN := 4, IOW_READ_LINK := 8,
    IOW_SHAPER := 16, IOW_CHECK_RESIDUAL := 32, IOW_FRAG := 64, IOW_MBUF := 128,
    IOW_READ_TUN_FORCE := 256, IOW_WAIT_SIGNAL := 512,
    EVENT_READ := 1, EVENT_WRITE := 2 }

/-- A `struct timeval`. -/
structure timeval where
  tv_sec : Int
  tv_usec : Int
  deriving DecidableEq, Repr

/-- What the first half of `io_wait` reads besides `flags`:
`c->options.shaper`, the value `shaper_delay (&c->c2.shaper)` would return,
the macro `TO_LINK_FRAG (c)` (an outgoing fragment is pending),
`c->c2.timeval`, and the function `shaper_soonest_event` of shaper.c. -/
structure io_wait_env where
  shaper : Int
  shaper_delay : Int
  TO_LINK_FRAG : Bool
  timeval : OpenVPN.timeval
  shaper_soonest_event : OpenVPN.timeval → Int → OpenVPN.timeval

/-- What `io_wait` decides to wait for: the `rwflags` it passes to
`socket_set` and `tun_set`, and `c->c2.timeval`. -/
structure io_wait_set where
  socket : Nat
  tuntap : Nat
  timeval : OpenVPN.timeval
  deriving DecidableEq, Repr

/-- The traffic-shaping delay `io_wait` computes (with `HAVE_GETTIMEOFDAY`):
`delay = 0; if (c->options.shaper) delay = max_int (delay, shaper_delay (..))`. -/
def io_wait_delay (E : io_wait_env) : Int :=
  if E.shaper ≠ 0 then max 0 E.shaper_delay else 0

/-- First statement of `io_wait` on the wait set: "If outgoing data (for
TCP/UDP port) pending, wait for ready-to-send status from TCP/UDP port.
Otherwise, wait for incoming data on TUN/TAP device." -/
def io_wait_to_link (I : iow_bits) (E : io_wait_env) (flags : Nat) (s : io_wait_set) :
    io_wait_set :=
  if flags &&& I.IOW_TO_LINK ≠ 0 then
    if flags &&& I.IOW_SHAPER ≠ 0 then
      let delay := io_wait_delay E
      if delay < 1000 then { s with socket := s.socket ||| I.EVENT_WRITE }
      else { s with timeval := E.shaper_soonest_event s.timeval delay }
    else { s with socket := s.socket ||| I.EVENT_WRITE }
  else if !(decide (flags &&& I.IOW_FRAG ≠ 0) && E.TO_LINK_FRAG) then
    if flags &&& I.IOW_READ_TUN ≠ 0 then { s with tuntap := s.tuntap ||| I.EVENT_READ }
    else s
  else s

/-- Second statement: "If outgoing data (for TUN/TAP device) pending, wait
for ready-to-send status from device. Otherwise, wait for incoming data on
TCP/UDP port." -/
def io_wait_to_tun (I : iow_bits) (flags : Nat) (s : io_wait_set) : io_wait_set :=
  if flags &&& I.IOW_TO_TUN ≠ 0 then { s with tuntap := s.tuntap ||| I.EVENT_WRITE }
  else if flags &&& I.IOW_READ_LINK ≠ 0 then { s with socket := s.socket ||| I.EVENT_READ }
  else s

/-- Third statement: "outgoing bcast buffer waiting to be sent?" -/
def io_wait_mbuf (I : iow_bits) (flags : Nat) (s : io_wait_set) : io_wait_set :=
  if flags &&& I.IOW_MBUF ≠ 0 then { s with socket := s.socket ||| I.EVENT_WRITE } else s

/-- Fourth statement: "Force wait on TUN input, even if also waiting on
TCP/UDP output". -/
def io_wait_read_tun_force (I : iow_bits) (flags : Nat) (s : io_wait_set) : io_wait_set :=
  if flags &&& I.IOW_READ_TUN_FORCE ≠ 0 then { s with tuntap := s.tuntap ||| I.EVENT_READ }
  else s

/-- The first half of `io_wait` of forward.c, "Decide what kind of events we
want to wait for", up to the calls of `socket_set` and `tun_set`: `socket`
and `tuntap` start at 0 and the four statements follow. -/
def io_wait_events (I : iow_bits) (E : io_wait_env) (flags : Nat) : io_wait_set :=
  io_wait_read_tun_force I flags
    (io_wait_mbuf I flags
      (io_wait_to_tun I flags
        (io_wait_to_link I E flags { socket := 0, tuntap := 0, timeval := E.timeval })))

/-- A sample environment for `io_wait`: no shaper, the timeout 10 s; whether
an outgoing fragment is pending is the argument. -/
def sample_io_wait_env (frag : Bool) : io_wait_env :=
  { shaper := 0, shaper_delay := 0, TO_LINK_FRAG := frag,
    timeval := { tv_sec := 10, tv_usec := 0 },
    shaper_soonest_event := fun tv _ => tv }

/-- The sentence "with `to_link` set, wait for the endpoint to become
writable, and for the tun device to become readable iff no outgoing fragment
is pending", as a predicate of what `io_wait` waits for. -/
def io_wait_to_link_as_claimed (I : iow_bits) (E : io_wait_env) (s : io_wait_set) : Prop :=
  s.socket &&& I.EVENT_WRITE ≠ 0 ∧
    (s.tuntap &&& I.EVENT_READ ≠ 0 ↔ E.TO_LINK_FRAG = false)

/-- The fields of `c->c2` that `check_timeout_random_component` uses. -/
structure timeout_context where
  update_timeout_random_component : Int
  timeout_random_component : timeval
  timeval : OpenVPN.timeval
  deriving DecidableEq, Repr

/-- `check_timeout_random_component_dowork` of forward.c. `now` is the global
clock and `random` the value `get_random ()` returns. The mask
`& 0x000FFFFF` keeps the low 20 bits, which for a two's-complement value is
the remainder modulo `2^20`. -/
def check_timeout_random_component_dowork (now random : Int) (c : timeout_context) :
    timeout_context :=
  let update_interval : Int := 10
  { c with
    update_timeout_random_component := now + update_interval
    timeout_random_component := { tv_usec := random % 0x100000, tv_sec := 0 } }

/-- `check_timeout_random_component` of forward.c. `tv_add` is the function
of otime.h, which adds its second argument to its first. -/
def check_timeout_random_component (tv_add : timeval → timeval → timeval)
    (now random : Int) (c : timeout_context) : timeout_context :=
  let c :=
    if now ≥ c.update_timeout_random_component then
      check_timeout_random_component_dowork now random c
    else c
  if c.timeval.tv_sec ≥ 1 then
    { c with timeval := tv_add c.timeval c.timeout_random_component }
  else c

/-- A sample for the parameter `tv_add`: the sum, with the microseconds
carried into the seconds. -/
def sample_tv_add (dest src : timeval) : timeval :=
  let usec := dest.tv_usec + src.tv_usec
  { tv_sec := dest.tv_sec + src.tv_sec + usec / 1000000, tv_usec := usec % 1000000 }

/-- The random component is a number of microseconds below `2^20`, with no
seconds. -/
def timeout_random_component_bounded (t : timeval) : Prop :=
  t.tv_sec = 0 ∧ 0 ≤ t.tv_usec ∧ t.tv_usec ≤ 0xFFFFF

/-- A sample context: the random component is due, the timeout is 5 s. -/
def sample_timeout_context : timeout_context :=
  { update_timeout_random_component := 0
    timeout_random_component := { tv_sec := 0, tv_usec := 0 }
    timeval := { tv_sec := 5, tv_usec := 0 } }

/-! ## mbuf.c: the queue of deferred packets -/

/-- A `struct mbuf_item`: the two pointers `buffer` (to a `struct
mbuf_buffer`) and `arg` (the instance the packet is for), as addresses, `0`
being `NULL`. -/
structure mbuf_item where
  buffer : Nat
  arg : Nat
  deriving DecidableEq, Repr

/-- A `struct mbuf_set`: the fields mbuf.c uses. `array` has `capacity`
elements after `mbuf_init`. -/
structure mbuf_set where
  head : Nat
  len : Nat
  capacity : Nat
  max_queued : Nat
  array : List mbuf_item
  deriving DecidableEq, Repr

/-- `mbuf_free_buf` of mbuf.c, on the field `refcount` of the `struct
mbuf_buffer` at each address: a non-NULL buffer loses one reference (and is
freed when none is left; the memory itself is not part of this model). -/
def mbuf_free_buf (refcount : Nat → Int) (mb : Nat) : Nat → Int :=
  if mb ≠ 0 then fun p => if p = mb then refcount p - 1 else refcount p
  else refcount

/-- The loop `while (ms->len)` of `mbuf_extract_item`; `n` is `ms->len`, which
each turn decrements. `none` is a read of `ms->array` out of its bounds. -/
def mbuf_extract_item_loop (MBUF_INDEX : Nat → Nat → Nat → Nat) :
    Nat → mbuf_set → mbuf_item → Option (Bool × mbuf_set × mbuf_item)
  | 0, ms, item => some (false, ms, item)
  | n + 1, ms, _ =>
    match ms.array[ms.head]? with
    | none => none
    | some item =>
      let ms := { ms with head := MBUF_INDEX ms.head 1 ms.capacity, len := n }
      if item.arg ≠ 0 then some (true, ms, item)
      else mbuf_extract_item_loop MBUF_INDEX n ms item

/-- `mbuf_extract_item` of mbuf.c, for a non-NULL `ms`: the value returned,
the set and `*item` after the call. The macro `MBUF_INDEX (head, offset,
size)` of mbuf.h is a parameter. -/
def mbuf_extract_item (MBUF_INDEX : Nat → Nat → Nat → Nat) (ms : mbuf_set)
    (item : mbuf_item) : Option (Bool × mbuf_set × mbuf_item) :=
  mbuf_extract_item_loop MBUF_INDEX ms.len ms item

/-- The second half of `mbuf_add_item` of mbuf.c, from `ASSERT (ms->len <
ms->capacity)` on: the item is stored behind the last one, `len` and
`max_queued` are updated and the buffer of the item gains a reference. `ret`
is the value to return. `none` is the failed `ASSERT`, a write out of the
bounds of `ms->array`, or a NULL `item->buffer`. -/
def mbuf_add_item_store (MBUF_INDEX : Nat → Nat → Nat → Nat) (ms : mbuf_set)
    (refcount : Nat → Int) (item : mbuf_item) (ret : Bool) :
    Option (Bool × mbuf_set × (Nat → Int)) :=
  if ¬ ms.len < ms.capacity then none
  else if ¬ MBUF_INDEX ms.head ms.len ms.capacity < ms.array.length then none
  else
    let ms := { ms with array := ms.array.set (MBUF_INDEX ms.head ms.len ms.capacity) item }
    let ms := { ms with len := ms.len + 1 }
    let ms := if ms.len > ms.max_queued then { ms with max_queued := ms.len } else ms
    if item.buffer = 0 then none
    else some (ret, ms, fun p => if p = item.buffer then refcount p + 1 else refcount p)

/-- `mbuf_add_item` of mbuf.c: the value returned, the set and the reference
counts after the call. On a full set the oldest live item is extracted and
its buffer released first; `none` is then the failed `ASSERT
(mbuf_extract_item (ms, &rm))`. The local `rm` is read only after
`mbuf_extract_item` has assigned it. -/
def mbuf_add_item (MBUF_INDEX : Nat → Nat → Nat → Nat) (ms : mbuf_set)
    (refcount : Nat → Int) (item : mbuf_item) :
    Option (Bool × mbuf_set × (Nat → Int)) :=
  if ms.len = ms.capacity then
    match mbuf_extract_item MBUF_INDEX ms { buffer := 0, arg := 0 } with
    | some (true, ms, rm) =>
      mbuf_add_item_store MBUF_INDEX ms (mbuf_free_buf refcount rm.buffer) item false
    | _ => none
  else mbuf_add_item_store MBUF_INDEX ms refcount item true

/-- The queue a set holds: the `len` elements of `array` from `head` on, in
the order `MBUF_INDEX (head, i, capacity)`, `i = 0 .. len - 1`, as
`mbuf_peek_dowork` and `mbuf_dereference` walk it. -/
def mbuf_queue (MBUF_INDEX : Nat → Nat → Nat → Nat) (ms : mbuf_set) :
    List (Option mbuf_item) :=
  (List.range ms.len).map (fun i => ms.array[MBUF_INDEX ms.head i ms.capacity]?)

/-- A sample for the parameter `MBUF_INDEX`: the index `offset` places after
`head` in a ring of `size` elements. -/
def sample_MBUF_INDEX (head offset size : Nat) : Nat := (head + offset) % size

/-- A full set of capacity 4 whose head, at index 2, is live. -/
def sample_full_mbuf_set : mbuf_set :=
  { head := 2, len := 4, capacity := 4, max_queued := 4,
    array := [{ buffer := 13, arg := 3 }, { buffer := 14, arg := 4 },
      { buffer := 11, arg := 1 }, { buffer := 12, arg := 2 }] }

/-- A set of capacity 4 holding two items. -/
def sample_mbuf_set : mbuf_set :=
  { head := 3, len := 2, capacity := 4, max_queued := 2,
    array := [{ buffer := 12, arg := 2 }, { buffer := 0, arg := 0 },
      { buffer := 0, arg := 0 }, { buffer := 11, arg := 1 }] }

/-! ## forward.c: process_incoming_link -/

/-- A `struct buffer` as forward.c uses it: the field `len`, which a stage
sets to 0 or -1 to make the later stages ignore the packet, and the bytes. -/
structure packet_buffer where
  len : Int
  data : List Nat
  deriving DecidableEq, Repr

/-- The options `process_incoming_link` reads: `gremlin` and `comp_lzo` are
booleans, `ping_rec_timeout` is an integer tested against zero. -/
structure link_options where
  gremlin : Bool
  ping_rec_timeout : Int
  comp_lzo : Bool
  deriving DecidableEq, Repr

/-- The timer and address calls of `process_incoming_link`, which act on
parts of the context this model does not hold; the context keeps their list. -/
inductive link_call where
  | interval_action
  | event_timeout_reset
  | link_socket_set_outgoing_addr
  deriving DecidableEq, Repr

/-- What `process_incoming_link` uses of a `struct context`: `c2.buf`,
`c2.to_tun`, the byte counters, whether `c2.tls_multi` and `c2.fragment` are
non-NULL, the values of `link_socket_connection_oriented (c->c2.link_socket)`
and `tuntap_defined (c->c1.tuntap)`, and `sig->signal_received`,
`sig->signal_text` (`none` is NULL). -/
structure link_context where
  options : link_options
  buf : packet_buffer
  to_tun : packet_buffer
  link_read_bytes : Int
  original_recv_size : Int
  link_read_bytes_auth : Int
  max_recv_size_local : Int
  tls_multi : Bool
  fragment : Bool
  link_socket_connection_oriented : Bool
  tuntap_defined : Bool
  signal_received : Int
  signal_text : Option String
  calls : List link_call
  deriving DecidableEq, Repr

/-- The stages `process_incoming_link` calls, as functions of the buffer they
are given: the gremlin, the check of the source address, `tls_pre_decrypt`
and `openvpn_decrypt` (the value returned and the buffer left),
`fragment_incoming`, `lzo_decompress`, the tests for a ping and for an OCC
message, `process_received_occ_msg` on the context, and `buf_reset`. -/
structure link_stages where
  ask_gremlin : Bool
  corrupt_gremlin : packet_buffer → packet_buffer
  link_socket_verify_incoming_addr : packet_buffer → Bool
  link_socket_bad_incoming_addr : packet_buffer → packet_buffer
  tls_pre_decrypt : packet_buffer → Bool × packet_buffer
  openvpn_decrypt : packet_buffer → Bool × packet_buffer
  fragment_incoming : packet_buffer → packet_buffer
  lzo_decompress : packet_buffer → packet_buffer
  is_ping_msg : packet_buffer → Bool
  is_occ_msg : packet_buffer → Bool
  process_received_occ_msg : link_context → link_context
  buf_reset : packet_buffer → packet_buffer

/-- First statements of `process_incoming_link`: the received size is
counted. -/
def process_incoming_link_recv_size (c : link_context) : link_context :=
  if c.buf.len > 0 then
    { c with
      link_read_bytes := c.link_read_bytes + c.buf.len
      original_recv_size := c.buf.len }
  else { c with original_recv_size := 0 }

/-- "take action to corrupt packet if we are in gremlin test mode". -/
def process_incoming_link_gremlin (E : link_stages) (c : link_context) : link_context :=
  if c.options.gremlin then
    let c := if !E.ask_gremlin then { c with buf := { c.buf with len := 0 } } else c
    { c with buf := E.corrupt_gremlin c.buf }
  else c

/-- The check of the source address, first stage on a packet of non-zero
length. -/
def process_incoming_link_verify (E : link_stages) (c : link_context) : link_context :=
  if !E.link_socket_verify_incoming_addr c.buf then
    { c with buf := E.link_socket_bad_incoming_addr c.buf }
  else c

/-- The call of `tls_pre_decrypt` when `c->c2.tls_multi` is set: a control
packet restarts the timers. -/
def process_incoming_link_tls (E : link_stages) (c : link_context) : link_context :=
  if c.tls_multi then
    let r := E.tls_pre_decrypt c.buf
    let c := { c with buf := r.2 }
    if r.1 then
      let c := { c with calls := c.calls ++ [link_call.interval_action] }
      if c.options.ping_rec_timeout ≠ 0 then
        { c with calls := c.calls ++ [link_call.event_timeout_reset] }
      else c
    else c
  else c

/-- "if (c->c2.fragment) fragment_incoming (...)". -/
def process_incoming_link_fragment (E : link_stages) (c : link_context) : link_context :=
  if c.fragment then { c with buf := E.fragment_incoming c.buf } else c

/-- "decompress the incoming packet". -/
def process_incoming_link_lzo (E : link_stages) (c : link_context) : link_context :=
  if c.options.comp_lzo then { c with buf := E.lzo_decompress c.buf } else c

/-- "Set our official outgoing address", outside TLS mode. -/
def process_incoming_link_outgoing_addr (TLS_MODE : Bool) (c : link_context) :
    link_context :=
  if !TLS_MODE then
    { c with calls := c.calls ++ [link_call.link_socket_set_outgoing_addr] }
  else c

/-- "reset packet received timer". -/
def process_incoming_link_ping_timer (c : link_context) : link_context :=
  if c.options.ping_rec_timeout ≠ 0 ∧ c.buf.len > 0 then
    { c with calls := c.calls ++ [link_call.event_timeout_reset] }
  else c

/-- "increment authenticated receive byte count". -/
def process_incoming_link_auth_count (c : link_context) : link_context :=
  if c.buf.len > 0 then
    { c with
      link_read_bytes_auth := c.link_read_bytes_auth + c.buf.len
      max_recv_size_local := max c.original_recv_size c.max_recv_size_local }
  else c

/-- "Did we just receive an openvpn ping packet?": it is dropped. -/
def process_incoming_link_ping (E : link_stages) (c : link_context) : link_context :=
  if E.is_ping_msg c.buf then { c with buf := { c.buf with len := 0 } } else c

/-- "Did we just receive an OCC packet?" -/
def process_incoming_link_occ (E : link_stages) (c : link_context) : link_context :=
  if E.is_occ_msg c.buf then E.process_received_occ_msg c else c

/-- The buffer is handed to `to_tun`: "to_tun defined + unopened tuntap can
cause deadlock". -/
def process_incoming_link_to_tun (c : link_context) : link_context :=
  let c := { c with to_tun := c.buf }
  if !c.tuntap_defined then { c with to_tun := { c.to_tun with len := 0 } } else c

/-- The stages behind the decryption, in the order of the source. -/
def process_incoming_link_post_decrypt (E : link_stages) (TLS_MODE : Bool)
    (c : link_context) : link_context :=
  process_incoming_link_to_tun
    (process_incoming_link_occ E
      (process_incoming_link_ping E
        (process_incoming_link_auth_count
          (process_incoming_link_ping_timer
            (process_incoming_link_outgoing_addr TLS_MODE
              (process_incoming_link_lzo E (process_incoming_link_fragment E c)))))))

/-- What the stages on the buffer leave as it was: the signal and its text,
`to_tun`, and the kind of link. -/
def link_context_frame (c c1 : link_context) : Prop :=
  c1.signal_received = c.signal_received ∧ c1.signal_text = c.signal_text
    ∧ c1.to_tun = c.to_tun
    ∧ c1.link_socket_connection_oriented = c.link_socket_connection_oriented

/-- The context at the call of `openvpn_decrypt`, for a packet that gets
there. -/
def process_incoming_link_pre_decrypt (E : link_stages) (c : link_context) : link_context :=
  process_incoming_link_tls E
    (process_incoming_link_verify E
      (process_incoming_link_gremlin E (process_incoming_link_recv_size c)))

/-- `process_incoming_link` of forward.c (with `USE_CRYPTO`, `USE_SSL` and
`USE_LZO`). `SIGUSR1` is the signal number and `TLS_MODE` the macro of
openvpn.h, `c->c2.tls_multi != NULL`. -/
def process_incoming_link (E : link_stages) (SIGUSR1 : Int) (c : link_context) :
    link_context :=
  let c := process_incoming_link_gremlin E (process_incoming_link_recv_size c)
  if c.buf.len > 0 then
    let c := process_incoming_link_tls E (process_incoming_link_verify E c)
    let decrypt := E.openvpn_decrypt c.buf
    let c := { c with buf := decrypt.2 }
    if !decrypt.1 && c.link_socket_connection_oriented then
      { c with signal_received := SIGUSR1, signal_text := some "decryption-error" }
    else process_incoming_link_post_decrypt E c.tls_multi c
  else { c with to_tun := E.buf_reset c.to_tun }

/-- Sample stages: a packet is authentic iff its first byte is 1, and a
failed decryption leaves `len = 0`; the other stages leave the buffer as it
is, a ping or OCC message has at least 16 bytes. -/
def sample_link_stages : link_stages :=
  { ask_gremlin := true
    corrupt_gremlin := id
    link_socket_verify_incoming_addr := fun _ => true
    link_socket_bad_incoming_addr := fun b => { b with len := 0 }
    tls_pre_decrypt := fun b => (false, b)
    openvpn_decrypt := fun b =>
      if b.data.head? = some 1 then (true, b) else (false, { b with len := 0 })
    fragment_incoming := id
    lzo_decompress := id
    is_ping_msg := fun b => decide (b.len = 16)
    is_occ_msg := fun b => decide (b.len ≥ 16)
    process_received_occ_msg := id
    buf_reset := fun _ => { len := 0, data := [] } }

/-- A sample context holding a packet of three bytes that does not
authenticate; the argument tells whether the link is connection-oriented. -/
def sample_link_context (tcp : Bool) : link_context :=
  { options := { gremlin := false, ping_rec_timeout := 60, comp_lzo := true }
    buf := { len := 3, data := [7, 8, 9] }
    to_tun := { len := 0, data := [] }
    link_read_bytes := 0
    original_recv_size := 0
    link_read_bytes_auth := 0
    max_recv_size_local := 0
    tls_multi := true
    fragment := true
    link_socket_connection_oriented := tcp
    tuntap_defined := true
    signal_received := 0
    signal_text := none
    calls := [] }

/-! ## mbuf.c: sequences of calls, and mbuf_dereference -/

/-- Successive calls of `mbuf_add_item`, one per item of the list: the values
returned, the set and the reference counts at the end. -/
def mbuf_add_items (MBUF_INDEX : Nat → Nat → Nat → Nat) :
    mbuf_set → (Nat → Int) → List mbuf_item → Option (List Bool × mbuf_set × (Nat → Int))
  | ms, refcount, [] => some ([], ms, refcount)
  | ms, refcount, item :: rest =>
    match mbuf_add_item MBUF_INDEX ms refcount item with
    | none => none
    | some (ret, ms, refcount) =>
      match mbuf_add_items MBUF_INDEX ms refcount rest with
      | none => none
      | some (rets, ms, refcount) => some (ret :: rets, ms, refcount)

/-- Successive calls of `mbuf_extract_item`, `n` of them: the value returned
and the item left in `*item` by each call, and the set at the end. -/
def mbuf_extract_items (MBUF_INDEX : Nat → Nat → Nat → Nat) :
    Nat → mbuf_set → Option (List (Bool × mbuf_item) × mbuf_set)
  | 0, ms => some ([], ms)
  | n + 1, ms =>
    match mbuf_extract_item MBUF_INDEX ms { buffer := 0, arg := 0 } with
    | none => none
    | some (ret, ms, item) =>
      match mbuf_extract_items MBUF_INDEX n ms with
      | none => none
      | some (rest, ms) => some ((ret, item) :: rest, ms)

/-- The loop of `mbuf_dereference` of mbuf.c, for `i` from `i` up: `fuel` is
the number of turns left, `len - i`. `none` is an item out of the bounds of
the array. -/
def mbuf_dereference_loop (MBUF_INDEX : Nat → Nat → Nat → Nat) (arg : Nat) :
    Nat → Nat → mbuf_set → (Nat → Int) → Option (mbuf_set × (Nat → Int))
  | 0, _, ms, refcount => some (ms, refcount)
  | fuel + 1, i, ms, refcount =>
    match ms.array[MBUF_INDEX ms.head i ms.capacity]? with
    | none => none
    | some item =>
      if item.arg = arg then
        mbuf_dereference_loop MBUF_INDEX arg fuel (i + 1)
          { ms with
            array := ms.array.set (MBUF_INDEX ms.head i ms.capacity) { buffer := 0, arg := 0 } }
          (mbuf_free_buf refcount item.buffer)
      else mbuf_dereference_loop MBUF_INDEX arg fuel (i + 1) ms refcount

/-- `mbuf_dereference` of mbuf.c, for a non-NULL `ms`: every queued item of
`arg` loses its buffer and its `arg`. -/
def mbuf_dereference (MBUF_INDEX : Nat → Nat → Nat → Nat) (ms : mbuf_set)
    (refcount : Nat → Int) (arg : Nat) : Option (mbuf_set × (Nat → Int)) :=
  mbuf_dereference_loop MBUF_INDEX arg ms.len 0 ms refcount

/-- An empty set of capacity 4, as `mbuf_init (4)` leaves it but for the
content of the array. -/
def sample_empty_mbuf_set : mbuf_set :=
  { head := 0, len := 0, capacity := 4, max_queued := 0,
    array := List.replicate 4 { buffer := 0, arg := 0 } }

/-- A full set of capacity 2 whose two items are for the instance 7. -/
def sample_one_instance_mbuf_set : mbuf_set :=
  { head := 1, len := 2, capacity := 2, max_queued := 2,
    array := [{ buffer := 12, arg := 7 }, { buffer := 11, arg := 7 }] }

/-! ## multi.h: multi_route_defined -/

/-- `MULTI_ROUTE_CACHE` of multi.h. -/
def MULTI_ROUTE_CACHE : Nat := 1

/-- `MULTI_ROUTE_AGEABLE` of multi.h. -/
def MULTI_ROUTE_AGEABLE : Nat := 2

/-- A `struct multi_route`, without its address: `instance_halt` is
`r->instance->halt`. `cache_generation` is an `unsigned int`,
`last_reference` a `time_t`. -/
structure multi_route where
  instance_halt : Bool
  flags : Nat
  cache_generation : Nat
  last_reference : Int
  deriving DecidableEq, Repr

/-- The two fields of `m->route_helper` that `multi_route_defined` reads. The
structure itself is declared in a version of mroute.h other than the one at
hand. -/
structure mroute_helper where
  cache_generation : Nat
  ageable_ttl_secs : Int
  deriving DecidableEq, Repr

/-- `multi_route_defined` of multi.h; `now` is the global clock. -/
def multi_route_defined (now : Int) (route_helper : mroute_helper) (r : multi_route) : Bool :=
  if r.instance_halt then false
  else if r.flags &&& MULTI_ROUTE_CACHE ≠ 0
      ∧ r.cache_generation ≠ route_helper.cache_generation then false
  else if r.flags &&& MULTI_ROUTE_AGEABLE ≠ 0
      ∧ r.last_reference + route_helper.ageable_ttl_secs < now then false
  else true

/-- Modelled from the spec: "a cache-generation bump", the increment of the
`unsigned int` `m->route_helper->cache_generation`; the function doing it is
not part of the sources at hand. -/
def cache_generation_bump (route_helper : mroute_helper) : mroute_helper :=
  { route_helper with cache_generation := (route_helper.cache_generation + 1) % 2 ^ 32 }

/-! ## options.c: options_cmp_equal_safe -/

/-- The C library's `strncmp` on two `char` arrays: the difference of the
first two characters that differ among the first `n`, 0 if there is none
before a NUL. The end of a list counts as a NUL. -/
def strncmp : List Char → List Char → Nat → Int
  | _, _, 0 => 0
  | s1, s2, n + 1 =>
    let c1 := s1.headD NUL
    let c2 := s2.headD NUL
    if c1 ≠ c2 then (c1.toNat : Int) - (c2.toNat : Int)
    else if c1 = NUL then 0
    else strncmp s1.tail s2.tail n

/-- The C library's `strcmp` on two `char` arrays. The end of a list counts as
a NUL. -/
def strcmp : List Char → List Char → Int
  | [], s2 => (NUL.toNat : Int) - ((s2.headD NUL).toNat : Int)
  | c1 :: t1, s2 =>
    let c2 := s2.headD NUL
    if c1 ≠ c2 then (c1.toNat : Int) - (c2.toNat : Int)
    else if c1 = NUL then 0
    else strcmp t1 s2.tail

/-- `options_cmp_equal_safe` of options.c (without `STRICT_OPTIONS_CHECK`):
the value returned and the array `actual` after the call. `none` is a write
of the NUL outside the array. -/
def options_cmp_equal_safe (actual expected : List Char) (actual_n : Nat) :
    Option (Bool × List Char) :=
  let ret := true
  if actual_n > 0 then
    if actual_n - 1 < actual.length then
      let actual := actual.set (actual_n - 1) NUL
      if strncmp actual expected 2 ≠ 0 then some (ret, actual)
      else some (decide (strcmp actual expected = 0), actual)
    else none
  else some (ret, actual)

/-! ## mroute.c: mroute_extract_addr_from_packet -/

/-- `MR_MAX_ADDR_LEN` of mroute.h. -/
def MR_MAX_ADDR_LEN : Nat := 18

/-- `MR_ADDR_ETHER` of mroute.h. -/
def MR_ADDR_ETHER : Nat := 1

/-- `MR_ADDR_IPV4` of mroute.h. -/
def MR_ADDR_IPV4 : Nat := 2

/-- A `struct mroute_addr` of mroute.h; `addr` has `MR_MAX_ADDR_LEN` bytes. -/
structure mroute_addr where
  len : Nat
  type : Nat
  addr : List Nat
  deriving DecidableEq, Repr

/-- What `mroute_extract_addr_from_packet` takes from proto.h and tun.h: the
two device types, the sizes of `struct openvpn_ethhdr` and `struct
openvpn_iphdr`, the macro `OPENVPN_IPH_GET_VER`, and the offsets of the
fields `saddr`, `daddr` of the IP header and `dest`, `source` of the Ethernet
header. Parameters, as neither header is part of the sources at hand. -/
structure proto_layout where
  DEV_TYPE_TUN : Int
  DEV_TYPE_TAP : Int
  sizeof_openvpn_ethhdr : Nat
  sizeof_openvpn_iphdr : Nat
  OPENVPN_IPH_GET_VER : Nat → Nat
  iphdr_saddr : Nat
  iphdr_daddr : Nat
  ethhdr_dest : Nat
  ethhdr_source : Nat

/-- The layout of an Ethernet header (14 bytes: destination, source, type)
and of an IPv4 header without options (20 bytes, the version in the high
half of byte 0, the source address at byte 12, the destination at byte 16). -/
def openvpn_proto_layout : proto_layout :=
  { DEV_TYPE_TUN := 2, DEV_TYPE_TAP := 3,
    sizeof_openvpn_ethhdr := 14, sizeof_openvpn_iphdr := 20,
    OPENVPN_IPH_GET_VER := fun v => (v >>> 4) &&& 0x0F,
    iphdr_saddr := 12, iphdr_daddr := 16, ethhdr_dest := 0, ethhdr_source := 6 }

/-- `memcpy (addr->addr, BPTR (buf) + offset, n)`: the `n` bytes of the
buffer from `offset` on replace the first `n` bytes of `addr`. -/
def mroute_addr_memcpy (addr : List Nat) (buf : buffer) (offset n : Nat) : List Nat :=
  (buf.data.drop offset).take n ++ addr.drop n

/-- `mroute_extract_addr_from_packet` of mroute.c: the value returned and
`*addr` after the call. `none` is the `M_FATAL` message of the IPv6 case. -/
def mroute_extract_addr_from_packet (P : proto_layout) (addr : mroute_addr) (buf : buffer)
    (tunnel_type : Int) (dest : Bool) : Option (Bool × mroute_addr) :=
  if tunnel_type = P.DEV_TYPE_TUN then
    if (BLEN buf : Int) ≥ ((P.sizeof_openvpn_ethhdr + 1 : Nat) : Int) then
      let ver := P.OPENVPN_IPH_GET_VER (buf.data.headD 0)
      if ver = 4 then
        if (BLEN buf : Int) ≥ ((P.sizeof_openvpn_ethhdr + P.sizeof_openvpn_iphdr : Nat) : Int) then
          let ip := P.sizeof_openvpn_ethhdr
          some (true,
            { type := MR_ADDR_IPV4, len := 4,
              addr := mroute_addr_memcpy addr.addr buf
                (ip + (if dest then P.iphdr_daddr else P.iphdr_saddr)) 4 })
        else some (false, addr)
      else if ver = 6 then none
      else some (false, addr)
    else some (false, addr)
  else if tunnel_type = P.DEV_TYPE_TAP then
    if (BLEN buf : Int) ≥ (P.sizeof_openvpn_ethhdr : Int) then
      some (true,
        { type := MR_ADDR_ETHER, len := 6,
          addr := mroute_addr_memcpy addr.addr buf
            (if dest then P.ethhdr_dest else P.ethhdr_source) 6 })
    else some (false, addr)
  else some (false, addr)

/-- The address field the claim names: the 4 bytes of the destination (or
source) address of the IP header that starts at byte 0 of the buffer. -/
def ip_header_addr_field (P : proto_layout) (buf : buffer) (dest : Bool) : List Nat :=
  (buf.data.drop (if dest then P.iphdr_daddr else P.iphdr_saddr)).take 4

/-- An IPv4 datagram of 40 bytes as a tun device delivers it: a header
without options from 10.8.0.1 to 10.8.0.6, and 20 bytes of payload, 100 to
119. -/
def sample_ipv4_datagram : buffer :=
  { data := [0x45, 0, 0, 40, 0, 0, 0, 0, 64, 17, 0, 0, 10, 8, 0, 1, 10, 8, 0, 6,
      100, 101, 102, 103, 104, 105, 106, 107, 108, 109,
      110, 111, 112, 113, 114, 115, 116, 117, 118, 119] }

/-- An IPv4 datagram of 28 bytes: the same header and 8 bytes of payload. -/
def sample_short_ipv4_datagram : buffer :=
  { data := [0x45, 0, 0, 28, 0, 0, 0, 0, 64, 1, 0, 0, 10, 8, 0, 1, 10, 8, 0, 6,
      8, 0, 0, 0, 0, 1, 0, 1] }

/-- An address structure cleared by `mroute_addr_init`. -/
def sample_mroute_addr : mroute_addr :=
  { len := 0, type := 0, addr := List.replicate MR_MAX_ADDR_LEN 0 }

/-! ## mtcp.c: the actions of the TCP server -/

/-- `TA_UNDEF` of mtcp.c. -/
def TA_UNDEF : Int := 0

/-- `TA_SOCKET_READ` of mtcp.c. -/
def TA_SOCKET_READ : Int := 1

/-- `TA_SOCKET_READ_RESIDUAL` of mtcp.c. -/
def TA_SOCKET_READ_RESIDUAL : Int := 2

/-- `TA_SOCKET_WRITE` of mtcp.c. -/
def TA_SOCKET_WRITE : Int := 3

/-- `TA_SOCKET_WRITE_READY` of mtcp.c. -/
def TA_SOCKET_WRITE_READY : Int := 4

/-- `TA_SOCKET_WRITE_DEFERRED` of mtcp.c. -/
def TA_SOCKET_WRITE_DEFERRED : Int := 5

/-- `TA_TUN_READ` of mtcp.c. -/
def TA_TUN_READ : Int := 6

/-- `TA_TUN_WRITE` of mtcp.c. -/
def TA_TUN_WRITE : Int := 7

/-- `MTP_NONE` of `multi_tcp_post`. -/
def MTP_NONE : Nat := 0

/-- `MTP_TUN_OUT` of `multi_tcp_post`. -/
def MTP_TUN_OUT : Nat := 1

/-- `MTP_LINK_OUT` of `multi_tcp_post`. -/
def MTP_LINK_OUT : Nat := 2

/-- `multi_tcp_post` of mtcp.c: the new action, and whether
`multi_tcp_set_global_rw_flags` was called. `TUN_OUT` and `LINK_OUT` are the
values of the macros `TUN_OUT (c)` and `LINK_OUT (c)` on the context of the
instance (or the top context when `mi` is NULL), `mi` tells whether the
instance pointer is non-NULL and `socket_read_residual` is what that function
returns on its socket. `none` is the `M_FATAL` message of the default case. -/
def multi_tcp_post (TUN_OUT LINK_OUT : Bool) (mi : Bool) (socket_read_residual : Bool)
    (action : Int) : Option (Int × Bool) :=
  let newaction := TA_UNDEF
  let flags := MTP_NONE
  let flags := if TUN_OUT then flags ||| MTP_TUN_OUT else flags
  let flags := if LINK_OUT then flags ||| MTP_LINK_OUT else flags
  let _ := action
  if flags = (MTP_TUN_OUT ||| MTP_LINK_OUT) ∨ flags = MTP_TUN_OUT then some (TA_TUN_WRITE, false)
  else if flags = MTP_LINK_OUT then some (TA_SOCKET_WRITE, false)
  else if flags = MTP_NONE then
    if mi && socket_read_residual then some (TA_SOCKET_READ_RESIDUAL, false)
    else some (newaction, true)
  else none

/-- Modelled from the spec: the deferred queue is non-empty. `mbuf_defined`
of mbuf.h, which is not part of the sources at hand, for a non-NULL set. -/
def mbuf_defined (ms : mbuf_set) : Bool := decide (ms.len ≠ 0)

/-- What `multi_tcp_process_outgoing_link` uses of the instance `mi` points
to: `context.c2.to_link` and the queue `tcp_link_out_deferred`. -/
structure tcp_instance where
  to_link : buffer
  tcp_link_out_deferred : mbuf_set
  deriving DecidableEq, Repr

/-- The `struct mbuf_buffer` objects: the reference count and the buffer of
the object at each address. -/
structure mbuf_heap where
  refcount : Nat → Int
  buf : Nat → buffer

/-- What `multi_tcp_process_outgoing_link` calls: the macro `MBUF_INDEX`, the
address `ALLOC_OBJ` returns in `mbuf_alloc_buf`, `buf_reset`, the value
`multi_process_post` returns, and `multi_process_outgoing_link_dowork`, which
writes `to_link` to the socket (the instance after it, and the value it
returns). -/
structure multi_tcp_env where
  MBUF_INDEX : Nat → Nat → Nat → Nat
  alloc : Nat
  buf_reset : buffer → buffer
  multi_process_post : Bool
  multi_process_outgoing_link_dowork : tcp_instance → tcp_instance × Bool

/-- `mbuf_alloc_buf` of mbuf.c: a new object at the address `p` holds a copy
of the buffer, with one reference. -/
def mbuf_alloc_buf (p : Nat) (heap : mbuf_heap) (buf : buffer) : mbuf_heap :=
  { refcount := fun q => if q = p then 1 else heap.refcount q
    buf := fun q => if q = p then buf else heap.buf q }

/-- The outcome of `multi_tcp_process_outgoing_link`: the value returned, the
instance and the heap after the call, and whether the packet was written to
the socket (`multi_process_outgoing_link_dowork` was called). -/
structure multi_tcp_outcome where
  ret : Bool
  inst : tcp_instance
  heap : mbuf_heap
  wrote : Bool

/-- `multi_tcp_process_outgoing_link` of mtcp.c. `mi` is the pointer
`multi_process_outgoing_link_pre (m)` returns (0 is NULL) and `inst` the
instance it points to. `none` is a failed assertion of `mbuf_add_item`. -/
def multi_tcp_process_outgoing_link (E : multi_tcp_env) (mi : Nat) (inst : tcp_instance)
    (heap : mbuf_heap) (defer : Bool) : Option multi_tcp_outcome :=
  let ret := true
  if mi ≠ 0 then
    if defer || mbuf_defined inst.tcp_link_out_deferred then
      let buf := inst.to_link
      if BLEN buf > 0 then
        let mb := E.alloc
        let heap := mbuf_alloc_buf mb heap buf
        let item : mbuf_item := { buffer := mb, arg := mi }
        match mbuf_add_item E.MBUF_INDEX inst.tcp_link_out_deferred heap.refcount item with
        | none => none
        | some (_, ms, refcount) =>
          some
            { ret := E.multi_process_post
              inst := { to_link := E.buf_reset buf, tcp_link_out_deferred := ms }
              heap := { heap with refcount := mbuf_free_buf refcount mb }
              wrote := false }
      else some { ret := ret, inst := inst, heap := heap, wrote := false }
    else
      some
        { ret := (E.multi_process_outgoing_link_dowork inst).2
          inst := (E.multi_process_outgoing_link_dowork inst).1
          heap := heap
          wrote := true }
  else some { ret := ret, inst := inst, heap := heap, wrote := false }

/-- A sample environment: the ring index, a new object at address 21, a
`buf_reset` that empties the buffer, and a direct write that empties
`to_link`. -/
def sample_multi_tcp_env : multi_tcp_env :=
  { MBUF_INDEX := sample_MBUF_INDEX
    alloc := 21
    buf_reset := fun _ => { data := [] }
    multi_process_post := true
    multi_process_outgoing_link_dowork := fun i => ({ i with to_link := { data := [] } }, true) }

/-- A sample instance: a packet of three bytes in `to_link`, and the queue
given. -/
def sample_tcp_instance (ms : mbuf_set) : tcp_instance :=
  { to_link := { data := [1, 2, 3] }, tcp_link_out_deferred := ms }

/-- A sample heap: every object has one reference and an empty buffer. -/
def sample_mbuf_heap : mbuf_heap :=
  { refcount := fun _ => 1, buf := fun _ => { data := [] } }

/-! ## multi.c: multi_process_timeout -/

/-- What `multi_process_timeout` reads of a `struct multi_instance`:
`defined`, and the buffers `context.c2.to_link` and `context.c2.to_tun`. -/
structure timeout_instance where
  defined : Bool
  to_link : buffer
  to_tun : buffer
  deriving DecidableEq, Repr

/-- What `multi_process_timeout` uses of a `struct multi_context`: the array
of instances and the three instance pointers `earliest_wakeup`, `link_out`
and `tun_out`, each an index into the array, `none` being NULL. -/
structure timeout_multi_context where
  array : List timeout_instance
  earliest_wakeup : Option Nat
  link_out : Option Nat
  tun_out : Option Nat
  deriving DecidableEq, Repr

/-- The instance `m->earliest_wakeup` points to; `none` when the pointer is
NULL (or outside the array), where a read through it is a fault. -/
def earliest_wakeup_instance (m : timeout_multi_context) : Option timeout_instance :=
  match m.earliest_wakeup with
  | none => none
  | some i => m.array[i]?

/-- `multi_process_timeout` of multi.c; `multi_process_post` is the function
of that name, on the instance. `none` is a read through a NULL
`m->earliest_wakeup`. The operator `&&` of the two conditions reads
`m->earliest_wakeup->context` only when `m->link_out` (`m->tun_out`) is
NULL. -/
def multi_process_timeout (multi_process_post : timeout_instance → timeout_instance)
    (m : timeout_multi_context) : Option timeout_multi_context :=
  let m :=
    match m.earliest_wakeup with
    | some i =>
      { m with array := m.array.modify multi_process_post i, earliest_wakeup := none }
    | none => m
  let m : Option timeout_multi_context :=
    if m.link_out = none then
      match earliest_wakeup_instance m with
      | none => none
      | some mi => if BLEN mi.to_link ≠ 0 then some { m with link_out := m.earliest_wakeup }
        else some m
    else some m
  match m with
  | none => none
  | some m =>
    if m.tun_out = none then
      match earliest_wakeup_instance m with
      | none => none
      | some mi => if BLEN mi.to_tun ≠ 0 then some { m with tun_out := m.earliest_wakeup }
        else some m
    else some m

/-- A context with two defined instances; the first has output pending for
the link and is the one to wake up; no instance is `link_out` or `tun_out`. -/
def sample_timeout_multi_context : timeout_multi_context :=
  { array := [{ defined := true, to_link := { data := [1, 2, 3] }, to_tun := { data := [] } },
      { defined := true, to_link := { data := [] }, to_tun := { data := [] } }]
    earliest_wakeup := some 0
    link_out := none
    tun_out := none }

/-! ## options.c: parse_line -/

/-- The double quote character. -/
def DQUOTE : Char := Char.ofNat 34

/-- The backslash character. -/
def BACKSLASH : Char := Char.ofNat 92

/-- The C library's `isspace` in the C locale: space, and the characters 9 to
13 (tab, newline, vertical tab, form feed, carriage return). -/
def isspace (c : Char) : Bool :=
  c == ' ' || (9 ≤ c.toNat && c.toNat ≤ 13)

/-- `space` of options.c. -/
def space (c : Char) : Bool :=
  c == NUL || isspace c

/-- `STATE_INITIAL` of `parse_line`. -/
def STATE_INITIAL : Nat := 0

/-- `STATE_READING_QUOTED_PARM` of `parse_line`. -/
def STATE_READING_QUOTED_PARM : Nat := 1

/-- `STATE_READING_UNQUOTED_PARM` of `parse_line`. -/
def STATE_READING_UNQUOTED_PARM : Nat := 2

/-- `STATE_DONE` of `parse_line`. -/
def STATE_DONE : Nat := 3

/-- `SIZE (parm)` for `char parm[256]`. -/
def PARM_SIZE : Nat := 256

/-- The variables of `parse_line`: `ret`, `state`, `backslash`, the
`parm_len` characters stored in `parm`, and the parameters stored in `p[0]`
to `p[ret - 1]`. -/
structure parse_line_st where
  ret : Nat
  state : Nat
  backslash : Bool
  parm : List Char
  p : List (List Char)
  deriving DecidableEq, Repr

/-- How a call of `parse_line` ends: it returns `ret` with the parameters
stored, or `ASSERT (parm_len > 0)` fails, or `p[ret]` is written outside the
`n` elements of `p`. -/
inductive parse_line_result where
  | returned (ret : Nat) (p : List (List Char))
  | assert_failed
  | out_of_bounds
  deriving DecidableEq, Repr

/-- How one turn of the loop of `parse_line` ends: it reaches the loop
condition, or leaves the loop through `break`, or the function returns 0, or
the call ends abnormally. -/
inductive parse_line_step where
  | next (st : parse_line_st)
  | broke (st : parse_line_st)
  | return_zero (st : parse_line_st)
  | fault (r : parse_line_result)
  deriving DecidableEq, Repr

/-- The three branches on `state` in the loop of `parse_line`, for the
character `c` read: the new state and the character `out`, or `none` for the
`break` at a comment. -/
def parse_line_read (st : parse_line_st) (c : Char) : Option (Nat × Char) :=
  if st.state = STATE_INITIAL then
    if !space c then
      if c = ';' ∨ c = '#' then none
      else if !st.backslash && c == DQUOTE then some (STATE_READING_QUOTED_PARM, NUL)
      else some (STATE_READING_UNQUOTED_PARM, c)
    else some (st.state, NUL)
  else if st.state = STATE_READING_UNQUOTED_PARM then
    if !st.backslash && space c then some (STATE_DONE, NUL) else some (st.state, c)
  else if st.state = STATE_READING_QUOTED_PARM then
    if !st.backslash && c == DQUOTE then some (STATE_DONE, NUL) else some (st.state, c)
  else some (st.state, NUL)

/-- The block `if (state == STATE_DONE)` of `parse_line`: the parameter read
is stored in `p[ret]`. -/
def parse_line_done (n : Int) (st : parse_line_st) : Except parse_line_result parse_line_st :=
  if st.state = STATE_DONE then
    if ¬ st.parm.length > 0 then Except.error parse_line_result.assert_failed
    else if ¬ (st.ret : Int) < n then Except.error parse_line_result.out_of_bounds
    else
      Except.ok
        { st with p := st.p ++ [st.parm], state := STATE_INITIAL, parm := [], ret := st.ret + 1 }
  else Except.ok st

/-- The end of a turn of the loop of `parse_line`: "store parameter
character" and "avoid overflow if too many parms in one config file line". -/
def parse_line_store (n : Int) (st : parse_line_st) (out : Char) : parse_line_step :=
  if out ≠ NUL ∧ st.parm.length ≥ PARM_SIZE then parse_line_step.return_zero st
  else
    let st := if out ≠ NUL then { st with parm := st.parm ++ [out] } else st
    if (st.ret : Int) ≥ n then parse_line_step.broke st else parse_line_step.next st

/-- One turn of the `do ... while` loop of `parse_line` for the character
read. The messages of `msg (msglevel, ...)` are left out. -/
def parse_line_body (n : Int) (st : parse_line_st) (c : Char) : parse_line_step :=
  if !st.backslash && c == BACKSLASH then
    parse_line_store n { st with backslash := true } NUL
  else
    match parse_line_read st c with
    | none => parse_line_step.broke st
    | some (state, out) =>
      match parse_line_done n { st with state := state } with
      | Except.error r => parse_line_step.fault r
      | Except.ok st => parse_line_store n { st with backslash := false } out

/-- The statements of `parse_line` behind the loop. -/
def parse_line_finish (st : parse_line_st) : parse_line_result :=
  if st.state = STATE_READING_QUOTED_PARM then parse_line_result.returned 0 st.p
  else if st.state ≠ STATE_INITIAL then parse_line_result.returned 0 st.p
  else parse_line_result.returned st.ret st.p

/-- The loop `do ... while (*c++ != '\0')` of `parse_line` over the
characters of `line`; behind the last character of the list the loop reads
the terminating NUL. -/
def parse_line_loop (n : Int) (st : parse_line_st) : List Char → parse_line_result
  | [] =>
    match parse_line_body n st NUL with
    | parse_line_step.next st => parse_line_finish st
    | parse_line_step.broke st => parse_line_finish st
    | parse_line_step.return_zero st => parse_line_result.returned 0 st.p
    | parse_line_step.fault r => r
  | c :: rest =>
    match parse_line_body n st c with
    | parse_line_step.next st =>
      if c = NUL then parse_line_finish st else parse_line_loop n st rest
    | parse_line_step.broke st => parse_line_finish st
    | parse_line_step.return_zero st => parse_line_result.returned 0 st.p
    | parse_line_step.fault r => r

/-- `parse_line` of options.c, for the characters of `line` and the number
`n` of elements of `p`. -/
def parse_line (line : List Char) (n : Int) : parse_line_result :=
  parse_line_loop n
    { ret := 0, state := STATE_INITIAL, backslash := false, parm := [], p := [] } line

/-- The sentence of the claim on what a call must do: it returns a count from
0 to `n` and has stored at most `n` parameters, each shorter than 256
characters. -/
def parse_line_as_claimed (n : Int) (r : parse_line_result) : Prop :=
  match r with
  | parse_line_result.returned ret p =>
    (ret : Int) ≤ n ∧ (p.length : Int) ≤ n ∧ ∀ q ∈ p, q.length < 256
  | _ => False

/-- No two double quotes in a row. -/
def no_adjacent_quotes : List Char → Bool
  | a :: b :: rest => !(a == DQUOTE && b == DQUOTE) && no_adjacent_quotes (b :: rest)
  | _ => true

/-- The parameters stored have from 1 to 256 characters, and at most `L`. -/
def parse_line_parms_ok (L : Nat) (p : List (List Char)) : Prop :=
  ∀ q ∈ p, 1 ≤ q.length ∧ q.length ≤ PARM_SIZE ∧ q.length ≤ L

/-- What holds of the variables of `parse_line` at the loop condition, `prev`
being the character read in the turn before. -/
def parse_line_inv (n : Int) (L : Nat) (prev : Char) (st : parse_line_st) : Prop :=
  st.ret = st.p.length ∧ (st.ret : Int) < n ∧ parse_line_parms_ok L st.p
    ∧ st.parm.length ≤ PARM_SIZE
    ∧ (st.state = STATE_INITIAL ∨ st.state = STATE_READING_QUOTED_PARM
        ∨ st.state = STATE_READING_UNQUOTED_PARM)
    ∧ (st.state = STATE_READING_UNQUOTED_PARM → 1 ≤ st.parm.length)
    ∧ (st.state = STATE_READING_QUOTED_PARM → st.parm = [] → st.backslash = false →
        prev = DQUOTE)

/-- A call returned a count from 0 to `n` with at most `n` parameters stored,
all of them of 1 to 256 characters and of at most `L`. -/
def parse_line_ok (n : Int) (L : Nat) : parse_line_result → Prop
  | parse_line_result.returned ret p =>
    (ret : Int) ≤ n ∧ (p.length : Int) ≤ n ∧ parse_line_parms_ok L p
  | _ => False

/-- A turn of the loop ended well: at the loop condition the call ends well if
the loop is left, and if it goes on, on `c` other than NUL, the invariant
holds and `parm` has grown by one character at most; a `break` or a
`return 0` ends the call well. -/
def parse_line_step_ok (n : Int) (L : Nat) (c : Char) (len : Nat) : parse_line_step → Prop
  | parse_line_step.next st =>
    parse_line_ok n L (parse_line_finish st)
      ∧ (c ≠ NUL → parse_line_inv n L c st ∧ st.parm.length ≤ len + 1)
  | parse_line_step.broke st => parse_line_ok n L (parse_line_finish st)
  | parse_line_step.return_zero st => parse_line_ok n L (parse_line_result.returned 0 st.p)
  | parse_line_step.fault _ => False

/-! ## The opcode / key-id byte -/

/-- The byte that `write_control_auth` stores in `*header`:
`ks->key_id | (opcode << P_OPCODE_SHIFT)`, stored into a `uint8_t`. -/
def write_control_auth_header (opcode key_id : Nat) : Nat :=
  (key_id ||| (opcode <<< P_OPCODE_SHIFT)) % 256

/-- The byte that `tls_post_encrypt` stores in `*op`:
`(P_DATA_V1 << P_OPCODE_SHIFT) | ks->key_id`, stored into a `uint8_t`; the
opcode constant is the argument `p_data_v1`. -/
def tls_post_encrypt_op (p_data_v1 key_id : Nat) : Nat :=
  ((p_data_v1 <<< P_OPCODE_SHIFT) ||| key_id) % 256

/-- The decoding at the head of `tls_pre_decrypt`:
`op = c >> P_OPCODE_SHIFT; key_id = c & P_KEY_ID_MASK`. -/
def tls_pre_decrypt_decode (c : Nat) : Nat × Nat :=
  (c >>> P_OPCODE_SHIFT, c &&& P_KEY_ID_MASK)

/-! ## Theorems -/

theorem length_memcpy_from (b : List Nat) (off n : Nat) (h : off + n ≤ b.length) :
    (memcpy_from b off n).length = n := by
  simp [memcpy_from]; omega

/-- The effect of the four `memcpy` calls of `swap_hmac` on a buffer that
starts with a block `x` followed by a block `y`. -/
theorem swap_blocks (x y r : List Nat) :
    memcpy_to (memcpy_to (x ++ y ++ r) 0 (memcpy_from (x ++ y ++ r) x.length y.length))
        y.length (memcpy_from (x ++ y ++ r) 0 x.length)
      = y ++ x ++ r := by
  have h1 : memcpy_from (x ++ y ++ r) x.length y.length = y := by
    simp [memcpy_from]
  have h2 : memcpy_from (x ++ y ++ r) 0 x.length = x := by
    simp [memcpy_from, List.take_append_eq_append_take]
  rw [h1, h2]
  have h3 : List.drop (y.length + x.length) (x ++ y ++ r) = r := by
    have : y.length + x.length = (x ++ y).length := by simp [Nat.add_comm]
    rw [this, List.drop_left]
  have h4 : memcpy_to (x ++ y ++ r) 0 y = y ++ List.drop y.length (x ++ y ++ r) := by
    simp [memcpy_to]
  rw [h4]
  unfold memcpy_to
  rw [List.take_left, List.drop_append, List.drop_drop]
  rw [h3]

/-- Every list of length at least `a + b` splits as a block of `a` bytes, a
block of `b` bytes and a rest. -/
theorem split_blocks (l : List Nat) (a b : Nat) (h : a + b ≤ l.length) :
    ∃ x y r, l = x ++ y ++ r ∧ x.length = a ∧ y.length = b := by
  refine ⟨l.take a, (l.drop a).take b, (l.drop a).drop b, ?_, ?_, ?_⟩
  · simp [List.append_assoc]
  · simp; omega
  · simp; omega

/-- What `swap_hmac` does to a buffer long enough: the first `e1` bytes and the
next `e2` bytes change places. -/
theorem swap_hmac_blocks (x y r : List Nat) (co : crypto_options) (incoming : Bool)
    (hsz : Nat)
    (hctx : co.key_ctx_bi.bind
      (fun kb => (if incoming then kb.decrypt else kb.encrypt).hmac) = some hsz)
    (hx : x.length = if incoming then 1 + SID_SIZE else hsz + packet_id_size_long)
    (hy : y.length = if incoming then hsz + packet_id_size_long else 1 + SID_SIZE)
    (hbound : hsz + packet_id_size_long ≤ SWAP_BUF_SIZE) :
    swap_hmac { data := x ++ y ++ r } co incoming = some (true, { data := y ++ x ++ r }) := by
  have hlen : x.length + y.length ≤ (x ++ y ++ r).length := by simp
  have hs := swap_blocks x y r
  simp only [swap_hmac, hctx, BLEN]
  rw [← hx, ← hy]
  have hb1 : x.length ≤ SWAP_BUF_SIZE := by
    rw [hx]; split <;> simp_all [SID_SIZE, SWAP_BUF_SIZE]
  have hb2 : y.length ≤ SWAP_BUF_SIZE := by
    rw [hy]; split <;> simp_all [SID_SIZE, SWAP_BUF_SIZE]
  rw [if_pos ⟨hb1, hb2⟩, if_pos hlen, hs]

/-- A buffer too short for the two blocks is left alone and `false` is
returned. -/
theorem swap_hmac_short (buf : buffer) (co : crypto_options) (incoming : Bool) (hsz : Nat)
    (hctx : co.key_ctx_bi.bind
      (fun kb => (if incoming then kb.decrypt else kb.encrypt).hmac) = some hsz)
    (hbound : hsz + packet_id_size_long ≤ SWAP_BUF_SIZE)
    (hshort : BLEN buf < hsz + packet_id_size_long + (1 + SID_SIZE)) :
    swap_hmac buf co incoming = some (false, buf) := by
  simp only [swap_hmac, hctx]
  have hnot : ¬ (hsz + packet_id_size_long + (1 + SID_SIZE) ≤ BLEN buf) := by omega
  have hnot2 : ¬ (1 + SID_SIZE + (hsz + packet_id_size_long) ≤ BLEN buf) := by omega
  have hosid : 1 + SID_SIZE ≤ SWAP_BUF_SIZE := by decide
  cases incoming
  · simp [hbound, hosid, hnot]
  · simp [hbound, hosid, hnot2]

/-- C1: for a control packet buffer of length at least
`hmac_size + (1 + SID_SIZE)`, `swap_hmac` in the outgoing direction followed by
`swap_hmac` in the incoming direction returns true both times and gives back
the original bytes and length (`hmac_size` is the HMAC size of the sender's
encrypt context and of the receiver's decrypt context, plus the packet id). -/
theorem swap_hmac_out_in (buf : buffer) (co_out co_in : crypto_options) (hsz : Nat)
    (henc : co_out.key_ctx_bi.bind (fun kb => kb.encrypt.hmac) = some hsz)
    (hdec : co_in.key_ctx_bi.bind (fun kb => kb.decrypt.hmac) = some hsz)
    (hbound : hsz + packet_id_size_long ≤ SWAP_BUF_SIZE)
    (hlen : hsz + packet_id_size_long + (1 + SID_SIZE) ≤ BLEN buf) :
    ∃ mid, swap_hmac buf co_out false = some (true, mid)
      ∧ swap_hmac mid co_in true = some (true, buf)
      ∧ BLEN mid = BLEN buf := by
  obtain ⟨x, y, r, hsplit, hx, hy⟩ :=
    split_blocks buf.data (hsz + packet_id_size_long) (1 + SID_SIZE) hlen
  have hbuf : buf = { data := x ++ y ++ r } := by
    cases buf; simp_all
  refine ⟨{ data := y ++ x ++ r }, ?_, ?_, ?_⟩
  · rw [hbuf]
    exact swap_hmac_blocks x y r co_out false hsz (by simpa using henc)
      (by simpa using hx) (by simpa using hy) hbound
  · rw [hbuf]
    exact swap_hmac_blocks y x r co_in true hsz (by simpa using hdec)
      (by simpa using hy) (by simpa using hx) hbound
  · rw [hbuf]; simp [BLEN]; omega

/-- An instance of C1: 40 bytes under SHA1 tls-auth. -/
theorem swap_hmac_out_in_witness :
    ∃ mid, swap_hmac { data := List.range 40 } tls_auth_sha1 false = some (true, mid)
      ∧ swap_hmac mid tls_auth_sha1 true = some (true, { data := List.range 40 })
      ∧ BLEN mid = BLEN { data := List.range 40 } :=
  swap_hmac_out_in { data := List.range 40 } tls_auth_sha1 tls_auth_sha1 20 rfl rfl
    (by decide) (by decide)

/-- C2 fails as stated: with SHA1 tls-auth, two outgoing swaps of the 37 bytes
`0, 1, ..., 36` both return true and leave a buffer that differs from the
original (the first 37 bytes are rotated, not restored). -/
theorem swap_hmac_twice_same_direction_changes :
    ∃ b1 b2, swap_hmac { data := List.range 37 } tls_auth_sha1 false = some (true, b1)
      ∧ swap_hmac b1 tls_auth_sha1 false = some (true, b2)
      ∧ b2.data.take 3 = [19, 20, 21]
      ∧ b2 ≠ { data := List.range 37 } := by
  refine ⟨_, _, rfl, rfl, ?_, ?_⟩ <;> decide

/-- C2 (amended): for every buffer and every direction flag, `swap_hmac` with
that flag followed by `swap_hmac` with the opposite flag leaves the buffer
contents unchanged, both calls returning the same flag (true when the buffer
holds the two blocks, false when it is too short). -/
theorem swap_hmac_then_opposite (buf : buffer) (co : crypto_options) (incoming : Bool)
    (hsz : Nat)
    (henc : co.key_ctx_bi.bind (fun kb => kb.encrypt.hmac) = some hsz)
    (hdec : co.key_ctx_bi.bind (fun kb => kb.decrypt.hmac) = some hsz)
    (hbound : hsz + packet_id_size_long ≤ SWAP_BUF_SIZE) :
    ∃ ok mid, swap_hmac buf co incoming = some (ok, mid)
      ∧ swap_hmac mid co (!incoming) = some (ok, buf) := by
  have hctx : ∀ d : Bool, co.key_ctx_bi.bind
      (fun kb => (if d then kb.decrypt else kb.encrypt).hmac) = some hsz := by
    intro d; cases d <;> simpa using by assumption
  by_cases hlen : hsz + packet_id_size_long + (1 + SID_SIZE) ≤ BLEN buf
  · have hlen2 : (if incoming then 1 + SID_SIZE else hsz + packet_id_size_long)
        + (if incoming then hsz + packet_id_size_long else 1 + SID_SIZE) ≤ buf.data.length := by
      cases incoming <;> simp [BLEN] at hlen ⊢ <;> omega
    obtain ⟨x, y, r, hsplit, hx, hy⟩ := split_blocks buf.data _ _ hlen2
    have hbuf : buf = { data := x ++ y ++ r } := by
      cases buf; simp_all
    refine ⟨true, { data := y ++ x ++ r }, ?_, ?_⟩
    · rw [hbuf]
      exact swap_hmac_blocks x y r co incoming hsz (hctx incoming) hx hy hbound
    · rw [hbuf]
      refine swap_hmac_blocks y x r co (!incoming) hsz (hctx (!incoming)) ?_ ?_ hbound
      · cases incoming <;> simpa using hy
      · cases incoming <;> simpa using hx
  · have hshort : BLEN buf < hsz + packet_id_size_long + (1 + SID_SIZE) := by omega
    exact ⟨false, buf, swap_hmac_short buf co incoming hsz (hctx incoming) hbound hshort,
      swap_hmac_short buf co (!incoming) hsz (hctx (!incoming)) hbound hshort⟩

/-- An instance of the amended C2: an incoming swap and then an outgoing swap
of 40 bytes under SHA1 tls-auth. -/
theorem swap_hmac_then_opposite_witness :
    ∃ ok mid, swap_hmac { data := List.range 40 } tls_auth_sha1 true = some (ok, mid)
      ∧ swap_hmac mid tls_auth_sha1 (!true) = some (ok, { data := List.range 40 }) :=
  swap_hmac_then_opposite { data := List.range 40 } tls_auth_sha1 true 20 rfl rfl (by decide)

/-- The opcode byte on the finite range of 5-bit opcodes and 3-bit key ids. -/
theorem opcode_byte_table :
    ∀ opcode < 32, ∀ key_id < 8,
      write_control_auth_header opcode key_id = (opcode <<< 3) ||| key_id
      ∧ tls_post_encrypt_op opcode key_id = (opcode <<< 3) ||| key_id
      ∧ tls_pre_decrypt_decode ((opcode <<< 3) ||| key_id) = (opcode, key_id) := by
  decide

/-- C3: for every opcode in 0..31 and key id in 0..7 the first byte written by
`write_control_auth` and by `tls_post_encrypt` (there with the opcode
`P_DATA_V1`) is `(opcode << 3) | key_id`, and the decoding of
`tls_pre_decrypt` recovers that opcode and key id from it. -/
theorem opcode_byte_roundtrip (opcode key_id : Nat) (hop : opcode < 32) (hkey : key_id < 8) :
    write_control_auth_header opcode key_id = (opcode <<< 3) ||| key_id
    ∧ tls_post_encrypt_op opcode key_id = (opcode <<< 3) ||| key_id
    ∧ tls_pre_decrypt_decode (write_control_auth_header opcode key_id) = (opcode, key_id)
    ∧ tls_pre_decrypt_decode (tls_post_encrypt_op opcode key_id) = (opcode, key_id) := by
  obtain ⟨h1, h2, h3⟩ := opcode_byte_table opcode hop key_id hkey
  refine ⟨h1, h2, ?_, ?_⟩
  · rw [h1]; exact h3
  · rw [h2]; exact h3

/-- An instance of C3: opcode 6 with key id 5 gives the byte 53. -/
theorem opcode_byte_roundtrip_witness :
    write_control_auth_header 6 5 = (6 <<< 3) ||| 5
    ∧ tls_post_encrypt_op 6 5 = (6 <<< 3) ||| 5
    ∧ tls_pre_decrypt_decode (write_control_auth_header 6 5) = (6, 5)
    ∧ tls_pre_decrypt_decode (tls_post_encrypt_op 6 5) = (6, 5) :=
  opcode_byte_roundtrip 6 5 (by decide) (by decide)

/-- C4: a hard reset whose role matches the local role (a
`HARD_RESET_CLIENT_V1/V2` received by a non-server, a `HARD_RESET_SERVER_V1/V2`
received by a server) makes `tls_pre_decrypt` return false with `buf->len = 0`
and `n_errors` one higher, and nothing else of the `tls_multi` changes: every
session, with its key states, remote addresses and remote session ids, is as
before. -/
theorem tls_pre_decrypt_same_role_hard_reset (P : opcodes) (X : externals)
    (e : tls_pre_decrypt_env) (now : Int) (multi : tls_multi) (src : sockaddr_in)
    (buf : buffer) (opt : crypto_options) (c : Nat) (rest : List Nat)
    (hP : P.hard_resets_are_control)
    (hbuf : buf.data = c :: rest)
    (hrole :
      ((c >>> P_OPCODE_SHIFT = P.P_CONTROL_HARD_RESET_CLIENT_V1
          ∨ c >>> P_OPCODE_SHIFT = P.P_CONTROL_HARD_RESET_CLIENT_V2) ∧ multi.opt.server = false)
      ∨ ((c >>> P_OPCODE_SHIFT = P.P_CONTROL_HARD_RESET_SERVER_V1
          ∨ c >>> P_OPCODE_SHIFT = P.P_CONTROL_HARD_RESET_SERVER_V2) ∧ multi.opt.server = true)) :
    ∃ r, tls_pre_decrypt P X e now multi src buf opt = some r
      ∧ r.ret = false
      ∧ BLEN r.buf = 0
      ∧ r.multi.n_errors = multi.n_errors + 1
      ∧ r.multi = { multi with n_errors := multi.n_errors + 1 }
      ∧ r.multi.session_active = multi.session_active
      ∧ r.multi.session_untrusted = multi.session_untrusted
      ∧ r.multi.session_lame_duck = multi.session_lame_duck := by
  have hop : c >>> P_OPCODE_SHIFT = P.P_CONTROL_HARD_RESET_CLIENT_V1
      ∨ c >>> P_OPCODE_SHIFT = P.P_CONTROL_HARD_RESET_SERVER_V1
      ∨ c >>> P_OPCODE_SHIFT = P.P_CONTROL_HARD_RESET_CLIENT_V2
      ∨ c >>> P_OPCODE_SHIFT = P.P_CONTROL_HARD_RESET_SERVER_V2 := by
    rcases hrole with ⟨h | h, _⟩ | ⟨h | h, _⟩ <;> simp [h]
  obtain ⟨hdata, hfirst, hlast⟩ :
      c >>> P_OPCODE_SHIFT ≠ P.P_DATA_V1 ∧ P.P_FIRST_OPCODE ≤ c >>> P_OPCODE_SHIFT
        ∧ c >>> P_OPCODE_SHIFT ≤ P.P_LAST_OPCODE := by
    simp only [opcodes.hard_resets_are_control, List.all_cons, List.all_nil, Bool.and_true,
      Bool.and_eq_true, decide_eq_true_eq] at hP
    rcases hop with h | h | h | h <;> rw [h] <;> tauto
  have hhard : is_hard_reset P (c >>> P_OPCODE_SHIFT) 0 = true := by
    unfold is_hard_reset
    rcases hop with h | h | h | h <;> simp [h]
  refine ⟨tls_pre_decrypt_error false multi opt, ?_, rfl, rfl, rfl, rfl, rfl, rfl, rfl⟩
  unfold tls_pre_decrypt
  rw [hbuf]
  simp only [if_neg hdata]
  rw [if_neg (by omega), if_pos ⟨hhard, hrole⟩]

/-- An instance of C4: a client receives a packet whose first byte is
`P_CONTROL_HARD_RESET_CLIENT_V2 << 3` (56). -/
theorem tls_pre_decrypt_same_role_hard_reset_witness :
    ∃ r, tls_pre_decrypt openvpn_opcodes sample_externals
          { read_control_auth := true, reliable_ack_read := true } 1000 sample_multi
          { sin_addr := 167772162, sin_port := 1194 }
          { data := [56, 9, 9, 9, 9, 9, 9, 9, 9, 0, 0, 0, 0, 0] } tls_auth_sha1 = some r
      ∧ r.ret = false
      ∧ BLEN r.buf = 0
      ∧ r.multi.n_errors = sample_multi.n_errors + 1
      ∧ r.multi = { sample_multi with n_errors := sample_multi.n_errors + 1 }
      ∧ r.multi.session_active = sample_multi.session_active
      ∧ r.multi.session_untrusted = sample_multi.session_untrusted
      ∧ r.multi.session_lame_duck = sample_multi.session_lame_duck :=
  tls_pre_decrypt_same_role_hard_reset openvpn_opcodes sample_externals
    { read_control_auth := true, reliable_ack_read := true } 1000 sample_multi
    { sin_addr := 167772162, sin_port := 1194 }
    { data := [56, 9, 9, 9, 9, 9, 9, 9, 9, 0, 0, 0, 0, 0] } tls_auth_sha1 56 _
    (by unfold opcodes.hard_resets_are_control; decide) rfl (by decide)

/-! ### The key-state machine of `tls_process` -/

theorem tls_process_initial_step (opt : tls_options) (e : tls_process_env)
    (st st1 : tls_process_st) (h : (tls_process_initial opt e st).st? = some st1) :
    key_state_step opt.server st.ks.state st1.ks.state := by
  unfold tls_process_initial at h
  split at h <;> simp [tls_flow.st?] at h <;> subst h <;> simp_all [key_state_step]

theorem tls_process_timeout_step (server : Bool)
    (st st1 : tls_process_st) (h : (tls_process_timeout st).st? = some st1) :
    key_state_step server st.ks.state st1.ks.state := by
  unfold tls_process_timeout at h
  split at h
  · split at h <;> simp [tls_flow.st?] at h <;> subst h <;> simp_all [key_state_step]
  · simp [tls_flow.st?] at h; subst h; simp [key_state_step]

theorem tls_process_pre_start_step (server : Bool) (e : tls_process_env)
    (st st1 : tls_process_st) (h : (tls_process_pre_start e st).st? = some st1) :
    key_state_step server st.ks.state st1.ks.state := by
  unfold tls_process_pre_start at h
  split at h <;> simp [tls_flow.st?] at h <;> subst h <;> simp_all [key_state_step]

theorem tls_process_wait_ack_step (opt : tls_options) (e : tls_process_env)
    (st st1 : tls_process_st) (h : (tls_process_wait_ack opt e st).st? = some st1) :
    key_state_step opt.server st.ks.state st1.ks.state := by
  unfold tls_process_wait_ack at h
  split at h
  · split at h <;> simp [tls_flow.st?] at h <;> subst h <;> simp_all [key_state_step]
  · simp [tls_flow.st?] at h; subst h; simp [key_state_step]

theorem tls_process_send_step (server : Bool) (X : externals) (e : tls_process_env)
    (st st1 : tls_process_st) (h : (tls_process_send X e st).st? = some st1) :
    key_state_step server st.ks.state st1.ks.state := by
  unfold tls_process_send at h
  split at h
  · split at h <;> simp [tls_flow.st?] at h; subst h; simp [key_state_step]
  · simp [tls_flow.st?] at h; subst h; simp [key_state_step]

theorem tls_process_send_ack_step (server : Bool) (X : externals) (e : tls_process_env)
    (st st1 : tls_process_st) (h : (tls_process_send_ack X e st).st? = some st1) :
    key_state_step server st.ks.state st1.ks.state := by
  unfold tls_process_send_ack at h
  split at h
  · split at h <;> simp [tls_flow.st?] at h; subst h; simp [key_state_step]
  · simp [tls_flow.st?] at h; subst h; simp [key_state_step]

theorem tls_process_ciphertext_in_step (server : Bool) (e : tls_process_env)
    (st st1 : tls_process_st) (h : (tls_process_ciphertext_in e st).st? = some st1) :
    key_state_step server st.ks.state st1.ks.state := by
  unfold tls_process_ciphertext_in at h
  cases hg : e.get_buf_sequenced with
  | none => simp [hg, tls_flow.st?] at h; subst h; simp [key_state_step]
  | some buf =>
    simp only [hg] at h
    split_ifs at h <;> simp [tls_flow.st?] at h <;> subst h <;> simp [key_state_step]

theorem tls_process_plaintext_in_step (server : Bool) (e : tls_process_env)
    (st st1 : tls_process_st) (h : (tls_process_plaintext_in e st).st? = some st1) :
    key_state_step server st.ks.state st1.ks.state := by
  unfold tls_process_plaintext_in at h
  split at h
  · dsimp only at h
    split at h
    · simp [tls_flow.st?] at h; subst h; simp [key_state_step]
    · split at h <;> simp [tls_flow.st?] at h <;> subst h <;> simp [key_state_step]
  · simp [tls_flow.st?] at h; subst h; simp [key_state_step]

theorem tls_process_send_key_step (opt : tls_options) (e : tls_process_env)
    (st st1 : tls_process_st) (h : (tls_process_send_key opt e st).st? = some st1) :
    key_state_step opt.server st.ks.state st1.ks.state := by
  unfold tls_process_send_key at h
  split at h
  · split at h
    · simp [tls_flow.st?] at h
    · split at h <;> simp [tls_flow.st?] at h <;> subst h <;> simp_all [key_state_step]
  · simp [tls_flow.st?] at h; subst h; simp [key_state_step]

theorem tls_process_recv_key_step (opt : tls_options) (e : tls_process_env)
    (st st1 : tls_process_st) (h : (tls_process_recv_key opt e st).st? = some st1) :
    key_state_step opt.server st.ks.state st1.ks.state := by
  unfold tls_process_recv_key at h
  split at h
  · split at h
    · simp [tls_flow.st?] at h
    · split at h <;> simp [tls_flow.st?] at h <;> subst h <;> simp_all [key_state_step]
  · simp [tls_flow.st?] at h; subst h; simp [key_state_step]

theorem tls_process_plaintext_out_step (server : Bool) (e : tls_process_env)
    (st st1 : tls_process_st) (h : (tls_process_plaintext_out e st).st? = some st1) :
    key_state_step server st.ks.state st1.ks.state := by
  unfold tls_process_plaintext_out at h
  split at h
  · dsimp only at h
    split at h
    · simp [tls_flow.st?] at h; subst h; simp [key_state_step]
    · split at h <;> simp [tls_flow.st?] at h <;> subst h <;> simp [key_state_step]
  · simp [tls_flow.st?] at h; subst h; simp [key_state_step]

theorem tls_process_ciphertext_out_step (server : Bool) (e : tls_process_env)
    (st st1 : tls_process_st) (h : (tls_process_ciphertext_out e st).st? = some st1) :
    key_state_step server st.ks.state st1.ks.state := by
  unfold tls_process_ciphertext_out at h
  split at h
  · dsimp only at h
    split at h
    · simp [tls_flow.st?] at h; subst h; simp [key_state_step]
    · split at h <;> simp [tls_flow.st?] at h <;> subst h <;> simp [key_state_step]
  · simp [tls_flow.st?] at h; subst h; simp [key_state_step]

/-- Every block of the loop body changes `ks->state` by one of the steps of
`key_state_step`, or not at all. -/
theorem tls_process_block_step (X : externals) (opt : tls_options) (e : tls_process_env)
    (b : tls_process_st → tls_flow) (hb : b ∈ tls_process_blocks X opt e)
    (st st1 : tls_process_st) (h : (b st).st? = some st1) :
    key_state_step opt.server st.ks.state st1.ks.state := by
  simp only [tls_process_blocks, List.mem_cons, List.mem_singleton, List.not_mem_nil,
    or_false] at hb
  rcases hb with rfl | rfl | rfl | rfl | rfl | rfl | rfl | rfl | rfl | rfl | rfl | rfl
  · exact tls_process_initial_step opt e st st1 h
  · exact tls_process_timeout_step opt.server st st1 h
  · exact tls_process_pre_start_step opt.server e st st1 h
  · exact tls_process_wait_ack_step opt e st st1 h
  · exact tls_process_send_step opt.server X e st st1 h
  · exact tls_process_send_ack_step opt.server X e st st1 h
  · exact tls_process_ciphertext_in_step opt.server e st st1 h
  · exact tls_process_plaintext_in_step opt.server e st st1 h
  · exact tls_process_send_key_step opt e st st1 h
  · exact tls_process_recv_key_step opt e st st1 h
  · exact tls_process_plaintext_out_step opt.server e st st1 h
  · exact tls_process_ciphertext_out_step opt.server e st st1 h

/-- A step of `key_state_step` from a state between `S_INITIAL` and `S_NORMAL`
does not lower the stage and stays in that range. -/
theorem key_state_step_stage (server : Bool) (a b : Int)
    (hlo : S_INITIAL ≤ a) (hhi : a ≤ S_NORMAL) (h : key_state_step server a b) :
    key_state_stage server a ≤ key_state_stage server b
      ∧ S_INITIAL ≤ b ∧ b ≤ S_NORMAL := by
  simp only [S_INITIAL, S_NORMAL] at hlo hhi
  unfold key_state_step at h
  simp only [S_INITIAL, S_PRE_START, S_START, S_SENT_KEY, S_GOT_KEY, S_ACTIVE, S_NORMAL] at h
  cases server <;>
    simp only [key_state_stage, S_ERROR, S_INITIAL, S_SENT_KEY, S_GOT_KEY, S_NORMAL] <;>
    interval_cases a <;> simp_all <;> omega

/-- The stage of a state between `S_INITIAL` and `S_NORMAL` is below the stage
of `S_ERROR`. -/
theorem key_state_stage_le_error (server : Bool) (a : Int)
    (hlo : S_INITIAL ≤ a) (hhi : a ≤ S_NORMAL) :
    key_state_stage server a ≤ key_state_stage server S_ERROR := by
  simp only [S_INITIAL, S_NORMAL] at hlo hhi
  cases server <;>
    simp only [key_state_stage, S_ERROR, S_INITIAL, S_SENT_KEY, S_GOT_KEY, S_NORMAL] <;>
    interval_cases a <;> simp

/-- Along a sequence of blocks of the loop body the stage of the primary key
never decreases. -/
theorem run_blocks_stage (X : externals) (opt : tls_options) (e : tls_process_env) :
    ∀ (bs : List (tls_process_st → tls_flow)), (∀ b ∈ bs, b ∈ tls_process_blocks X opt e) →
    ∀ st : tls_process_st, S_INITIAL ≤ st.ks.state → st.ks.state ≤ S_NORMAL →
      List.Pairwise (fun a b : key_state =>
          key_state_stage opt.server a.state ≤ key_state_stage opt.server b.state)
        (run_blocks bs st).1
      ∧ (∀ k ∈ (run_blocks bs st).1,
          key_state_stage opt.server st.ks.state ≤ key_state_stage opt.server k.state
          ∧ S_INITIAL ≤ k.state ∧ k.state ≤ S_NORMAL)
      ∧ (∀ st1, (run_blocks bs st).2.st? = some st1 →
          key_state_stage opt.server st.ks.state ≤ key_state_stage opt.server st1.ks.state
          ∧ S_INITIAL ≤ st1.ks.state ∧ st1.ks.state ≤ S_NORMAL
          ∧ ∀ k ∈ (run_blocks bs st).1,
              key_state_stage opt.server k.state ≤ key_state_stage opt.server st1.ks.state) := by
  intro bs
  induction bs with
  | nil =>
    intro _ st hlo hhi
    simp [run_blocks, tls_flow.st?, hlo, hhi]
  | cons b bs ih =>
    intro hbs st hlo hhi
    have hb := hbs b (List.mem_cons_self _ _)
    have hrest : ∀ b1 ∈ bs, b1 ∈ tls_process_blocks X opt e :=
      fun b1 h1 => hbs b1 (List.mem_cons_of_mem _ h1)
    have hstep := tls_process_block_step X opt e b hb st
    cases hbst : b st with
    | abort => simp [run_blocks, hbst, tls_flow.st?]
    | brk st1 =>
      obtain ⟨h1, h2, h3⟩ := key_state_step_stage opt.server _ _ hlo hhi
        (hstep st1 (by simp [hbst, tls_flow.st?]))
      simp only [run_blocks, hbst, tls_flow.st?]
      simp [h1, h2, h3]
    | err st1 =>
      obtain ⟨h1, h2, h3⟩ := key_state_step_stage opt.server _ _ hlo hhi
        (hstep st1 (by simp [hbst, tls_flow.st?]))
      simp only [run_blocks, hbst, tls_flow.st?]
      simp [h1, h2, h3]
    | next st1 =>
      obtain ⟨h1, h2, h3⟩ := key_state_step_stage opt.server _ _ hlo hhi
        (hstep st1 (by simp [hbst, tls_flow.st?]))
      obtain ⟨ihp, ihl, ihf⟩ := ih hrest st1 h2 h3
      simp only [run_blocks, hbst]
      refine ⟨?_, ?_, ?_⟩
      · exact List.Pairwise.cons (fun k hk => (ihl k hk).1) ihp
      · intro k hk
        rcases List.mem_cons.1 hk with rfl | hk
        · exact ⟨h1, h2, h3⟩
        · exact ⟨le_trans h1 (ihl k hk).1, (ihl k hk).2⟩
      · intro st2 hst2
        obtain ⟨g1, g2, g3, g4⟩ := ihf st2 hst2
        refine ⟨le_trans h1 g1, g2, g3, ?_⟩
        intro k hk
        rcases List.mem_cons.1 hk with rfl | hk
        · exact g1
        · exact g4 k hk

/-- Along the passes of the loop of `tls_process` the stage of the primary key
never decreases. -/
theorem tls_process_loop_stage (X : externals) (opt : tls_options) :
    ∀ (envs : List tls_process_env) (st : tls_process_st),
      S_INITIAL ≤ st.ks.state → st.ks.state ≤ S_NORMAL →
      List.Pairwise (fun a b : key_state =>
          key_state_stage opt.server a.state ≤ key_state_stage opt.server b.state)
        (tls_process_loop X opt envs st).1
      ∧ (∀ k ∈ (tls_process_loop X opt envs st).1,
          key_state_stage opt.server st.ks.state ≤ key_state_stage opt.server k.state
          ∧ S_INITIAL ≤ k.state ∧ k.state ≤ S_NORMAL)
      ∧ (∀ st1, (tls_process_loop X opt envs st).2.st? = some st1 →
          S_INITIAL ≤ st1.ks.state ∧ st1.ks.state ≤ S_NORMAL) := by
  intro envs
  induction envs with
  | nil =>
    intro st hlo hhi
    simp [tls_process_loop, tls_loop_end.st?, hlo, hhi]
  | cons e es ih =>
    intro st hlo hhi
    obtain ⟨hp, hl, hf⟩ := run_blocks_stage X opt e (tls_process_blocks X opt e)
      (fun _ h => h) { st with now := e.clock_top, state_change := false } hlo hhi
    unfold tls_process_loop
    dsimp only
    generalize run_blocks (tls_process_blocks X opt e)
      { st with now := e.clock_top, state_change := false } = r at hp hl hf
    obtain ⟨tr, fl⟩ := r
    cases fl with
    | abort => exact ⟨hp, hl, by simp [tls_loop_end.st?]⟩
    | brk st1 =>
      obtain ⟨_, g2, g3, _⟩ := hf st1 rfl
      refine ⟨hp, hl, ?_⟩
      intro st2 h2
      simp only [tls_loop_end.st?, Option.some.injEq] at h2
      subst h2; exact ⟨g2, g3⟩
    | err st1 =>
      obtain ⟨_, g2, g3, _⟩ := hf st1 rfl
      refine ⟨hp, hl, ?_⟩
      intro st2 h2
      simp only [tls_loop_end.st?, Option.some.injEq] at h2
      subst h2; exact ⟨g2, g3⟩
    | next st1 =>
      obtain ⟨g1, g2, g3, g4⟩ := hf st1 rfl
      dsimp only
      by_cases hsc : st1.state_change = true
      · obtain ⟨ip, il, ifin⟩ := ih st1 g2 g3
        simp only [hsc, if_true]
        refine ⟨?_, ?_, ifin⟩
        · rw [List.pairwise_append]
          exact ⟨hp, ip, fun a ha b hb => le_trans (g4 a ha) (il b hb).1⟩
        · intro k hk
          rcases List.mem_append.1 hk with hk | hk
          · exact hl k hk
          · exact ⟨le_trans g1 (il k hk).1, (il k hk).2⟩
      · simp only [hsc]
        refine ⟨hp, hl, ?_⟩
        intro st2 h2
        simp only [Bool.false_eq_true, if_false, tls_loop_end.st?, Option.some.injEq] at h2
        subst h2; exact ⟨g2, g3⟩

/-- The soft-reset statement of `tls_process` either leaves the primary key
alone or, from `S_ACTIVE` on, replaces it by a key in `S_INITIAL`. -/
theorem tls_process_soft_reset_primary (P : opcodes) (X : externals) (opt : tls_options)
    (clock now : Int) (session : tls_session) :
    (tls_process_soft_reset P X opt clock now session).1.key_primary = session.key_primary
    ∨ (S_ACTIVE ≤ session.key_primary.state
      ∧ (tls_process_soft_reset P X opt clock now session).1.key_primary.state = S_INITIAL) := by
  unfold tls_process_soft_reset
  by_cases hdue : tls_process_soft_reset_due X opt now session.key_primary = true
  · right
    rw [if_pos hdue]
    refine ⟨?_, ?_⟩
    · simp only [tls_process_soft_reset_due, Bool.and_eq_true, decide_eq_true_eq] at hdue
      exact hdue.1
    · simp [key_state_soft_reset, key_state_init]
  · left
    rw [if_neg hdue]

/-- Killing the lame duck does not touch the primary key. -/
theorem tls_process_kill_lame_duck_primary (now : Int) (session s1 : tls_session)
    (wakeup w1 : Int) (h : tls_process_kill_lame_duck now session wakeup = some (s1, w1)) :
    s1.key_primary = session.key_primary := by
  unfold tls_process_kill_lame_duck at h
  split at h
  · simp at h
  · simp only [Option.some.injEq, Prod.mk.injEq] at h
    rw [← h.1]
  · simp only [Option.some.injEq, Prod.mk.injEq] at h
    rw [← h.1]

/-- A non-decreasing stage between two states that are valid or `S_ERROR`
means: the later state is `S_ERROR`, or it is numerically not smaller, or the
pair is the server's step from `S_GOT_KEY` to `S_SENT_KEY`. -/
theorem key_state_stage_le_cases (server : Bool) (a b : Int)
    (ha : (S_INITIAL ≤ a ∧ a ≤ S_NORMAL) ∨ a = S_ERROR)
    (hb : (S_INITIAL ≤ b ∧ b ≤ S_NORMAL) ∨ b = S_ERROR)
    (h : key_state_stage server a ≤ key_state_stage server b) :
    b = S_ERROR ∨ a ≤ b ∨ (server = true ∧ a = S_GOT_KEY ∧ b = S_SENT_KEY) := by
  rcases hb with ⟨hb1, hb2⟩ | hb
  · rcases ha with ⟨ha1, ha2⟩ | ha
    · simp only [S_INITIAL, S_NORMAL] at ha1 ha2 hb1 hb2
      revert h
      cases server <;>
        simp only [key_state_stage, S_ERROR, S_INITIAL, S_SENT_KEY, S_GOT_KEY, S_NORMAL] <;>
        interval_cases a <;> interval_cases b <;> simp
    · subst ha
      simp only [S_INITIAL, S_NORMAL] at hb1 hb2
      revert h
      cases server <;>
        simp only [key_state_stage, S_ERROR, S_INITIAL, S_SENT_KEY, S_GOT_KEY, S_NORMAL] <;>
        interval_cases b <;> simp
  · exact Or.inl hb

/-- The ordering facts about the part of the trace of `tls_process` behind the
soft-reset check, for a primary key that enters the loop in a valid state. -/
theorem tls_process_tail_stage (server : Bool) (k1 : key_state) (tr : List key_state)
    (errs : List key_state)
    (hk1 : S_INITIAL ≤ k1.state ∧ k1.state ≤ S_NORMAL)
    (hp : List.Pairwise (fun a b : key_state =>
          key_state_stage server a.state ≤ key_state_stage server b.state) tr)
    (hl : ∀ k ∈ tr, key_state_stage server k1.state ≤ key_state_stage server k.state
          ∧ S_INITIAL ≤ k.state ∧ k.state ≤ S_NORMAL)
    (herr : errs = [] ∨ ∃ k, errs = [k] ∧ k.state = S_ERROR) :
    List.Pairwise (fun a b : key_state =>
          key_state_stage server a.state ≤ key_state_stage server b.state)
        (k1 :: tr ++ errs)
    ∧ ∀ k ∈ k1 :: tr ++ errs, (S_INITIAL ≤ k.state ∧ k.state ≤ S_NORMAL) ∨ k.state = S_ERROR := by
  have hvalid : ∀ k ∈ k1 :: tr, S_INITIAL ≤ k.state ∧ k.state ≤ S_NORMAL := by
    intro k hk
    rcases List.mem_cons.1 hk with rfl | hk
    · exact hk1
    · exact (hl k hk).2
  have hp1 : List.Pairwise (fun a b : key_state =>
      key_state_stage server a.state ≤ key_state_stage server b.state) (k1 :: tr) :=
    List.Pairwise.cons (fun k hk => (hl k hk).1) hp
  rcases herr with rfl | ⟨k, rfl, hk⟩
  · rw [List.append_nil]
    exact ⟨hp1, fun k hk => Or.inl (hvalid k hk)⟩
  · refine ⟨?_, ?_⟩
    · rw [List.pairwise_append]
      refine ⟨hp1, List.pairwise_singleton _ _, ?_⟩
      intro a ha b hb
      rw [List.mem_singleton] at hb
      subst hb
      rw [hk]
      exact key_state_stage_le_error server a.state (hvalid a ha).1 (hvalid a ha).2
    · intro a ha
      rcases List.mem_append.1 ha with ha | ha
      · exact Or.inl (hvalid a ha)
      · rw [List.mem_singleton] at ha
        subst ha
        exact Or.inr hk

/-- The shape of the trace of `tls_process`: the primary key on entry, the
primary key after the soft-reset check, the keys produced by the loop, and a
key in `S_ERROR` when the call leaves through `error:`. -/
theorem tls_process_trace_shape (P : opcodes) (X : externals) (opt : tls_options)
    (o : tls_process_outer_env) (envs : List tls_process_env) (now : Int)
    (session : tls_session) (to_link : buffer) (to_link_addr : sockaddr_in) (wakeup : Int)
    (hlo : S_INITIAL ≤ session.key_primary.state) (hhi : session.key_primary.state ≤ S_NORMAL) :
    (tls_process P X opt o envs now session to_link to_link_addr wakeup).1
        = [session.key_primary]
    ∨ ∃ k1 tr errs,
        (tls_process P X opt o envs now session to_link to_link_addr wakeup).1
          = session.key_primary :: (k1 :: tr ++ errs)
        ∧ (k1 = session.key_primary
          ∨ (S_ACTIVE ≤ session.key_primary.state ∧ k1.state = S_INITIAL))
        ∧ List.Pairwise (fun a b : key_state =>
            key_state_stage opt.server a.state ≤ key_state_stage opt.server b.state) tr
        ∧ (∀ k ∈ tr, key_state_stage opt.server k1.state ≤ key_state_stage opt.server k.state
            ∧ S_INITIAL ≤ k.state ∧ k.state ≤ S_NORMAL)
        ∧ (errs = [] ∨ ∃ k, errs = [k] ∧ k.state = S_ERROR) := by
  unfold tls_process
  split
  · exact Or.inl rfl
  · right
    have hreset := tls_process_soft_reset_primary P X opt o.clock_init now session
    dsimp only
    split
    · exact ⟨_, [], [], rfl, hreset, List.Pairwise.nil, by simp, Or.inl rfl⟩
    · rename_i s1 w1 hkill
      have hprim := tls_process_kill_lame_duck_primary _ _ _ _ _ hkill
      have hk1 : s1.key_primary = session.key_primary
          ∨ (S_ACTIVE ≤ session.key_primary.state ∧ s1.key_primary.state = S_INITIAL) := by
        rw [hprim]; exact hreset
      have hv1 : S_INITIAL ≤ s1.key_primary.state ∧ s1.key_primary.state ≤ S_NORMAL := by
        rcases hk1 with h | ⟨_, h⟩
        · rw [h]; exact ⟨hlo, hhi⟩
        · rw [h]; decide
      obtain ⟨lp, ll, _⟩ := tls_process_loop_stage X opt envs
        { ks := s1.key_primary
          now := (tls_process_soft_reset P X opt o.clock_init now session).2
          to_link := to_link, to_link_addr := to_link_addr
          state_change := false, active := false } hv1.1 hv1.2
      unfold tls_process_finish
      split
      · exact ⟨_, _, [], by simp, hk1, lp, ll, Or.inl rfl⟩
      · exact ⟨_, _, [], by simp, hk1, lp, ll, Or.inl rfl⟩
      · rename_i st _
        exact ⟨_, _, [{ st.ks with state := S_ERROR }], by simp, hk1, lp, ll,
          Or.inr ⟨_, rfl, rfl⟩⟩
      · exact ⟨_, _, [], by simp, hk1, lp, ll, Or.inl rfl⟩

/-- C5 fails as stated: a client whose primary key became `S_ACTIVE` at time
1000 and which renegotiates after 3600 seconds calls `tls_process` at time
4600; the primary key state goes from `S_ACTIVE` back to `S_INITIAL` (the soft
reset) and then on to `S_PRE_START`. -/
theorem tls_process_soft_reset_restarts_primary :
    ((tls_process openvpn_opcodes sample_externals sample_client_options sample_outer_env
        [sample_reset_env, idle_env 4600] 4600 sample_active_session { data := [] }
        { sin_addr := 0, sin_port := 0 } 10).1.map (fun k => k.state)).take 3
      = [S_ACTIVE, S_INITIAL, S_PRE_START]
    ∧ ¬ List.Pairwise (fun a b : key_state =>
          b.state = S_ERROR ∨ a.state ≤ b.state
            ∨ (sample_client_options.server = true ∧ a.state = S_GOT_KEY
              ∧ b.state = S_SENT_KEY))
        (tls_process openvpn_opcodes sample_externals sample_client_options sample_outer_env
          [sample_reset_env, idle_env 4600] 4600 sample_active_session { data := [] }
          { sin_addr := 0, sin_port := 0 } 10).1 := by
  decide

/-- C5 (amended): in a call of `tls_process` whose primary key is in a state
from `S_INITIAL` to `S_NORMAL`, the soft-reset check at entry either leaves the
primary key as it is or, from `S_ACTIVE` on, replaces it by a fresh key in
`S_INITIAL`; from there on the primary key state only moves forward in the
order `INITIAL, PRE_START, START, {SENT_KEY, GOT_KEY}, ACTIVE, NORMAL` of its
side (a client passes `SENT_KEY` before `GOT_KEY`, a server after it, which is
the only numerically backward step), or to `ERROR`, and never returns to an
earlier stage. -/
theorem tls_process_key_state_forward (P : opcodes) (X : externals) (opt : tls_options)
    (o : tls_process_outer_env) (envs : List tls_process_env) (now : Int)
    (session : tls_session) (to_link : buffer) (to_link_addr : sockaddr_in) (wakeup : Int)
    (hlo : S_INITIAL ≤ session.key_primary.state) (hhi : session.key_primary.state ≤ S_NORMAL) :
    (tls_process P X opt o envs now session to_link to_link_addr wakeup).1.head?
        = some session.key_primary
    ∧ (∀ k1, (tls_process P X opt o envs now session to_link to_link_addr wakeup).1.tail.head?
          = some k1 →
        k1 = session.key_primary
          ∨ (S_ACTIVE ≤ session.key_primary.state ∧ k1.state = S_INITIAL))
    ∧ List.Pairwise (fun a b : key_state =>
          key_state_stage opt.server a.state ≤ key_state_stage opt.server b.state)
        (tls_process P X opt o envs now session to_link to_link_addr wakeup).1.tail
    ∧ List.Pairwise (fun a b : key_state =>
          b.state = S_ERROR ∨ a.state ≤ b.state
            ∨ (opt.server = true ∧ a.state = S_GOT_KEY ∧ b.state = S_SENT_KEY))
        (tls_process P X opt o envs now session to_link to_link_addr wakeup).1.tail := by
  rcases tls_process_trace_shape P X opt o envs now session to_link to_link_addr wakeup hlo hhi
    with h | ⟨k1, tr, errs, h, hk1, hp, hl, herr⟩
  · rw [h]; simp
  · rw [h]
    have hv1 : S_INITIAL ≤ k1.state ∧ k1.state ≤ S_NORMAL := by
      rcases hk1 with h1 | ⟨_, h1⟩
      · rw [h1]; exact ⟨hlo, hhi⟩
      · rw [h1]; decide
    obtain ⟨hpair, hvalid⟩ := tls_process_tail_stage opt.server k1 tr errs hv1 hp hl herr
    refine ⟨rfl, ?_, hpair, ?_⟩
    · intro k hk
      simp only [List.tail_cons, List.cons_append, List.head?_cons, Option.some.injEq] at hk
      subst hk; exact hk1
    · simp only [List.tail_cons]
      exact List.Pairwise.imp_of_mem
        (fun {a b} ha hb hab =>
          key_state_stage_le_cases opt.server a.state b.state (hvalid a ha) (hvalid b hb) hab)
        hpair

/-- An instance of the amended C5: the renegotiating client of the
counterexample. -/
theorem tls_process_key_state_forward_witness :
    (tls_process openvpn_opcodes sample_externals sample_client_options sample_outer_env
        [sample_reset_env, idle_env 4600] 4600 sample_active_session { data := [] }
        { sin_addr := 0, sin_port := 0 } 10).1.head?
        = some sample_active_session.key_primary
    ∧ (∀ k1, (tls_process openvpn_opcodes sample_externals sample_client_options
          sample_outer_env [sample_reset_env, idle_env 4600] 4600 sample_active_session
          { data := [] } { sin_addr := 0, sin_port := 0 } 10).1.tail.head? = some k1 →
        k1 = sample_active_session.key_primary
          ∨ (S_ACTIVE ≤ sample_active_session.key_primary.state ∧ k1.state = S_INITIAL))
    ∧ List.Pairwise (fun a b : key_state =>
          key_state_stage sample_client_options.server a.state
            ≤ key_state_stage sample_client_options.server b.state)
        (tls_process openvpn_opcodes sample_externals sample_client_options sample_outer_env
          [sample_reset_env, idle_env 4600] 4600 sample_active_session { data := [] }
          { sin_addr := 0, sin_port := 0 } 10).1.tail
    ∧ List.Pairwise (fun a b : key_state =>
          b.state = S_ERROR ∨ a.state ≤ b.state
            ∨ (sample_client_options.server = true ∧ a.state = S_GOT_KEY
              ∧ b.state = S_SENT_KEY))
        (tls_process openvpn_opcodes sample_externals sample_client_options sample_outer_env
          [sample_reset_env, idle_env 4600] 4600 sample_active_session { data := [] }
          { sin_addr := 0, sin_port := 0 } 10).1.tail :=
  tls_process_key_state_forward openvpn_opcodes sample_externals sample_client_options
    sample_outer_env [sample_reset_env, idle_env 4600] 4600 sample_active_session
    { data := [] } { sin_addr := 0, sin_port := 0 } 10 (by decide) (by decide)

/-! ### The transition to `S_ACTIVE` -/

/-- The blocks of the loop body that move packets and TLS bytes leave
`ks->state` alone. -/
theorem tls_process_io_blocks_keep_state (X : externals) (e : tls_process_env)
    (b : tls_process_st → tls_flow)
    (hb : b ∈ [tls_process_send X e, tls_process_send_ack X e, tls_process_ciphertext_in e,
      tls_process_plaintext_in e, tls_process_plaintext_out e, tls_process_ciphertext_out e])
    (st st1 : tls_process_st) (h : (b st).st? = some st1) :
    st1.ks.state = st.ks.state := by
  simp only [List.mem_cons, List.mem_singleton, List.not_mem_nil, or_false] at hb
  rcases hb with rfl | rfl | rfl | rfl | rfl | rfl
  · unfold tls_process_send at h
    split_ifs at h <;> simp [tls_flow.st?] at h <;> subst h <;> rfl
  · unfold tls_process_send_ack at h
    split_ifs at h <;> simp [tls_flow.st?] at h <;> subst h <;> rfl
  · unfold tls_process_ciphertext_in at h
    cases hg : e.get_buf_sequenced with
    | none => simp [hg, tls_flow.st?] at h; subst h; rfl
    | some buf =>
      simp only [hg] at h
      split_ifs at h <;> simp [tls_flow.st?] at h <;> subst h <;> rfl
  · simp only [tls_process_plaintext_in] at h
    split_ifs at h <;> simp [tls_flow.st?] at h <;> subst h <;> rfl
  · simp only [tls_process_plaintext_out] at h
    split_ifs at h <;> simp [tls_flow.st?] at h <;> subst h <;> rfl
  · simp only [tls_process_ciphertext_out] at h
    split_ifs at h <;> simp [tls_flow.st?] at h <;> subst h <;> rfl

/-- The blocks of the loop body that assign `ks->state`, other than "Wait for
ACK", never assign `S_ACTIVE`. -/
theorem tls_process_handshake_blocks_not_active (opt : tls_options) (e : tls_process_env)
    (b : tls_process_st → tls_flow)
    (hb : b ∈ [tls_process_initial opt e, tls_process_timeout, tls_process_pre_start e,
      tls_process_send_key opt e, tls_process_recv_key opt e])
    (st st1 : tls_process_st) (h : (b st).st? = some st1)
    (hact : st1.ks.state = S_ACTIVE) : st.ks.state = S_ACTIVE := by
  simp only [List.mem_cons, List.mem_singleton, List.not_mem_nil, or_false] at hb
  rcases hb with rfl | rfl | rfl | rfl | rfl
  · unfold tls_process_initial at h
    split_ifs at h <;> simp [tls_flow.st?] at h <;> subst h <;>
      simp_all [S_ACTIVE, S_PRE_START]
  · unfold tls_process_timeout at h
    split_ifs at h <;> simp [tls_flow.st?] at h <;> subst h <;>
      simp_all [S_ACTIVE, S_NORMAL]
  · unfold tls_process_pre_start at h
    split_ifs at h <;> simp [tls_flow.st?] at h <;> subst h <;>
      simp_all [S_ACTIVE, S_START]
  · unfold tls_process_send_key at h
    split_ifs at h
    · simp [tls_flow.st?] at h
    · cases hs : e.send_key <;> simp [hs, tls_flow.st?] at h <;> subst h <;>
        simp_all [S_ACTIVE, S_SENT_KEY]
    · simp [tls_flow.st?] at h; subst h; exact hact
  · unfold tls_process_recv_key at h
    split_ifs at h
    · simp [tls_flow.st?] at h
    · cases hs : e.recv_key <;> simp [hs, tls_flow.st?] at h <;> subst h <;>
        simp_all [S_ACTIVE, S_GOT_KEY]
    · simp [tls_flow.st?] at h; subst h; exact hact

/-- The block "Wait for ACK" moves a key to `S_ACTIVE` only from `S_GOT_KEY`
on a client and from `S_SENT_KEY` on a server, only under `FULL_SYNC`, and
stamps `established` with `now`. -/
theorem tls_process_wait_ack_active (opt : tls_options) (e : tls_process_env)
    (st st1 : tls_process_st) (h : (tls_process_wait_ack opt e st).st? = some st1)
    (hbefore : st.ks.state ≠ S_ACTIVE) (hact : st1.ks.state = S_ACTIVE) :
    ((st.ks.state = S_GOT_KEY ∧ opt.server = false)
        ∨ (st.ks.state = S_SENT_KEY ∧ opt.server = true))
      ∧ e.reliable_empty = true ∧ e.reliable_ack_empty = true
      ∧ st1.ks.established = st.now ∧ st1.now = st.now := by
  unfold tls_process_wait_ack at h
  split_ifs at h with hrole hsync
  · simp [tls_flow.st?] at h; subst h
    simp only [FULL_SYNC, Bool.and_eq_true] at hsync
    exact ⟨hrole, hsync.1, hsync.2, rfl, rfl⟩
  · simp [tls_flow.st?] at h; subst h; exact absurd hact hbefore
  · simp [tls_flow.st?] at h; subst h; exact absurd hact hbefore

/-- C6: whenever a block of the loop body of `tls_process` moves the primary
key to `S_ACTIVE`, the key was in `S_GOT_KEY` and the local side is a client,
or it was in `S_SENT_KEY` and the local side is a server; the send ring and
the pending-ACK list are both empty (`FULL_SYNC`); and `established` is set to
the current time `now`. -/
theorem tls_process_active_transition (X : externals) (opt : tls_options)
    (e : tls_process_env) (b : tls_process_st → tls_flow)
    (hb : b ∈ tls_process_blocks X opt e) (st st1 : tls_process_st)
    (h : (b st).st? = some st1)
    (hbefore : st.ks.state ≠ S_ACTIVE) (hact : st1.ks.state = S_ACTIVE) :
    ((st.ks.state = S_GOT_KEY ∧ opt.server = false)
        ∨ (st.ks.state = S_SENT_KEY ∧ opt.server = true))
      ∧ e.reliable_empty = true ∧ e.reliable_ack_empty = true
      ∧ FULL_SYNC e = true
      ∧ st1.ks.established = st.now ∧ st1.now = st.now := by
  have hio := tls_process_io_blocks_keep_state X e b
  have hhs := tls_process_handshake_blocks_not_active opt e b
  simp only [tls_process_blocks, List.mem_cons, List.mem_singleton, List.not_mem_nil,
    or_false] at hb hio hhs
  rcases hb with rfl | rfl | rfl | rfl | rfl | rfl | rfl | rfl | rfl | rfl | rfl | rfl
  · exact absurd (hhs (by simp) st st1 h hact) hbefore
  · exact absurd (hhs (by simp) st st1 h hact) hbefore
  · exact absurd (hhs (by simp) st st1 h hact) hbefore
  · obtain ⟨h1, h2, h3, h4, h5⟩ := tls_process_wait_ack_active opt e st st1 h hbefore hact
    exact ⟨h1, h2, h3, by simp [FULL_SYNC, h2, h3], h4, h5⟩
  · exact absurd ((hio (by simp) st st1 h).symm.trans hact) hbefore
  · exact absurd ((hio (by simp) st st1 h).symm.trans hact) hbefore
  · exact absurd ((hio (by simp) st st1 h).symm.trans hact) hbefore
  · exact absurd ((hio (by simp) st st1 h).symm.trans hact) hbefore
  · exact absurd (hhs (by simp) st st1 h hact) hbefore
  · exact absurd (hhs (by simp) st st1 h hact) hbefore
  · exact absurd ((hio (by simp) st st1 h).symm.trans hact) hbefore
  · exact absurd ((hio (by simp) st st1 h).symm.trans hact) hbefore

/-- An instance of C6: a client in `S_GOT_KEY` at time 1000 with nothing
unacknowledged. -/
theorem tls_process_active_transition_witness :
    ((sample_got_key_st.ks.state = S_GOT_KEY ∧ sample_client_options.server = false)
        ∨ (sample_got_key_st.ks.state = S_SENT_KEY ∧ sample_client_options.server = true))
      ∧ sample_sync_env.reliable_empty = true ∧ sample_sync_env.reliable_ack_empty = true
      ∧ FULL_SYNC sample_sync_env = true
      ∧ ({ sample_got_key_st with
            ks := { sample_got_key_st.ks with established := 1000, state := S_ACTIVE }
            state_change := true } : tls_process_st).ks.established = sample_got_key_st.now
      ∧ ({ sample_got_key_st with
            ks := { sample_got_key_st.ks with established := 1000, state := S_ACTIVE }
            state_change := true } : tls_process_st).now = sample_got_key_st.now :=
  tls_process_active_transition sample_externals sample_client_options sample_sync_env
    (tls_process_wait_ack sample_client_options sample_sync_env)
    (by simp [tls_process_blocks]) sample_got_key_st
    { sample_got_key_st with
      ks := { sample_got_key_st.ks with established := 1000, state := S_ACTIVE }
      state_change := true }
    (by decide) (by decide) (by decide)

/-! ### The rekey policy -/

/-- C7 fails as stated, in both directions. A key established at time 1000
with `renegotiate_seconds = 3600` is soft-reset at time 4600, when the elapsed
time equals the limit and nothing is greater than its limit; and a key that
has carried 5000 bytes is not reset while `renegotiate_bytes = 0`, although
5000 is greater than 0. -/
theorem soft_reset_differs_from_claimed_policy :
    (tls_process_soft_reset_due sample_externals sample_client_options 4600
        sample_active_session.key_primary = true
      ∧ ¬ soft_reset_policy_as_claimed sample_externals sample_client_options 4600
        sample_active_session.key_primary)
    ∧ (tls_process_soft_reset_due sample_externals sample_client_options 2000
        { sample_active_session.key_primary with n_bytes := 5000 } = false
      ∧ soft_reset_policy_as_claimed sample_externals sample_client_options 2000
        { sample_active_session.key_primary with n_bytes := 5000 }) := by
  unfold soft_reset_policy_as_claimed
  decide

/-- C7 (amended): for a primary key in state `S_ACTIVE` or later,
`tls_process` calls `key_state_soft_reset` exactly when one of the following
holds: `renegotiate_seconds` is nonzero and the time since `established` is at
least `renegotiate_seconds`; `renegotiate_bytes` is nonzero and the bytes on
the key are at least `renegotiate_bytes`; `renegotiate_packets` is nonzero and
the packets on the key are at least `renegotiate_packets`; or the send packet
id is close to wrapping. -/
theorem tls_process_soft_reset_policy (P : opcodes) (X : externals) (opt : tls_options)
    (clock now : Int) (session : tls_session)
    (hstate : S_ACTIVE ≤ session.key_primary.state) :
    (tls_process_soft_reset_due X opt now session.key_primary = true ↔
      ((opt.renegotiate_seconds ≠ 0
          ∧ now - session.key_primary.established ≥ opt.renegotiate_seconds)
        ∨ (opt.renegotiate_bytes ≠ 0 ∧ session.key_primary.n_bytes ≥ opt.renegotiate_bytes)
        ∨ (opt.renegotiate_packets ≠ 0
          ∧ session.key_primary.n_packets ≥ opt.renegotiate_packets)
        ∨ X.packet_id_close_to_wrapping session.key_primary.packet_id_send = true))
    ∧ (tls_process_soft_reset_due X opt now session.key_primary = true →
        tls_process_soft_reset P X opt clock now session
          = (key_state_soft_reset P opt now session, clock))
    ∧ (tls_process_soft_reset_due X opt now session.key_primary = false →
        tls_process_soft_reset P X opt clock now session = (session, now)) := by
  refine ⟨?_, ?_, ?_⟩
  · simp only [tls_process_soft_reset_due, Bool.and_eq_true, Bool.or_eq_true,
      decide_eq_true_eq, ge_iff_le, hstate, true_and]
    constructor
    · rintro (((h | h) | h) | h)
      · exact Or.inl ⟨h.1, by omega⟩
      · exact Or.inr (Or.inl h)
      · exact Or.inr (Or.inr (Or.inl h))
      · exact Or.inr (Or.inr (Or.inr h))
    · rintro (h | h | h | h)
      · exact Or.inl (Or.inl (Or.inl ⟨h.1, by omega⟩))
      · exact Or.inl (Or.inl (Or.inr h))
      · exact Or.inl (Or.inr h)
      · exact Or.inr h
  · intro h; simp [tls_process_soft_reset, h]
  · intro h; simp [tls_process_soft_reset, h]

/-- An instance of the amended C7: the key established at time 1000, at time
4600. -/
theorem tls_process_soft_reset_policy_witness :
    (tls_process_soft_reset_due sample_externals sample_client_options 4600
        sample_active_session.key_primary = true ↔
      ((sample_client_options.renegotiate_seconds ≠ 0
          ∧ 4600 - sample_active_session.key_primary.established
            ≥ sample_client_options.renegotiate_seconds)
        ∨ (sample_client_options.renegotiate_bytes ≠ 0
          ∧ sample_active_session.key_primary.n_bytes ≥ sample_client_options.renegotiate_bytes)
        ∨ (sample_client_options.renegotiate_packets ≠ 0
          ∧ sample_active_session.key_primary.n_packets
            ≥ sample_client_options.renegotiate_packets)
        ∨ sample_externals.packet_id_close_to_wrapping
            sample_active_session.key_primary.packet_id_send = true))
    ∧ (tls_process_soft_reset_due sample_externals sample_client_options 4600
          sample_active_session.key_primary = true →
        tls_process_soft_reset openvpn_opcodes sample_externals sample_client_options 4601 4600
            sample_active_session
          = (key_state_soft_reset openvpn_opcodes sample_client_options 4600
              sample_active_session, 4601))
    ∧ (tls_process_soft_reset_due sample_externals sample_client_options 4600
          sample_active_session.key_primary = false →
        tls_process_soft_reset openvpn_opcodes sample_externals sample_client_options 4601 4600
            sample_active_session = (sample_active_session, 4600)) :=
  tls_process_soft_reset_policy openvpn_opcodes sample_externals sample_client_options 4601
    4600 sample_active_session (by decide)

/-! ### Soft reset and the lame duck -/

/-- The key id that `key_state_init` leaves in the session for the next key is
never the one it has just given out. -/
theorem next_key_id_ne (k : Nat) :
    (if (k + 1) &&& P_KEY_ID_MASK = 0 then 1 else (k + 1) &&& P_KEY_ID_MASK) ≠ k := by
  have h : (k + 1) &&& P_KEY_ID_MASK = (k + 1) % 8 := by
    have := Nat.and_pow_two_sub_one_eq_mod (k + 1) 3
    simpa [P_KEY_ID_MASK] using this
  rw [h]
  split <;> omega

/-- `key_state_init` leaves every session keyed. -/
theorem key_state_init_keyed (P : opcodes) (session : tls_session) :
    tls_session_keyed P (key_state_init P session) := by
  have h := next_key_id_ne session.key_id
  unfold tls_session_keyed key_state_init
  dsimp only
  split <;> simp_all

/-- `key_state_soft_reset` leaves every session keyed. -/
theorem key_state_soft_reset_keyed (P : opcodes) (opt : tls_options) (now : Int)
    (session : tls_session) :
    tls_session_keyed P (key_state_soft_reset P opt now session) := by
  have h := key_state_init_keyed P
    { session with
      key_lame_duck := { session.key_primary with must_die := now + opt.transition_window }
      key_primary := { session.key_primary with must_die := now + opt.transition_window } }
  unfold tls_session_keyed at h ⊢
  unfold key_state_soft_reset
  exact h

/-- C8: after `key_state_soft_reset` the lame-duck slot holds the former
primary key state with `must_die = now + transition_window`; the primary slot
is a freshly initialised key state (all fields cleared) in `S_INITIAL` that
inherits the former primary's remote session id and remote address, carries
the initial opcode `P_CONTROL_SOFT_RESET_V1` and has a key id different from
the lame duck's. The session is one whose primary key was set up by
`key_state_init`, as every session is. -/
theorem key_state_soft_reset_slots (P : opcodes) (opt : tls_options) (now : Int)
    (session : tls_session) (hkeyed : tls_session_keyed P session) :
    (key_state_soft_reset P opt now session).key_lame_duck
        = { session.key_primary with must_die := now + opt.transition_window }
    ∧ (key_state_soft_reset P opt now session).key_primary
        = { key_state_clear with
            state := S_INITIAL
            initial_opcode := P.P_CONTROL_SOFT_RESET_V1
            key_id := session.key_id
            session_id_remote := session.key_primary.session_id_remote
            remote_addr := session.key_primary.remote_addr }
    ∧ (key_state_soft_reset P opt now session).key_primary.key_id
        ≠ (key_state_soft_reset P opt now session).key_lame_duck.key_id := by
  obtain ⟨hop, hkey⟩ := hkeyed
  refine ⟨?_, ?_, ?_⟩
  · simp only [key_state_soft_reset, key_state_init]
    split <;> rfl
  · simp only [key_state_soft_reset, key_state_init]
    split <;> simp [hop]
  · simp only [key_state_soft_reset, key_state_init]
    split <;> exact hkey

/-- An instance of C8: the soft reset of the renegotiating client at time
4600. -/
theorem key_state_soft_reset_slots_witness :
    (key_state_soft_reset openvpn_opcodes sample_client_options 4600
        sample_active_session).key_lame_duck
        = { sample_active_session.key_primary with
            must_die := 4600 + sample_client_options.transition_window }
    ∧ (key_state_soft_reset openvpn_opcodes sample_client_options 4600
        sample_active_session).key_primary
        = { key_state_clear with
            state := S_INITIAL
            initial_opcode := openvpn_opcodes.P_CONTROL_SOFT_RESET_V1
            key_id := sample_active_session.key_id
            session_id_remote := sample_active_session.key_primary.session_id_remote
            remote_addr := sample_active_session.key_primary.remote_addr }
    ∧ (key_state_soft_reset openvpn_opcodes sample_client_options 4600
        sample_active_session).key_primary.key_id
        ≠ (key_state_soft_reset openvpn_opcodes sample_client_options 4600
            sample_active_session).key_lame_duck.key_id :=
  key_state_soft_reset_slots openvpn_opcodes sample_client_options 4600 sample_active_session
    (by unfold tls_session_keyed; decide)

/-- C9 fails as stated: the client whose key was established at time 1000 and
is soft-reset by `tls_process` at time 4600 gets a lame duck with
`must_die = 8200`, which is greater than
`established + transition_window = 4600`. -/
theorem lame_duck_must_die_exceeds_established :
    tls_process_soft_reset_due sample_externals sample_client_options 4600
        sample_active_session.key_primary = true
    ∧ (key_state_soft_reset openvpn_opcodes sample_client_options 4600
        sample_active_session).key_lame_duck.must_die = 8200
    ∧ (key_state_soft_reset openvpn_opcodes sample_client_options 4600
        sample_active_session).key_lame_duck.established
          + sample_client_options.transition_window = 4600
    ∧ (key_state_soft_reset openvpn_opcodes sample_client_options 4600
        sample_active_session).key_lame_duck.must_die
      > (key_state_soft_reset openvpn_opcodes sample_client_options 4600
          sample_active_session).key_lame_duck.established
          + sample_client_options.transition_window := by
  decide

/-- C9 (amended): for every lame-duck key slot produced by a soft reset at
time `now`, `must_die = now + transition_window`, so
`must_die > now + transition_window` is never true; `must_die` lies above
`established + transition_window` by the age `now - established` that the key
had at the reset. -/
theorem key_state_soft_reset_must_die (P : opcodes) (opt : tls_options) (now : Int)
    (session : tls_session) :
    (key_state_soft_reset P opt now session).key_lame_duck.must_die
        = now + opt.transition_window
    ∧ ¬ ((key_state_soft_reset P opt now session).key_lame_duck.must_die
        > now + opt.transition_window)
    ∧ (key_state_soft_reset P opt now session).key_lame_duck.established
        = session.key_primary.established
    ∧ (key_state_soft_reset P opt now session).key_lame_duck.must_die
        = (key_state_soft_reset P opt now session).key_lame_duck.established
          + opt.transition_window + (now - session.key_primary.established) := by
  have hl : (key_state_soft_reset P opt now session).key_lame_duck
      = { session.key_primary with must_die := now + opt.transition_window } := by
    simp only [key_state_soft_reset, key_state_init]
    split <;> rfl
  rw [hl]
  refine ⟨rfl, ?_, rfl, ?_⟩
  · simp
  · simp only; omega

/-- C10: for a lame-duck key in state `S_INITIAL` or later (with the expiration
that the `ASSERT` requires), `lame_duck_must_die` returns true if and only if
`now >= must_die`; when it returns false it leaves `*wakeup` at most
`must_die - now` (and not negative), when it returns true it leaves `*wakeup`
alone; and `tls_process` frees and clears the lame-duck slot exactly when it
returns true, leaving the session untouched otherwise. -/
theorem lame_duck_freed_by_must_die (now : Int) (session : tls_session) (wakeup : Int)
    (hstate : S_INITIAL ≤ session.key_lame_duck.state)
    (hdie : session.key_lame_duck.must_die ≠ 0) :
    ∃ r w, lame_duck_must_die now session wakeup = some (r, w)
      ∧ (r = true ↔ now ≥ session.key_lame_duck.must_die)
      ∧ (r = false → w ≤ session.key_lame_duck.must_die - now ∧ 0 ≤ w
          ∧ w = compute_earliest_wakeup wakeup (session.key_lame_duck.must_die - now))
      ∧ (r = true → w = wakeup)
      ∧ (r = true → tls_process_kill_lame_duck now session wakeup
          = some ({ session with key_lame_duck := key_state_clear }, w))
      ∧ (r = false → tls_process_kill_lame_duck now session wakeup = some (session, w)) := by
  by_cases hnow : now < session.key_lame_duck.must_die
  · refine ⟨false, compute_earliest_wakeup wakeup (session.key_lame_duck.must_die - now),
      ?_, ?_, ?_, ?_, ?_, ?_⟩
    · simp [lame_duck_must_die, hstate, hdie, hnow]
    · simp; omega
    · intro _
      refine ⟨?_, ?_, rfl⟩
      · unfold compute_earliest_wakeup
        dsimp only
        split <;> split <;> omega
      · unfold compute_earliest_wakeup
        dsimp only
        split <;> split <;> omega
    · simp
    · simp
    · intro _
      simp [tls_process_kill_lame_duck, lame_duck_must_die, hstate, hdie, hnow]
  · refine ⟨true, wakeup, ?_, ?_, ?_, ?_, ?_, ?_⟩
    · simp [lame_duck_must_die, hstate, hdie, hnow]
    · simp; omega
    · simp
    · simp
    · intro _
      simp [tls_process_kill_lame_duck, lame_duck_must_die, hstate, hdie, hnow, key_state_free]
    · simp

/-- An instance of C10: the lame duck left by the soft reset at time 4600
(`must_die = 8200`), looked at 400 seconds later with `*wakeup = 10`. -/
theorem lame_duck_freed_by_must_die_witness :
    ∃ r w, lame_duck_must_die 5000
        (key_state_soft_reset openvpn_opcodes sample_client_options 4600 sample_active_session)
        10 = some (r, w)
      ∧ (r = true ↔ 5000 ≥ (key_state_soft_reset openvpn_opcodes sample_client_options 4600
          sample_active_session).key_lame_duck.must_die)
      ∧ (r = false → w ≤ (key_state_soft_reset openvpn_opcodes sample_client_options 4600
            sample_active_session).key_lame_duck.must_die - 5000 ∧ 0 ≤ w
          ∧ w = compute_earliest_wakeup 10
            ((key_state_soft_reset openvpn_opcodes sample_client_options 4600
              sample_active_session).key_lame_duck.must_die - 5000))
      ∧ (r = true → w = 10)
      ∧ (r = true → tls_process_kill_lame_duck 5000
          (key_state_soft_reset openvpn_opcodes sample_client_options 4600
            sample_active_session) 10
          = some ({ key_state_soft_reset openvpn_opcodes sample_client_options 4600
              sample_active_session with key_lame_duck := key_state_clear }, w))
      ∧ (r = false → tls_process_kill_lame_duck 5000
          (key_state_soft_reset openvpn_opcodes sample_client_options 4600
            sample_active_session) 10
          = some (key_state_soft_reset openvpn_opcodes sample_client_options 4600
              sample_active_session, w)) :=
  lame_duck_freed_by_must_die 5000
    (key_state_soft_reset openvpn_opcodes sample_client_options 4600 sample_active_session)
    10 (by decide) (by decide)

/-! ### Sessions that end in `S_ERROR` -/

/-- What a successful `random_bytes_to_buf` has done. -/
theorem random_bytes_to_buf_some (capacity : Nat) (rand : List Nat) (buf : buffer)
    (outlen : Nat) (out : List Nat) (buf1 : buffer) (rest : List Nat)
    (h : random_bytes_to_buf capacity rand buf outlen = some (out, buf1, rest)) :
    out.length = outlen ∧ buf1.data = buf.data ++ out ∧ rand = out ++ rest
      ∧ BLEN buf1 ≤ capacity := by
  unfold random_bytes_to_buf at h
  split_ifs at h with hlen
  unfold buf_write at h
  split_ifs at h with hcap
  simp only [Option.some.injEq, Prod.mk.injEq] at h
  obtain ⟨h1, h2, h3⟩ := h
  subst h1 h2 h3
  refine ⟨?_, rfl, ?_, ?_⟩
  · simp; omega
  · simp
  · simpa [BLEN] using hcap

/-- `random_bytes_to_buf` succeeds when the stream and the buffer are large
enough. -/
theorem random_bytes_to_buf_ok (capacity : Nat) (rand : List Nat) (buf : buffer)
    (outlen : Nat) (hrand : outlen ≤ rand.length) (hcap : BLEN buf + outlen ≤ capacity) :
    random_bytes_to_buf capacity rand buf outlen
      = some (rand.take outlen, { data := buf.data ++ rand.take outlen }, rand.drop outlen) := by
  unfold random_bytes_to_buf buf_write
  have h1 : ¬ rand.length < outlen := by omega
  have h2 : BLEN buf + (rand.take outlen).length ≤ capacity := by
    simp; omega
  rw [if_neg h1, if_pos h2]

/-- `buf_read` takes a block of the announced size off the front. -/
theorem buf_read_append (out tail : List Nat) :
    buf_read { data := out ++ tail } out.length = some (out, { data := tail }) := by
  unfold buf_read
  have h : out.length ≤ BLEN { data := out ++ tail } := by simp [BLEN]
  rw [if_pos h]
  simp

/-- What a successful `key_source2_randomize_write` has done: the half of the
key source of the writing side holds fields of the declared sizes (for a
server a cleared pre-master secret), the other half is untouched, and the
bytes of the fields have been appended to the buffer in the order
pre-master secret (client only), `random1`, `random2`. -/
theorem key_source2_randomize_write_some (Z : key_source_sizes) (capacity : Nat)
    (rand : List Nat) (k2 : key_source2) (buf : buffer) (server : Bool)
    (k2w : key_source2) (bufw : buffer) (rest : List Nat)
    (h : key_source2_randomize_write Z capacity rand k2 buf server = some (k2w, bufw, rest)) :
    bufw.data = buf.data ++ key_source_bytes server (k2w.side server)
    ∧ rand = key_source_bytes server (k2w.side server) ++ rest
    ∧ (k2w.side server).pre_master.length = Z.pre_master
    ∧ (server = true → (k2w.side server).pre_master = List.replicate Z.pre_master 0)
    ∧ (k2w.side server).random1.length = Z.random1
    ∧ (k2w.side server).random2.length = Z.random2
    ∧ k2w.side (!server) = k2.side (!server)
    ∧ BLEN bufw ≤ capacity := by
  unfold key_source2_randomize_write at h
  cases server with
  | false =>
    simp only [if_true, Bool.false_eq_true, if_false] at h
    cases h0 : random_bytes_to_buf capacity rand buf Z.pre_master with
    | none => simp [h0] at h
    | some r0 =>
      obtain ⟨pm, b0, rd0⟩ := r0
      simp only [h0, Option.map_some'] at h
      cases h1 : random_bytes_to_buf capacity rd0 b0 Z.random1 with
      | none => simp [h1] at h
      | some r1 =>
        obtain ⟨x1, b1, rd1⟩ := r1
        simp only [h1] at h
        cases h2 : random_bytes_to_buf capacity rd1 b1 Z.random2 with
        | none => simp [h2] at h
        | some r2 =>
          obtain ⟨x2, b2, rd2⟩ := r2
          simp only [h2, Option.some.injEq, Prod.mk.injEq] at h
          obtain ⟨hk, hb, hr⟩ := h
          subst hk hb hr
          obtain ⟨l0, d0, s0, _⟩ := random_bytes_to_buf_some _ _ _ _ _ _ _ h0
          obtain ⟨l1, d1, s1, _⟩ := random_bytes_to_buf_some _ _ _ _ _ _ _ h1
          obtain ⟨l2, d2, s2, c2⟩ := random_bytes_to_buf_some _ _ _ _ _ _ _ h2
          refine ⟨?_, ?_, ?_, ?_, ?_, ?_, ?_, c2⟩
          · simp [key_source2.side, key_source_bytes, d2, d1, d0]
          · simp [key_source2.side, key_source_bytes, s0, s1, s2]
          · simpa [key_source2.side] using l0
          · intro hs; simp at hs
          · simpa [key_source2.side] using l1
          · simpa [key_source2.side] using l2
          · simp [key_source2.side]
  | true =>
    simp only [Bool.true_eq_false, if_false, if_true] at h
    cases h1 : random_bytes_to_buf capacity rand buf Z.random1 with
    | none => simp [h1] at h
    | some r1 =>
      obtain ⟨x1, b1, rd1⟩ := r1
      simp only [h1] at h
      cases h2 : random_bytes_to_buf capacity rd1 b1 Z.random2 with
      | none => simp [h2] at h
      | some r2 =>
        obtain ⟨x2, b2, rd2⟩ := r2
        simp only [h2, Option.some.injEq, Prod.mk.injEq] at h
        obtain ⟨hk, hb, hr⟩ := h
        subst hk hb hr
        obtain ⟨l1, d1, s1, _⟩ := random_bytes_to_buf_some _ _ _ _ _ _ _ h1
        obtain ⟨l2, d2, s2, c2⟩ := random_bytes_to_buf_some _ _ _ _ _ _ _ h2
        refine ⟨?_, ?_, ?_, ?_, ?_, ?_, ?_, c2⟩
        · simp [key_source2.side, key_source_bytes, d2, d1]
        · simp [key_source2.side, key_source_bytes, s1, s2]
        · simp [key_source2.side, key_source_clear]
        · intro _; simp [key_source2.side, key_source_clear]
        · simpa [key_source2.side] using l1
        · simpa [key_source2.side] using l2
        · simp [key_source2.side]

/-- `buf_write` succeeds when the bytes fit. -/
theorem buf_write_ok (capacity : Nat) (buf : buffer) (src : List Nat)
    (h : BLEN buf + src.length ≤ capacity) :
    buf_write capacity buf src = some { data := buf.data ++ src } := by
  unfold buf_write
  rw [if_pos h]

set_option maxRecDepth 8192 in
/-- C12 fails as stated: a client that draws the 112 random bytes
`0, 1, ..., 111` stores the first 48 of them as pre-master secret and writes
them directly behind the flags byte, before `random1` and `random2`; the
payload differs from the layout that puts the 64 random bytes first. -/
theorem send_key_payload_differs_from_specified :
    ∃ buf k2 rest,
      tls_process_send_key_method_2 openvpn_key_source_sizes 1024 15 16 sample_key_options
          (List.range 112) sample_key_source2 = some (buf, k2, rest)
      ∧ k2.client.pre_master = List.range 48
      ∧ (buf.data.drop 5).take 48 = k2.client.pre_master
      ∧ (buf.data.drop 53).take 64 = k2.client.random1 ++ k2.client.random2
      ∧ buf.data ≠ key_method_2_payload_as_specified 2 false k2.client
          sample_key_options.local_options := by
  refine ⟨_, _, _, rfl, ?_, ?_, ?_, ?_⟩ <;> decide

/-- C12 (amended): the key-method-2 payload written by `tls_process` has the
byte layout uint32 zero, uint8 method_flags, pre_master (client only), then
`random1` and `random2` (the random material), uint16 options_len,
options_string with its final NUL (which options_len counts), in that order;
a server writes the same layout without pre_master. The fields have the sizes
declared in `struct key_source`. -/
theorem send_key_payload_layout (Z : key_source_sizes) (capacity mask cfg : Nat)
    (opt : tls_options) (rand : List Nat) (key_src : key_source2)
    (hmethod : opt.key_method = 2)
    (hrand : (if opt.server then 0 else Z.pre_master) + Z.random1 + Z.random2 ≤ rand.length)
    (hoptlen : opt.local_options.length + 1 < 65536)
    (hcap : 4 + 1 + ((if opt.server then 0 else Z.pre_master) + Z.random1 + Z.random2)
        + 2 + (opt.local_options.length + 1) ≤ capacity) :
    ∃ buf k2 rest,
      tls_process_send_key_method_2 Z capacity mask cfg opt rand key_src = some (buf, k2, rest)
      ∧ buf.data = u32_bytes 0
          ++ [((2 &&& mask) ||| (if opt.pass_config_info then cfg else 0)) % 256]
          ++ (if opt.server then [] else (k2.side opt.server).pre_master)
          ++ (k2.side opt.server).random1 ++ (k2.side opt.server).random2
          ++ u16_bytes (opt.local_options.length + 1)
          ++ (opt.local_options ++ [0])
      ∧ (k2.side opt.server).pre_master.length = Z.pre_master
      ∧ (k2.side opt.server).random1.length = Z.random1
      ∧ (k2.side opt.server).random2.length = Z.random2 := by
  have hw : ∃ r, key_source2_randomize_write Z capacity rand key_src
      { data := u32_bytes 0
          ++ [((2 &&& mask) ||| (if opt.pass_config_info then cfg else 0)) % 256] }
      opt.server = some r := by
    unfold key_source2_randomize_write
    cases hs : opt.server with
    | false =>
      simp only [hs, Bool.false_eq_true, if_false] at hrand hcap
      simp only [if_true]
      rw [random_bytes_to_buf_ok _ _ _ _ (by omega) (by simp [BLEN, u32_bytes]; omega)]
      simp only [Option.map_some']
      rw [random_bytes_to_buf_ok _ _ _ _ (by simp; omega)
        (by simp [BLEN, u32_bytes]; omega)]
      simp only
      rw [random_bytes_to_buf_ok _ _ _ _ (by simp; omega)
        (by simp [BLEN, u32_bytes]; omega)]
      exact ⟨_, rfl⟩
    | true =>
      simp only [hs, if_true] at hrand hcap
      simp only [Bool.true_eq_false, if_false]
      rw [random_bytes_to_buf_ok _ _ _ _ (by omega) (by simp [BLEN, u32_bytes]; omega)]
      simp only
      rw [random_bytes_to_buf_ok _ _ _ _ (by simp; omega)
        (by simp [BLEN, u32_bytes]; omega)]
      exact ⟨_, rfl⟩
  obtain ⟨⟨k2, bufw, rest⟩, hw⟩ := hw
  obtain ⟨hdata, _, hpm, _, h1, h2, _, _⟩ :=
    key_source2_randomize_write_some Z capacity rand key_src _ opt.server k2 bufw rest hw
  have hlenw : bufw.data.length = 5 + ((if opt.server then 0 else Z.pre_master)
      + Z.random1 + Z.random2) := by
    rw [hdata]
    simp only [key_source_bytes, List.length_append, h1, h2]
    cases hs : opt.server
    · rw [hs] at hpm
      simp [u32_bytes, hpm]
    · simp [u32_bytes]
  refine ⟨{ data := bufw.data ++ u16_bytes (opt.local_options.length + 1)
      ++ (opt.local_options ++ [0]) }, k2, rest, ?_, ?_, hpm, h1, h2⟩
  · have hm : ¬ opt.key_method ≠ 2 := not_not.mpr hmethod
    have hnot : ¬ ¬ opt.local_options.length + 1 < 65536 := not_not.mpr hoptlen
    have htn : opt.key_method.toNat = 2 := by rw [hmethod]; rfl
    have e1 := buf_write_ok capacity { data := [] } (u32_bytes 0)
      (by simp only [BLEN, u32_bytes, List.length_nil, List.length_cons]; omega)
    have e2 := buf_write_ok capacity { data := [] ++ u32_bytes 0 }
      [((opt.key_method.toNat &&& mask)
          ||| (if opt.pass_config_info then cfg else 0)) % 256]
      (by simp only [BLEN, u32_bytes, List.nil_append, List.length_nil, List.length_cons]
          omega)
    have e3 := buf_write_ok capacity bufw (u16_bytes (opt.local_options.length + 1))
      (by simp only [BLEN, hlenw, u16_bytes, List.length_nil, List.length_cons]; omega)
    have e4 := buf_write_ok capacity
      { data := bufw.data ++ u16_bytes (opt.local_options.length + 1) }
      (opt.local_options ++ [0])
      (by simp only [BLEN, List.length_append, hlenw, u16_bytes, List.length_nil,
            List.length_cons]
          omega)
    rw [htn] at e2
    rw [List.nil_append] at e2
    unfold tls_process_send_key_method_2
    dsimp only
    rw [if_neg hm, e1]
    dsimp only
    rw [htn, List.nil_append, e2]
    dsimp only
    rw [hw]
    dsimp only
    rw [if_neg hnot, e3]
    dsimp only
    rw [e4]
  · simp only [hdata, key_source_bytes, List.append_assoc]

/-- An instance of the amended C12: the client of the counterexample, with 112
random bytes and a plaintext buffer of 1024 bytes. -/
theorem send_key_payload_layout_witness :
    ∃ buf k2 rest,
      tls_process_send_key_method_2 openvpn_key_source_sizes 1024 15 16 sample_key_options
          (List.range 112) sample_key_source2 = some (buf, k2, rest)
      ∧ buf.data = u32_bytes 0
          ++ [((2 &&& 15) ||| (if sample_key_options.pass_config_info then 16 else 0)) % 256]
          ++ (if sample_key_options.server then []
              else (k2.side sample_key_options.server).pre_master)
          ++ (k2.side sample_key_options.server).random1
          ++ (k2.side sample_key_options.server).random2
          ++ u16_bytes (sample_key_options.local_options.length + 1)
          ++ (sample_key_options.local_options ++ [0])
      ∧ (k2.side sample_key_options.server).pre_master.length
          = openvpn_key_source_sizes.pre_master
      ∧ (k2.side sample_key_options.server).random1.length = openvpn_key_source_sizes.random1
      ∧ (k2.side sample_key_options.server).random2.length
          = openvpn_key_source_sizes.random2 :=
  send_key_payload_layout openvpn_key_source_sizes 1024 15 16 sample_key_options
    (List.range 112) sample_key_source2 (by decide) (by decide) (by decide) (by decide)

/-- `key_source2_read` on the bytes of a key source of the declared sizes,
followed by anything, returns 1, consumes exactly those bytes and stores the
key source in the half of the writing side. -/
theorem key_source2_read_bytes (Z : key_source_sizes) (k2r : key_source2) (writer : Bool)
    (k : key_source) (tail : List Nat)
    (hpm : k.pre_master.length = Z.pre_master)
    (hclear : writer = true → k.pre_master = List.replicate Z.pre_master 0)
    (h1 : k.random1.length = Z.random1) (h2 : k.random2.length = Z.random2) :
    key_source2_read Z k2r { data := key_source_bytes writer k ++ tail } (!writer)
      = (1, (if writer then { k2r with server := k } else { k2r with client := k }),
          { data := tail }) := by
  obtain ⟨pm, r1, r2⟩ := k
  simp only at hpm hclear h1 h2
  unfold key_source2_read
  cases writer with
  | true =>
    have hpm0 := hclear rfl
    subst hpm0
    have e1 := buf_read_append r1 (r2 ++ tail)
    have e2 := buf_read_append r2 tail
    rw [h1] at e1
    rw [h2] at e2
    simp [key_source_bytes, key_source_clear, e1, e2, List.append_assoc]
  | false =>
    have e0 := buf_read_append pm (r1 ++ (r2 ++ tail))
    have e1 := buf_read_append r1 (r2 ++ tail)
    have e2 := buf_read_append r2 tail
    rw [hpm] at e0
    rw [h1] at e1
    rw [h2] at e2
    simp [key_source_bytes, key_source_clear, e0, e1, e2, List.append_assoc]

/-- C13: whatever bytes the random generator delivers, the bytes that a
successful `key_source2_randomize_write (k2, buf, server = s)` appends to the
buffer are parsed by the peer's `key_source2_read (k2r, buf, server = not s)`
with result 1; the read consumes exactly those bytes (what follows them is
left in the buffer) and stores in the half of `k2r` that belongs to the
writing side the writer's pre-master secret (client only; cleared for a
server), `random1` and `random2`. -/
theorem key_source2_write_then_read (Z : key_source_sizes) (capacity : Nat)
    (rand : List Nat) (k2 : key_source2) (buf : buffer) (s : Bool)
    (k2w : key_source2) (bufw : buffer) (rest : List Nat)
    (hwrite : key_source2_randomize_write Z capacity rand k2 buf s = some (k2w, bufw, rest)) :
    ∃ written, bufw.data = buf.data ++ written
      ∧ written.length = (if s then 0 else Z.pre_master) + Z.random1 + Z.random2
      ∧ ∀ (k2r : key_source2) (tail : List Nat),
          key_source2_read Z k2r { data := written ++ tail } (!s)
            = (1, (if s then { k2r with server := k2w.server }
                   else { k2r with client := k2w.client }), { data := tail }) := by
  obtain ⟨hdata, _, hpm, hclear, h1, h2, _, _⟩ :=
    key_source2_randomize_write_some Z capacity rand k2 buf s k2w bufw rest hwrite
  refine ⟨key_source_bytes s (k2w.side s), hdata, ?_, ?_⟩
  · cases s <;> simp [key_source_bytes, hpm, h1, h2, Nat.add_assoc]
  · intro k2r tail
    have h := key_source2_read_bytes Z k2r s (k2w.side s) tail hpm hclear h1 h2
    rw [h]
    cases s <;> simp [key_source2.side]

/-- An instance of C13: a client writes 112 random bytes behind a five-byte
header. -/
theorem key_source2_write_then_read_witness :
    ∃ written,
      (⟨[0, 0, 0, 0, 2] ++ List.range 112⟩ : buffer).data = [0, 0, 0, 0, 2] ++ written
      ∧ written.length = (if false then 0 else openvpn_key_source_sizes.pre_master)
          + openvpn_key_source_sizes.random1 + openvpn_key_source_sizes.random2
      ∧ ∀ (k2r : key_source2) (tail : List Nat),
          key_source2_read openvpn_key_source_sizes k2r { data := written ++ tail } (!false)
            = (1, (if false then { k2r with server := sample_key_source2.server }
                   else { k2r with client :=
                      { pre_master := List.range 48
                        random1 := (List.range 80).drop 48
                        random2 := (List.range 112).drop 80 } }), { data := tail }) :=
  key_source2_write_then_read openvpn_key_source_sizes 1024 (List.range 112)
    sample_key_source2 { data := [0, 0, 0, 0, 2] } false
    { sample_key_source2 with client :=
        { pre_master := List.range 48
          random1 := (List.range 80).drop 48
          random2 := (List.range 112).drop 80 } }
    { data := [0, 0, 0, 0, 2] ++ List.range 112 } [] (by decide)

/-! ### Key expansion -/

theorem common_name_scan_four (p : List Char) : common_name_scan 4 p = 4 := by
  induction p with
  | nil => rfl
  | cons c p ih =>
    simp only [common_name_scan, List.foldl_cons] at ih ⊢
    rw [show common_name_scan_step 4 c = 4 from rfl]
    exact ih

/-- Once the scan is in state 4, the characters read so far contain `/CN=`;
in the states 1, 2 and 3 they end with `/`, `/C` and `/CN`. -/
theorem common_name_scan_found (p acc : List Char) (s : Nat)
    (hinv : (s = 0) ∨ (s = 1 ∧ ['/'] <:+ acc) ∨ (s = 2 ∧ ['/', 'C'] <:+ acc)
      ∨ (s = 3 ∧ ['/', 'C', 'N'] <:+ acc) ∨ (s = 4 ∧ ['/', 'C', 'N', '='] <:+: acc))
    (h : common_name_scan s p = 4) : ['/', 'C', 'N', '='] <:+: acc ++ p := by
  induction p generalizing acc s with
  | nil =>
    simp only [common_name_scan, List.foldl_nil] at h
    subst h
    rcases hinv with h | ⟨h, _⟩ | ⟨h, _⟩ | ⟨h, _⟩ | ⟨_, h⟩
    · omega
    · omega
    · omega
    · omega
    · simpa using h
  | cons c p ih =>
    simp only [common_name_scan, List.foldl_cons] at h
    have hstep := ih (acc ++ [c]) (common_name_scan_step s c) ?_ h
    · simpa using hstep
    · rcases hinv with rfl | ⟨rfl, hs⟩ | ⟨rfl, hs⟩ | ⟨rfl, hs⟩ | ⟨rfl, hs⟩
      · by_cases hc : c = '/'
        · subst hc
          exact Or.inr (Or.inl ⟨rfl, ⟨acc, rfl⟩⟩)
        · left; simp [common_name_scan_step, hc]
      · by_cases hc : c = '/'
        · subst hc
          exact Or.inr (Or.inl ⟨rfl, ⟨acc, rfl⟩⟩)
        · by_cases hC : c = 'C'
          · subst hC
            right; right; left
            refine ⟨by simp [common_name_scan_step], ?_⟩
            obtain ⟨t, ht⟩ := hs
            exact ⟨t, by rw [← ht]; simp⟩
          · left; simp [common_name_scan_step, hc, hC]
      · by_cases hc : c = '/'
        · subst hc
          exact Or.inr (Or.inl ⟨rfl, ⟨acc, rfl⟩⟩)
        · by_cases hN : c = 'N'
          · subst hN
            right; right; right; left
            refine ⟨by simp [common_name_scan_step], ?_⟩
            obtain ⟨t, ht⟩ := hs
            exact ⟨t, by rw [← ht]; simp⟩
          · left; simp [common_name_scan_step, hc, hN]
      · by_cases hc : c = '/'
        · subst hc
          exact Or.inr (Or.inl ⟨rfl, ⟨acc, rfl⟩⟩)
        · by_cases hE : c = '='
          · subst hE
            right; right; right; right
            refine ⟨by simp [common_name_scan_step], ?_⟩
            obtain ⟨t, ht⟩ := hs
            exact ⟨t, [], by rw [← ht]; simp⟩
          · left; simp [common_name_scan_step, hc, hE]
      · right; right; right; right
        refine ⟨rfl, ?_⟩
        obtain ⟨a, b, hab⟩ := hs
        exact ⟨a, b ++ [c], by rw [← hab]; simp⟩

/-- The scan stays in the states 0 to 4. -/
theorem common_name_scan_step_le (s : Nat) (c : Char) (h : s ≤ 4) :
    common_name_scan_step s c ≤ 4 := by
  unfold common_name_scan_step
  split_ifs <;> omega

theorem common_name_scan_le (p : List Char) (s : Nat) (h : s ≤ 4) :
    common_name_scan s p ≤ 4 := by
  induction p generalizing s with
  | nil => simpa [common_name_scan] using h
  | cons c p ih =>
    simp only [common_name_scan, List.foldl_cons]
    exact ih _ (common_name_scan_step_le s c h)

/-- While the scan has not found `/CN=`, the loop of `extract_common_name`
changes nothing but `state`, which follows the scan. -/
theorem extract_common_name_loop_scan (p rest : List Char) (st : extract_common_name_st)
    (hnul : ∀ c ∈ p, c ≠ NUL) (hstate : st.state ≤ 4)
    (hscan : common_name_scan st.state p ≠ 4) :
    extract_common_name_loop st (p ++ rest)
      = extract_common_name_loop { st with state := common_name_scan st.state p } rest := by
  induction p generalizing st with
  | nil => rfl
  | cons c p ih =>
    have hc : c ≠ NUL := hnul c (List.mem_cons_self _ _)
    have hne4 : st.state ≠ 4 := by
      intro h4
      apply hscan
      rw [h4]
      exact common_name_scan_four _
    simp only [common_name_scan, List.foldl_cons] at hscan
    have hbody : extract_common_name_body st c
        = ({ st with state := common_name_scan_step st.state c }, c, false) := by
      unfold extract_common_name_body common_name_scan_step
      rw [if_neg hne4, if_neg hne4]
      split_ifs <;> rfl
    have hnext := ih { st with state := common_name_scan_step st.state c }
      (fun d hd => hnul d (List.mem_cons_of_mem _ hd))
      (common_name_scan_step_le _ _ hstate) hscan
    rw [List.cons_append, extract_common_name_loop]
    simp only [hbody, hc, Bool.false_eq_true, or_self, if_false]
    rw [hnext]
    simp [common_name_scan]

/-- The C string in an array that holds NUL-free characters and then a NUL. -/
theorem c_str_append_nul (w x : List Char) (hw : ∀ c ∈ w, c ≠ NUL) :
    c_str (w ++ NUL :: x) = w := by
  unfold c_str
  rw [List.takeWhile_append_of_pos (fun a ha => by simpa using hw a ha)]
  simp

/-- A store at the first index behind a prefix. -/
theorem set_behind_front (w : List Char) (a c : Char) (tl : List Char) :
    (w ++ a :: tl).set w.length c = w ++ c :: tl := by
  induction w with
  | nil => rfl
  | cons b w ih => simp [List.set, ih]

/-- The copying phase of `extract_common_name`: in state 4, with the
characters `w` already stored, room for `size` more and a NUL behind that
room, the loop stores the common name up to `size` characters and ends the
string. -/
theorem extract_common_name_loop_copy (cn rest : List Char)
    (hcn : ∀ c ∈ cn, c ≠ '/' ∧ c ≠ NUL)
    (hrest : rest = [] ∨ ∃ r, rest = '/' :: r) :
    ∀ (w mid x : List Char) (st : extract_common_name_st),
      st.state = 4 → st.out = w ++ mid ++ NUL :: x → st.pos = w.length →
      mid.length = st.size → (∀ c ∈ w, c ≠ NUL) →
      c_str (extract_common_name_loop st (cn ++ rest)).out = w ++ cn.take st.size
      ∧ (extract_common_name_loop st (cn ++ rest)).out.length = st.out.length := by
  induction cn with
  | nil =>
    intro w mid x st hstate hout hpos hmid hw
    have hend : ∀ c : Char, (c = '/' ∨ c = NUL) →
        c_str (extract_common_name_body st c).1.out = w
        ∧ (extract_common_name_body st c).1.out.length = st.out.length
        ∧ ((extract_common_name_body st c).2.2 = true
            ∨ (extract_common_name_body st c).2.1 = NUL) := by
      intro c hc
      have hc0 : (if c = '/' then NUL else c) = NUL := by
        rcases hc with rfl | rfl
        · rfl
        · simp
      unfold extract_common_name_body
      rw [if_pos hstate]
      simp only [hc0]
      cases mid with
      | nil =>
        have hs0 : ¬ st.size > 0 := by simp at hmid; omega
        rw [if_neg hs0]
        refine ⟨?_, rfl, Or.inl rfl⟩
        rw [hout]
        simpa using c_str_append_nul w x hw
      | cons a mid =>
        have hs1 : st.size > 0 := by simp at hmid; omega
        rw [if_pos hs1]
        refine ⟨?_, ?_, Or.inr rfl⟩
        · simp only [hout, hpos, List.append_assoc, List.cons_append]
          rw [set_behind_front]
          exact c_str_append_nul w _ hw
        · simp
    rcases hrest with rfl | ⟨r, rfl⟩
    · obtain ⟨h1, h2, _⟩ := hend NUL (Or.inr rfl)
      simpa [extract_common_name_loop] using ⟨h1, h2⟩
    · obtain ⟨h1, h2, h3⟩ := hend '/' (Or.inl rfl)
      simp only [List.nil_append, extract_common_name_loop, if_pos h3, List.take_nil,
        List.append_nil]
      exact ⟨h1, h2⟩
  | cons c cn ih =>
    intro w mid x st hstate hout hpos hmid hw
    obtain ⟨hc1, hc2⟩ := hcn c (List.mem_cons_self _ _)
    have hcn1 : ∀ d ∈ cn, d ≠ '/' ∧ d ≠ NUL := fun d hd => hcn d (List.mem_cons_of_mem _ hd)
    cases mid with
    | nil =>
      have hs0 : st.size = 0 := by simp at hmid; omega
      have hbody : extract_common_name_body st c = (st, c, true) := by
        unfold extract_common_name_body
        rw [if_pos hstate]
        simp [hc1, hs0]
      rw [List.cons_append, extract_common_name_loop]
      simp only [hbody, true_or, if_true, hs0, List.take_zero, List.append_nil]
      refine ⟨?_, trivial⟩
      rw [hout]
      simpa using c_str_append_nul w x hw
    | cons a mid =>
      have hs1 : st.size > 0 := by simp at hmid; omega
      have hbody : extract_common_name_body st c
          = ({ st with out := st.out.set st.pos c, pos := st.pos + 1, size := st.size - 1 },
              c, false) := by
        unfold extract_common_name_body
        rw [if_pos hstate]
        simp [hc1, hs1]
      have hset : st.out.set st.pos c = (w ++ [c]) ++ mid ++ NUL :: x := by
        simp only [hout, hpos, List.append_assoc, List.cons_append, List.nil_append]
        rw [set_behind_front]
      have hrec := ih hcn1 (w ++ [c]) mid x
        { st with out := st.out.set st.pos c, pos := st.pos + 1, size := st.size - 1 }
        hstate hset (by simp [hpos]) (by simp at hmid ⊢; omega)
        (by
          intro d hd
          rcases List.mem_append.1 hd with hd | hd
          · exact hw d hd
          · rw [List.mem_singleton] at hd; rw [hd]; exact hc2)
      rw [List.cons_append, extract_common_name_loop]
      simp only [hbody, Bool.false_eq_true, hc2, or_self, if_false]
      refine ⟨?_, ?_⟩
      · rw [hrec.1]
        obtain ⟨n, hn⟩ : ∃ n, st.size = n + 1 := ⟨st.size - 1, by omega⟩
        simp [hn]
      · rw [hrec.2]
        simp

/-- A store inside a list, seen as prefix, stored element and suffix. -/
theorem set_eq_take_cons_drop (l : List Char) (m : Nat) (c : Char) (h : m < l.length) :
    l.set m c = l.take m ++ c :: l.drop (m + 1) := by
  induction l generalizing m with
  | nil => simp at h
  | cons a l ih =>
    cases m with
    | zero => simp
    | succ m =>
      simp only [List.length_cons] at h
      simp [List.set, ih m (by omega)]

/-- From any state but 4 the characters `/CN` lead the scan to state 3. -/
theorem common_name_scan_slash_c_n (s : Nat) (h : s ≠ 4) :
    common_name_scan s ['/', 'C', 'N'] = 3 := by
  simp [common_name_scan, common_name_scan_step, h]

/-- C15: for a subject whose first `/CN=` is followed by the characters `cn`
up to the next `/` or the end of the subject, and for every `size > 0`,
`extract_common_name` leaves in `out` the string `cn` truncated to at most
`size - 1` characters, NUL-terminated; the array keeps its length. (`pre` is
the part of the subject before the first `/CN=`.) For the subject
`/C=US/ST=CO/L=Denver/O=NTLP/CN=Test-CA/Email=jim@yonan.net` the result is
`Test-CA`, see the instance below. -/
theorem extract_common_name_first_cn (out : List Char) (size : Int)
    (pre cn rest : List Char)
    (hsize : 0 < size) (hout : size ≤ out.length)
    (hpre : ∀ c ∈ pre, c ≠ NUL)
    (hfirst : ¬ ['/', 'C', 'N', '='] <:+: pre ++ ['/', 'C', 'N'])
    (hcn : ∀ c ∈ cn, c ≠ '/' ∧ c ≠ NUL)
    (hrest : rest = [] ∨ ∃ r, rest = '/' :: r) :
    ∃ res, extract_common_name out size (pre ++ ['/', 'C', 'N', '='] ++ cn ++ rest) = some res
      ∧ c_str res = cn.take (size.toNat - 1)
      ∧ res.length = out.length := by
  have hm : size.toNat - 1 < out.length := by omega
  have hsubject : pre ++ ['/', 'C', 'N', '='] ++ cn ++ rest
      = (pre ++ ['/', 'C', 'N']) ++ ('=' :: (cn ++ rest)) := by simp
  have hnul : ∀ c ∈ pre ++ ['/', 'C', 'N'], c ≠ NUL := by
    intro c hc
    rcases List.mem_append.1 hc with hc | hc
    · exact hpre c hc
    · simp only [List.mem_cons, List.mem_singleton, List.not_mem_nil, or_false] at hc
      rcases hc with rfl | rfl | rfl <;> decide
  have hscan : common_name_scan 0 (pre ++ ['/', 'C', 'N']) ≠ 4 := by
    intro h4
    apply hfirst
    simpa using common_name_scan_found (pre ++ ['/', 'C', 'N']) [] 0 (Or.inl rfl) h4
  have hpre4 : common_name_scan 0 pre ≠ 4 := by
    intro h4
    apply hscan
    simp only [common_name_scan, List.foldl_append] at h4 ⊢
    rw [h4]
    exact common_name_scan_four _
  have hstate3 : common_name_scan 0 (pre ++ ['/', 'C', 'N']) = 3 := by
    have := common_name_scan_slash_c_n (common_name_scan 0 pre) hpre4
    simpa only [common_name_scan, List.foldl_append] using this
  have hloop := extract_common_name_loop_scan (pre ++ ['/', 'C', 'N']) ('=' :: (cn ++ rest))
    { out := out.set (size.toNat - 1) NUL, pos := 0, size := size.toNat - 1, state := 0 }
    hnul (by simp) hscan
  have heq : extract_common_name_loop
      { out := out.set (size.toNat - 1) NUL, pos := 0, size := size.toNat - 1, state := 3 }
      ('=' :: (cn ++ rest))
      = extract_common_name_loop
        { out := out.set (size.toNat - 1) NUL, pos := 0, size := size.toNat - 1, state := 4 }
        (cn ++ rest) := by
    have hb : extract_common_name_body
        { out := out.set (size.toNat - 1) NUL, pos := 0, size := size.toNat - 1, state := 3 } '='
        = ({ out := out.set (size.toNat - 1) NUL, pos := 0, size := size.toNat - 1,
             state := 4 }, '=', false) := by
      simp [extract_common_name_body]
    rw [extract_common_name_loop]
    have hne : ('=' : Char) ≠ NUL := by decide
    simp only [hb, Bool.false_eq_true, hne, or_self, if_false]
  have hcopy := extract_common_name_loop_copy cn rest hcn hrest [] (out.take (size.toNat - 1))
    (out.drop (size.toNat - 1 + 1))
    { out := out.set (size.toNat - 1) NUL, pos := 0, size := size.toNat - 1, state := 4 }
    rfl (by simpa using set_eq_take_cons_drop out (size.toNat - 1) NUL hm) rfl
    (by simp; omega) (by simp)
  dsimp only at hloop hcopy
  rw [hstate3, heq] at hloop
  refine ⟨(extract_common_name_loop
      { out := out.set (size.toNat - 1) NUL, pos := 0, size := size.toNat - 1, state := 4 }
      (cn ++ rest)).out, ?_, ?_, ?_⟩
  · unfold extract_common_name
    rw [if_pos hsize, hsubject]
    dsimp only
    rw [hloop]
  · simpa using hcopy.1
  · simpa using hcopy.2

/-- An instance of C15, the example of the source: with an array of
`TLS_CN_LEN = 64` characters `x`, the subject
`/C=US/ST=CO/L=Denver/O=NTLP/CN=Test-CA/Email=jim@yonan.net` gives the
string `Test-CA`. -/
theorem extract_common_name_first_cn_witness :
    ∃ res, extract_common_name (List.replicate 64 'x') 64
        ("/C=US/ST=CO/L=Denver/O=NTLP".toList ++ ['/', 'C', 'N', '='] ++ "Test-CA".toList
          ++ "/Email=jim@yonan.net".toList) = some res
      ∧ c_str res = "Test-CA".toList.take ((64 : Int).toNat - 1)
      ∧ res.length = (List.replicate 64 'x').length :=
  extract_common_name_first_cn (List.replicate 64 'x') 64 "/C=US/ST=CO/L=Denver/O=NTLP".toList
    "Test-CA".toList "/Email=jim@yonan.net".toList (by decide) (by decide) (by decide)
    (by decide) (by decide) (Or.inr ⟨_, rfl⟩)

/-- The example of the source evaluated: the subject as one string, and the
C string left in `out`. -/
theorem extract_common_name_example :
    (extract_common_name (List.replicate 64 'x') 64
        "/C=US/ST=CO/L=Denver/O=NTLP/CN=Test-CA/Email=jim@yonan.net".toList).map c_str
      = some "Test-CA".toList := by
  decide

/-! ## forward.c: process_io, io_wait and the random component of the timeout -/

/-- C16: for every event status, `process_io` performs at most one of the
four I/O actions, chosen by priority: the write to the endpoint, then the
write to the tun device, then the read from the endpoint (followed by
`process_incoming_link` unless a signal was raised), then the read from the
tun device (followed by `process_incoming_tun` unless a signal was raised);
with none of the four status bits set it calls nothing and leaves the context
as it was. -/
theorem process_io_dispatch {κ : Type} (B : event_status_bits) (E : process_io_env κ)
    (c : κ) :
    ((process_io B E c).2.filter io_action.is_io).length ≤ 1
    ∧ (E.event_set_status c &&& B.SOCKET_WRITE ≠ 0 →
        process_io B E c = (E.process_outgoing_link c, [io_action.process_outgoing_link]))
    ∧ (E.event_set_status c &&& B.SOCKET_WRITE = 0 →
        E.event_set_status c &&& B.TUN_WRITE ≠ 0 →
        process_io B E c = (E.process_outgoing_tun c, [io_action.process_outgoing_tun]))
    ∧ (E.event_set_status c &&& B.SOCKET_WRITE = 0 →
        E.event_set_status c &&& B.TUN_WRITE = 0 →
        E.event_set_status c &&& B.SOCKET_READ ≠ 0 →
        process_io B E c =
          if E.IS_SIG (E.read_incoming_link c) = true then
            (E.read_incoming_link c, [io_action.read_incoming_link])
          else
            (E.process_incoming_link (E.read_incoming_link c),
              [io_action.read_incoming_link, io_action.process_incoming_link]))
    ∧ (E.event_set_status c &&& B.SOCKET_WRITE = 0 →
        E.event_set_status c &&& B.TUN_WRITE = 0 →
        E.event_set_status c &&& B.SOCKET_READ = 0 →
        E.event_set_status c &&& B.TUN_READ ≠ 0 →
        process_io B E c =
          if E.IS_SIG (E.read_incoming_tun c) = true then
            (E.read_incoming_tun c, [io_action.read_incoming_tun])
          else
            (E.process_incoming_tun (E.read_incoming_tun c),
              [io_action.read_incoming_tun, io_action.process_incoming_tun]))
    ∧ (E.event_set_status c &&& B.SOCKET_WRITE = 0 →
        E.event_set_status c &&& B.TUN_WRITE = 0 →
        E.event_set_status c &&& B.SOCKET_READ = 0 →
        E.event_set_status c &&& B.TUN_READ = 0 →
        process_io B E c = (c, [])) := by
  refine ⟨?_, ?_, ?_, ?_, ?_, ?_⟩
  · unfold process_io
    dsimp only
    split_ifs <;> simp [io_action.is_io]
  · intro h
    unfold process_io
    dsimp only
    rw [if_pos h]
  · intro h1 h2
    unfold process_io
    dsimp only
    rw [if_neg (not_not.mpr h1), if_pos h2]
  · intro h1 h2 h3
    unfold process_io
    dsimp only
    rw [if_neg (not_not.mpr h1), if_neg (not_not.mpr h2), if_pos h3]
    cases E.IS_SIG (E.read_incoming_link c) <;> simp
  · intro h1 h2 h3 h4
    unfold process_io
    dsimp only
    rw [if_neg (not_not.mpr h1), if_neg (not_not.mpr h2), if_neg (not_not.mpr h3),
      if_pos h4]
    cases E.IS_SIG (E.read_incoming_tun c) <;> simp
  · intro h1 h2 h3 h4
    unfold process_io
    dsimp only
    rw [if_neg (not_not.mpr h1), if_neg (not_not.mpr h2), if_neg (not_not.mpr h3),
      if_neg (not_not.mpr h4)]

/-- With the status bits of the source, a status with every bit set leads to
the write to the endpoint alone, and a read from the endpoint that raises a
signal is not followed by `process_incoming_link`. -/
theorem process_io_examples :
    (process_io openvpn_event_status_bits sample_process_io_env
        { status := 15, signal_received := 0 }).2 = [io_action.process_outgoing_link]
    ∧ (process_io openvpn_event_status_bits sample_process_io_env
        { status := 5, signal_received := 0 }).2
        = [io_action.read_incoming_link, io_action.process_incoming_link]
    ∧ (process_io openvpn_event_status_bits sample_process_io_env
        { status := 5, signal_received := 1 }).2 = [io_action.read_incoming_link]
    ∧ (process_io openvpn_event_status_bits sample_process_io_env
        { status := 32, signal_received := 0 }).2 = [] := by
  decide

/-- No bit of `m` is set in `a ||| b` iff none is set in `a` and none in `b`. -/
theorem lor_land_eq_zero (a b m : Nat) :
    (a ||| b) &&& m = 0 ↔ (a &&& m = 0 ∧ b &&& m = 0) := by
  rw [Nat.and_distrib_right]
  constructor
  · intro hz
    have h0 : ∀ i, ((a &&& m).testBit i || (b &&& m).testBit i) = false := by
      intro i
      rw [← Nat.testBit_or, hz]
      exact Nat.zero_testBit i
    constructor
    · by_contra h
      obtain ⟨i, hi⟩ := Nat.ne_zero_implies_bit_true h
      have := h0 i
      rw [hi] at this
      simp at this
    · by_contra h
      obtain ⟨i, hi⟩ := Nat.ne_zero_implies_bit_true h
      have := h0 i
      rw [hi] at this
      simp at this
  · intro h
    rw [h.1, h.2]
    rfl

/-- C17, counterexample: with `IOW_TO_LINK`, `IOW_READ_TUN`, `IOW_READ_LINK`
and `IOW_FRAG` set and no outgoing fragment pending, `io_wait` waits for the
endpoint to become writable but not for the tun device to become readable;
and with `IOW_READ_TUN_FORCE` added and a fragment pending, it does wait for
the tun device. -/
theorem io_wait_to_link_ignores_fragment :
    (2 ||| 4 ||| 8 ||| 64) &&& openvpn_iow_bits.IOW_TO_LINK ≠ 0
    ∧ ¬ io_wait_to_link_as_claimed openvpn_iow_bits (sample_io_wait_env false)
        (io_wait_events openvpn_iow_bits (sample_io_wait_env false) (2 ||| 4 ||| 8 ||| 64))
    ∧ (io_wait_events openvpn_iow_bits (sample_io_wait_env false)
        (2 ||| 4 ||| 8 ||| 64)).tuntap = 0
    ∧ ¬ io_wait_to_link_as_claimed openvpn_iow_bits (sample_io_wait_env true)
        (io_wait_events openvpn_iow_bits (sample_io_wait_env true)
          (2 ||| 4 ||| 8 ||| 64 ||| 256)) := by
  unfold io_wait_to_link_as_claimed
  decide

/-- The second statement of `io_wait` leaves the read bit of `tuntap` and the
write bit of `socket` as they were, or sets the latter. -/
theorem io_wait_to_tun_bits (I : iow_bits) (flags : Nat) (s : io_wait_set)
    (hRW : I.EVENT_WRITE &&& I.EVENT_READ = 0) :
    ((io_wait_to_tun I flags s).tuntap &&& I.EVENT_READ = 0 ↔ s.tuntap &&& I.EVENT_READ = 0)
    ∧ (s.socket &&& I.EVENT_WRITE ≠ 0 →
        (io_wait_to_tun I flags s).socket &&& I.EVENT_WRITE ≠ 0) := by
  unfold io_wait_to_tun
  split_ifs
  · exact ⟨by simp [lor_land_eq_zero, hRW], fun h => h⟩
  · refine ⟨Iff.rfl, fun h => ?_⟩
    show ¬ ((s.socket ||| I.EVENT_READ) &&& I.EVENT_WRITE = 0)
    rw [lor_land_eq_zero]
    exact fun hn => h hn.1
  · exact ⟨Iff.rfl, fun h => h⟩

/-- The third statement of `io_wait` leaves `tuntap` as it was and keeps the
write bit of `socket`. -/
theorem io_wait_mbuf_bits (I : iow_bits) (flags : Nat) (s : io_wait_set) :
    (io_wait_mbuf I flags s).tuntap = s.tuntap
    ∧ (s.socket &&& I.EVENT_WRITE ≠ 0 →
        (io_wait_mbuf I flags s).socket &&& I.EVENT_WRITE ≠ 0) := by
  unfold io_wait_mbuf
  split_ifs
  · refine ⟨rfl, fun h => ?_⟩
    show ¬ ((s.socket ||| I.EVENT_WRITE) &&& I.EVENT_WRITE = 0)
    rw [lor_land_eq_zero]
    exact fun hn => h hn.1
  · exact ⟨rfl, fun h => h⟩

/-- The fourth statement of `io_wait` leaves `socket` as it was and sets the
read bit of `tuntap` iff `IOW_READ_TUN_FORCE` is set. -/
theorem io_wait_read_tun_force_bits (I : iow_bits) (flags : Nat) (s : io_wait_set)
    (hR : I.EVENT_READ ≠ 0) :
    (io_wait_read_tun_force I flags s).socket = s.socket
    ∧ ((io_wait_read_tun_force I flags s).tuntap &&& I.EVENT_READ ≠ 0
        ↔ (flags &&& I.IOW_READ_TUN_FORCE ≠ 0 ∨ s.tuntap &&& I.EVENT_READ ≠ 0)) := by
  have hR0 : ¬ I.EVENT_READ = 0 := hR
  unfold io_wait_read_tun_force
  split_ifs with h
  · refine ⟨rfl, ?_⟩
    show ¬ ((s.tuntap ||| I.EVENT_READ) &&& I.EVENT_READ = 0) ↔ _
    rw [lor_land_eq_zero, Nat.and_self]
    exact ⟨fun _ => Or.inl h, fun _ hn => hR0 hn.2⟩
  · exact ⟨rfl, ⟨fun h2 => Or.inr h2, fun h2 => h2.resolve_left h⟩⟩

/-- C17, amended: with `IOW_TO_LINK` set and no shaper delay, `io_wait`
waits for the endpoint to become writable, and for the tun device to become
readable iff `IOW_READ_TUN_FORCE` is set, whether or not an outgoing fragment
is pending. With `IOW_TO_LINK` not set, it waits for the tun device to become
readable iff `IOW_READ_TUN_FORCE` is set, or `IOW_READ_TUN` is set and not
both `IOW_FRAG` is set and an outgoing fragment is pending. -/
theorem io_wait_to_link_events (I : iow_bits) (E : io_wait_env) (flags : Nat)
    (hR : I.EVENT_READ ≠ 0) (hW : I.EVENT_WRITE ≠ 0)
    (hRW : I.EVENT_WRITE &&& I.EVENT_READ = 0) :
    (flags &&& I.IOW_TO_LINK ≠ 0 →
      (flags &&& I.IOW_SHAPER = 0 ∨ io_wait_delay E < 1000) →
      (io_wait_events I E flags).socket &&& I.EVENT_WRITE ≠ 0
      ∧ ((io_wait_events I E flags).tuntap &&& I.EVENT_READ ≠ 0
          ↔ flags &&& I.IOW_READ_TUN_FORCE ≠ 0))
    ∧ (flags &&& I.IOW_TO_LINK = 0 →
      ((io_wait_events I E flags).tuntap &&& I.EVENT_READ ≠ 0
        ↔ (flags &&& I.IOW_READ_TUN_FORCE ≠ 0
            ∨ (flags &&& I.IOW_READ_TUN ≠ 0
                ∧ ¬ (flags &&& I.IOW_FRAG ≠ 0 ∧ E.TO_LINK_FRAG = true))))) := by
  have hW0 : ¬ I.EVENT_WRITE = 0 := hW
  have hR0 : ¬ I.EVENT_READ = 0 := hR
  have htun : ∀ s0 : io_wait_set,
      ((io_wait_read_tun_force I flags
          (io_wait_mbuf I flags (io_wait_to_tun I flags s0))).tuntap &&& I.EVENT_READ ≠ 0
        ↔ (flags &&& I.IOW_READ_TUN_FORCE ≠ 0 ∨ s0.tuntap &&& I.EVENT_READ ≠ 0)) := by
    intro s0
    rw [(io_wait_read_tun_force_bits I flags _ hR).2, (io_wait_mbuf_bits I flags _).1,
      ne_eq, ne_eq, ne_eq, (io_wait_to_tun_bits I flags s0 hRW).1]
  constructor
  · intro hto hdelay
    have hs0 : io_wait_to_link I E flags { socket := 0, tuntap := 0, timeval := E.timeval }
        = { socket := 0 ||| I.EVENT_WRITE, tuntap := 0, timeval := E.timeval } := by
      unfold io_wait_to_link
      rw [if_pos hto]
      rcases hdelay with h | h
      · rw [if_neg (not_not.mpr h)]
      · dsimp only
        rw [if_pos h]
        split_ifs <;> rfl
    unfold io_wait_events
    rw [hs0]
    constructor
    · rw [(io_wait_read_tun_force_bits I flags _ hR).1]
      apply (io_wait_mbuf_bits I flags _).2
      apply (io_wait_to_tun_bits I flags _ hRW).2
      show ¬ ((0 ||| I.EVENT_WRITE) &&& I.EVENT_WRITE = 0)
      rw [lor_land_eq_zero, Nat.and_self]
      exact fun hn => hW0 hn.2
    · rw [htun]
      show _ ∨ ¬ (0 &&& I.EVENT_READ = 0) ↔ _
      rw [Nat.zero_and]
      simp
  · intro hto
    unfold io_wait_events
    rw [htun]
    unfold io_wait_to_link
    rw [if_neg (not_not.mpr hto)]
    cases hf : E.TO_LINK_FRAG <;> split_ifs <;>
      simp_all [lor_land_eq_zero]

/-- C17, amended, at the bits of the sample: with `IOW_TO_LINK` set the tun
device is waited for only through `IOW_READ_TUN_FORCE`. -/
theorem io_wait_to_link_events_witness :
    (io_wait_events openvpn_iow_bits (sample_io_wait_env false) (2 ||| 4 ||| 64)).socket
        &&& openvpn_iow_bits.EVENT_WRITE ≠ 0
    ∧ ((io_wait_events openvpn_iow_bits (sample_io_wait_env false) (2 ||| 4 ||| 64)).tuntap
          &&& openvpn_iow_bits.EVENT_READ ≠ 0
        ↔ (2 ||| 4 ||| 64) &&& openvpn_iow_bits.IOW_READ_TUN_FORCE ≠ 0) :=
  (io_wait_to_link_events openvpn_iow_bits (sample_io_wait_env false) (2 ||| 4 ||| 64)
    (by decide) (by decide) (by decide)).1 (by decide) (Or.inl (by decide))

/-- C18, counterexample: with `get_random ()` returning `0xFFFFF` the random
component is 1048575 microseconds, more than a second, and a timeout of 5 s
becomes 6.048575 s. -/
theorem timeout_random_component_above_one_ms :
    (check_timeout_random_component sample_tv_add 100 0xFFFFF
        sample_timeout_context).timeout_random_component
      = { tv_sec := 0, tv_usec := 1048575 }
    ∧ ¬ (check_timeout_random_component sample_tv_add 100 0xFFFFF
        sample_timeout_context).timeout_random_component.tv_usec ≤ 1000
    ∧ (check_timeout_random_component sample_tv_add 100 0xFFFFF
        sample_timeout_context).timeval = { tv_sec := 6, tv_usec := 48575 } := by
  decide

/-- C18, amended: once the random component has been drawn (in this call,
because it was due, or in an earlier one), what
`check_timeout_random_component` adds to the timeout is a number of
microseconds from 0 to `0xFFFFF` = 1048575, and it is added exactly when the
timeout is at least one second: otherwise the timeout is left as it was. -/
theorem check_timeout_random_component_jitter (tv_add : timeval → timeval → timeval)
    (now random : Int) (c : timeout_context)
    (h : now ≥ c.update_timeout_random_component
      ∨ timeout_random_component_bounded c.timeout_random_component) :
    timeout_random_component_bounded
        (check_timeout_random_component tv_add now random c).timeout_random_component
    ∧ (check_timeout_random_component tv_add now random c).timeval
        = (if c.timeval.tv_sec ≥ 1 then
            tv_add c.timeval
              (check_timeout_random_component tv_add now random c).timeout_random_component
          else c.timeval) := by
  have hb : timeout_random_component_bounded
      { tv_sec := 0, tv_usec := random % 0x100000 } := by
    refine ⟨rfl, ?_, ?_⟩
    · exact Int.emod_nonneg _ (by decide)
    · have := Int.emod_lt_of_pos random (show (0 : Int) < 0x100000 by decide)
      show random % 0x100000 ≤ 0xFFFFF
      omega
  unfold check_timeout_random_component check_timeout_random_component_dowork
  dsimp only
  by_cases hdue : now ≥ c.update_timeout_random_component
  · rw [if_pos hdue]
    dsimp only
    split_ifs <;> exact ⟨hb, rfl⟩
  · rw [if_neg hdue]
    have hc := h.resolve_left hdue
    split_ifs <;> exact ⟨hc, rfl⟩

/-- C18, amended, at a sample: the component drawn from `0xFFFFF` is within
the bound and is added to the timeout of 5 s. -/
theorem check_timeout_random_component_jitter_witness :
    timeout_random_component_bounded
        (check_timeout_random_component sample_tv_add 100 0xFFFFF
          sample_timeout_context).timeout_random_component
    ∧ (check_timeout_random_component sample_tv_add 100 0xFFFFF
          sample_timeout_context).timeval
        = (if sample_timeout_context.timeval.tv_sec ≥ 1 then
            sample_tv_add sample_timeout_context.timeval
              (check_timeout_random_component sample_tv_add 100 0xFFFFF
                sample_timeout_context).timeout_random_component
          else sample_timeout_context.timeval) :=
  check_timeout_random_component_jitter sample_tv_add 100 0xFFFFF sample_timeout_context
    (Or.inl (by decide))

/-! ## mbuf.c: mbuf_add_item -/

/-- In a ring of `cap` elements two offsets below `cap` that differ lead to
different indices. -/
theorem ring_index_ne (h i j cap : Nat) (hi : i < cap) (hj : j < cap) (hij : i ≠ j) :
    (h + i) % cap ≠ (h + j) % cap := by
  intro heq
  have h1 : (h + i) ≡ (h + j) [MOD cap] := heq
  have h2 : i ≡ j [MOD cap] := Nat.ModEq.add_left_cancel' h h1
  have h3 : i % cap = j % cap := h2
  rw [Nat.mod_eq_of_lt hi, Nat.mod_eq_of_lt hj] at h3
  exact hij h3

/-- With a live head, `mbuf_extract_item` takes the head: it returns true and
the head item, advances `head` by one place and decrements `len`. -/
theorem mbuf_extract_item_live_head (idx : Nat → Nat → Nat → Nat) (ms : mbuf_set)
    (item0 h : mbuf_item) (hlen : 0 < ms.len) (hhead : ms.array[ms.head]? = some h)
    (hlive : h.arg ≠ 0) :
    mbuf_extract_item idx ms item0
      = some (true, { ms with head := idx ms.head 1 ms.capacity, len := ms.len - 1 }, h) := by
  unfold mbuf_extract_item
  obtain ⟨n, hn⟩ : ∃ n, ms.len = n + 1 := ⟨ms.len - 1, by omega⟩
  rw [hn]
  unfold mbuf_extract_item_loop
  rw [hhead]
  dsimp only
  rw [if_pos hlive]
  rfl

/-- With room left, a slot within the array and a non-NULL buffer, the second
half of `mbuf_add_item` stores the item at `MBUF_INDEX (head, len, capacity)`
and succeeds. -/
theorem mbuf_add_item_store_ok (idx : Nat → Nat → Nat → Nat) (ms : mbuf_set)
    (refcount : Nat → Int) (item : mbuf_item) (ret : Bool)
    (hlen : ms.len < ms.capacity)
    (hk : idx ms.head ms.len ms.capacity < ms.array.length)
    (hbuf : item.buffer ≠ 0) :
    mbuf_add_item_store idx ms refcount item ret
      = some (ret,
          { ms with
            array := ms.array.set (idx ms.head ms.len ms.capacity) item
            len := ms.len + 1
            max_queued := if ms.len + 1 > ms.max_queued then ms.len + 1 else ms.max_queued },
          fun p => if p = item.buffer then refcount p + 1 else refcount p) := by
  unfold mbuf_add_item_store
  dsimp only
  rw [if_neg (not_not.mpr hlen), if_neg (not_not.mpr hk), if_neg hbuf]
  split_ifs <;> rfl

/-- C20: with `MBUF_INDEX` the index in a ring of `capacity` elements, an
array of `capacity` elements and a non-NULL buffer in the item:
on a full set (`len == capacity`) whose head item is live, `mbuf_add_item`
returns false, the head item is removed from the queue (and loses one
reference), the new item is the last of the queue, and `len` stays equal to
`capacity`; on a set with `len < capacity` it returns true, the item is
appended to the queue and `len` grows by one. -/
theorem mbuf_add_item_overflow (idx : Nat → Nat → Nat → Nat) (ms : mbuf_set)
    (refcount : Nat → Int) (item : mbuf_item)
    (hidx : ∀ h o, idx h o ms.capacity = (h + o) % ms.capacity)
    (harr : ms.array.length = ms.capacity)
    (hbuf : item.buffer ≠ 0) :
    (ms.len = ms.capacity →
      ∀ h, ms.array[ms.head]? = some h → h.arg ≠ 0 →
      ∃ ms1 rc1, mbuf_add_item idx ms refcount item = some (false, ms1, rc1)
        ∧ ms1.len = ms.capacity
        ∧ ms1.capacity = ms.capacity
        ∧ ms1.head = idx ms.head 1 ms.capacity
        ∧ mbuf_queue idx ms = some h :: (mbuf_queue idx ms).tail
        ∧ mbuf_queue idx ms1 = (mbuf_queue idx ms).tail ++ [some item]
        ∧ rc1 = (fun p => if p = item.buffer then mbuf_free_buf refcount h.buffer p + 1
            else mbuf_free_buf refcount h.buffer p))
    ∧ (ms.len < ms.capacity →
      ∃ ms1 rc1, mbuf_add_item idx ms refcount item = some (true, ms1, rc1)
        ∧ ms1.len = ms.len + 1
        ∧ ms1.capacity = ms.capacity
        ∧ ms1.head = ms.head
        ∧ mbuf_queue idx ms1 = mbuf_queue idx ms ++ [some item]
        ∧ rc1 = (fun p => if p = item.buffer then refcount p + 1 else refcount p)) := by
  constructor
  · intro hfull h hhead hlive
    have hlt : ms.head < ms.capacity := by
      rw [← harr]
      exact (List.getElem?_eq_some_iff.mp hhead).1
    have hcap : 0 < ms.capacity := by omega
    obtain ⟨n, hn⟩ : ∃ n, ms.capacity = n + 1 := ⟨ms.capacity - 1, by omega⟩
    have hl : ms.len = n + 1 := by omega
    have hext := mbuf_extract_item_live_head idx ms { buffer := 0, arg := 0 } h
      (by omega) hhead hlive
    have hk : idx (idx ms.head 1 ms.capacity) (ms.len - 1) ms.capacity = ms.head := by
      rw [hidx, hidx, Nat.mod_add_mod]
      have : ms.head + 1 + (ms.len - 1) = ms.head + ms.capacity := by omega
      rw [this, Nat.add_mod_right, Nat.mod_eq_of_lt hlt]
    have hq0 : mbuf_queue idx ms = some h :: (mbuf_queue idx ms).tail := by
      unfold mbuf_queue
      rw [hl, List.range_succ_eq_map, List.map_cons, List.tail_cons, hidx,
        Nat.add_zero, Nat.mod_eq_of_lt hlt, hhead]
    have hstore := mbuf_add_item_store_ok idx
      { ms with head := idx ms.head 1 ms.capacity, len := ms.len - 1 }
      (mbuf_free_buf refcount h.buffer) item false
      (show ms.len - 1 < ms.capacity by omega)
      (show idx (idx ms.head 1 ms.capacity) (ms.len - 1) ms.capacity < ms.array.length by
        rw [hk, harr]; exact hlt)
      hbuf
    dsimp only at hstore
    rw [hk] at hstore
    refine ⟨mbuf_set.mk (idx ms.head 1 ms.capacity) (ms.len - 1 + 1) ms.capacity
      (if ms.len - 1 + 1 > ms.max_queued then ms.len - 1 + 1 else ms.max_queued)
      (ms.array.set ms.head item), _, ?_, ?_, rfl, rfl, hq0, ?_, rfl⟩
    · unfold mbuf_add_item
      rw [if_pos hfull, hext]
      exact hstore
    · show ms.len - 1 + 1 = ms.capacity
      omega
    · unfold mbuf_queue
      dsimp only
      have hlen1 : ms.len - 1 + 1 = ms.capacity := by omega
      rw [hlen1, hl, List.range_succ_eq_map, List.map_cons, List.tail_cons, List.map_map]
      have hr : List.range ms.capacity = List.range n ++ [n] := by
        rw [hn, List.range_succ]
      rw [hr, List.map_append]
      congr 1
      · apply List.map_congr_left
        intro i hi
        rw [List.mem_range] at hi
        simp only [Function.comp]
        rw [hidx, hidx, hidx, Nat.mod_add_mod]
        have hne : ms.head ≠ (ms.head + 1 + i) % ms.capacity := by
          have := ring_index_ne ms.head 0 (1 + i) ms.capacity hcap (by omega) (by omega)
          rw [Nat.add_zero, Nat.mod_eq_of_lt hlt, ← Nat.add_assoc] at this
          exact this
        rw [List.getElem?_set_ne hne, Nat.succ_eq_add_one]
        congr 2
        omega
      · simp only [List.map_cons, List.map_nil]
        rw [hidx, hidx, Nat.mod_add_mod]
        have : ms.head + 1 + n = ms.head + ms.capacity := by omega
        rw [this, Nat.add_mod_right, Nat.mod_eq_of_lt hlt,
          List.getElem?_set_self (by rw [harr]; exact hlt)]
  · intro hlen
    have hcap : 0 < ms.capacity := by omega
    have hk : idx ms.head ms.len ms.capacity < ms.array.length := by
      rw [hidx, harr]
      exact Nat.mod_lt _ hcap
    have hstore := mbuf_add_item_store_ok idx ms refcount item true hlen hk hbuf
    refine ⟨mbuf_set.mk ms.head (ms.len + 1) ms.capacity
      (if ms.len + 1 > ms.max_queued then ms.len + 1 else ms.max_queued)
      (ms.array.set (idx ms.head ms.len ms.capacity) item), _, ?_, rfl, rfl, rfl, ?_, rfl⟩
    · unfold mbuf_add_item
      rw [if_neg (by omega)]
      exact hstore
    · unfold mbuf_queue
      dsimp only
      rw [List.range_succ, List.map_append]
      congr 1
      · apply List.map_congr_left
        intro i hi
        rw [List.mem_range] at hi
        have hne : idx ms.head ms.len ms.capacity ≠ idx ms.head i ms.capacity := by
          rw [hidx, hidx]
          exact ring_index_ne ms.head ms.len i ms.capacity hlen (by omega) (by omega)
        rw [List.getElem?_set_ne hne]
      · simp only [List.map_cons, List.map_nil]
        rw [List.getElem?_set_self hk]

set_option maxRecDepth 8192 in
/-- C20 at two samples: a full set of capacity 4 with a live head drops the
head and stores the new item last; a set holding two items gets a third. -/
theorem mbuf_add_item_overflow_witness :
    (∃ ms1 rc1, mbuf_add_item sample_MBUF_INDEX sample_full_mbuf_set (fun _ => 1)
          { buffer := 15, arg := 5 } = some (false, ms1, rc1)
        ∧ ms1.len = sample_full_mbuf_set.capacity
        ∧ mbuf_queue sample_MBUF_INDEX ms1
            = (mbuf_queue sample_MBUF_INDEX sample_full_mbuf_set).tail
                ++ [some { buffer := 15, arg := 5 }])
    ∧ (∃ ms1 rc1, mbuf_add_item sample_MBUF_INDEX sample_mbuf_set (fun _ => 1)
          { buffer := 15, arg := 5 } = some (true, ms1, rc1)
        ∧ ms1.len = sample_mbuf_set.len + 1
        ∧ mbuf_queue sample_MBUF_INDEX ms1
            = mbuf_queue sample_MBUF_INDEX sample_mbuf_set
                ++ [some { buffer := 15, arg := 5 }]) := by
  constructor
  · obtain ⟨ms1, rc1, h1, h2, _, _, _, h6, _⟩ :=
      (mbuf_add_item_overflow sample_MBUF_INDEX sample_full_mbuf_set (fun _ => 1)
        { buffer := 15, arg := 5 } (fun _ _ => rfl) (by decide) (by decide)).1
        (by decide) { buffer := 11, arg := 1 } (by decide) (by decide)
    exact ⟨ms1, rc1, h1, h2, h6⟩
  · obtain ⟨ms1, rc1, h1, h2, _, _, h5, _⟩ :=
      (mbuf_add_item_overflow sample_MBUF_INDEX sample_mbuf_set (fun _ => 1)
        { buffer := 15, arg := 5 } (fun _ _ => rfl) (by decide) (by decide)).2
        (by decide)
    exact ⟨ms1, rc1, h1, h2, h5⟩

/-- The two samples, evaluated: the queue 11, 12, 13, 14 becomes 12, 13, 14,
15 and false is returned; the queue 11, 12 becomes 11, 12, 15 and true is
returned. -/
theorem mbuf_add_item_examples :
    ((mbuf_add_item sample_MBUF_INDEX sample_full_mbuf_set (fun _ => 1)
        { buffer := 15, arg := 5 }).map
          (fun r => (r.1, (mbuf_queue sample_MBUF_INDEX r.2.1).map (Option.map mbuf_item.buffer))))
      = some (false, [some 12, some 13, some 14, some 15])
    ∧ ((mbuf_add_item sample_MBUF_INDEX sample_mbuf_set (fun _ => 1)
        { buffer := 15, arg := 5 }).map
          (fun r => (r.1, (mbuf_queue sample_MBUF_INDEX r.2.1).map (Option.map mbuf_item.buffer))))
      = some (true, [some 11, some 12, some 15]) := by
  decide

/-! ## forward.c: a data packet that fails decryption -/

/-- The frame is transitive. -/
theorem link_context_frame_trans (a b c : link_context) (h1 : link_context_frame a b)
    (h2 : link_context_frame b c) : link_context_frame a c :=
  ⟨h2.1.trans h1.1, h2.2.1.trans h1.2.1, h2.2.2.1.trans h1.2.2.1,
    h2.2.2.2.trans h1.2.2.2⟩

/-- The stages before the decryption leave the signal, `to_tun` and the kind
of link as they were. -/
theorem process_incoming_link_pre_decrypt_frame (E : link_stages) (c : link_context) :
    link_context_frame c (process_incoming_link_pre_decrypt E c) := by
  have h1 : ∀ c, link_context_frame c (process_incoming_link_recv_size c) := by
    intro c
    unfold process_incoming_link_recv_size
    split_ifs <;> exact ⟨rfl, rfl, rfl, rfl⟩
  have h2 : ∀ c, link_context_frame c (process_incoming_link_gremlin E c) := by
    intro c
    unfold process_incoming_link_gremlin
    dsimp only
    split_ifs <;> exact ⟨rfl, rfl, rfl, rfl⟩
  have h3 : ∀ c, link_context_frame c (process_incoming_link_verify E c) := by
    intro c
    unfold process_incoming_link_verify
    split_ifs <;> exact ⟨rfl, rfl, rfl, rfl⟩
  have h4 : ∀ c, link_context_frame c (process_incoming_link_tls E c) := by
    intro c
    unfold process_incoming_link_tls
    dsimp only
    split_ifs <;> exact ⟨rfl, rfl, rfl, rfl⟩
  unfold process_incoming_link_pre_decrypt
  exact link_context_frame_trans _ _ _
    (link_context_frame_trans _ _ _ (link_context_frame_trans _ _ _ (h1 c) (h2 _)) (h3 _))
    (h4 _)

/-- Given an empty buffer, the stages behind the decryption leave the signal
as it was and hand an empty buffer to `to_tun`, provided `fragment_incoming`
and `lzo_decompress` keep an empty buffer empty and an empty buffer is no OCC
message. -/
theorem process_incoming_link_post_decrypt_empty (E : link_stages) (tls : Bool)
    (c : link_context) (hbuf : c.buf.len ≤ 0)
    (hfrag : ∀ b : packet_buffer, b.len ≤ 0 → (E.fragment_incoming b).len ≤ 0)
    (hlzo : ∀ b : packet_buffer, b.len ≤ 0 → (E.lzo_decompress b).len ≤ 0)
    (hocc : ∀ b : packet_buffer, b.len ≤ 0 → E.is_occ_msg b = false) :
    (process_incoming_link_post_decrypt E tls c).signal_received = c.signal_received
    ∧ (process_incoming_link_post_decrypt E tls c).signal_text = c.signal_text
    ∧ (process_incoming_link_post_decrypt E tls c).to_tun.len ≤ 0 := by
  have h1 : ∀ c : link_context, c.buf.len ≤ 0 →
      (process_incoming_link_fragment E c).buf.len ≤ 0
      ∧ (process_incoming_link_fragment E c).signal_received = c.signal_received
      ∧ (process_incoming_link_fragment E c).signal_text = c.signal_text := by
    intro c h
    unfold process_incoming_link_fragment
    split_ifs
    · exact ⟨hfrag _ h, rfl, rfl⟩
    · exact ⟨h, rfl, rfl⟩
  have h2 : ∀ c : link_context, c.buf.len ≤ 0 →
      (process_incoming_link_lzo E c).buf.len ≤ 0
      ∧ (process_incoming_link_lzo E c).signal_received = c.signal_received
      ∧ (process_incoming_link_lzo E c).signal_text = c.signal_text := by
    intro c h
    unfold process_incoming_link_lzo
    split_ifs
    · exact ⟨hlzo _ h, rfl, rfl⟩
    · exact ⟨h, rfl, rfl⟩
  have h3 : ∀ c : link_context, c.buf.len ≤ 0 →
      (process_incoming_link_outgoing_addr tls c).buf.len ≤ 0
      ∧ (process_incoming_link_outgoing_addr tls c).signal_received = c.signal_received
      ∧ (process_incoming_link_outgoing_addr tls c).signal_text = c.signal_text := by
    intro c h
    unfold process_incoming_link_outgoing_addr
    split_ifs <;> exact ⟨h, rfl, rfl⟩
  have h4 : ∀ c : link_context, c.buf.len ≤ 0 →
      (process_incoming_link_ping_timer c).buf.len ≤ 0
      ∧ (process_incoming_link_ping_timer c).signal_received = c.signal_received
      ∧ (process_incoming_link_ping_timer c).signal_text = c.signal_text := by
    intro c h
    unfold process_incoming_link_ping_timer
    split_ifs <;> exact ⟨h, rfl, rfl⟩
  have h5 : ∀ c : link_context, c.buf.len ≤ 0 →
      (process_incoming_link_auth_count c).buf.len ≤ 0
      ∧ (process_incoming_link_auth_count c).signal_received = c.signal_received
      ∧ (process_incoming_link_auth_count c).signal_text = c.signal_text := by
    intro c h
    unfold process_incoming_link_auth_count
    split_ifs <;> exact ⟨h, rfl, rfl⟩
  have h6 : ∀ c : link_context, c.buf.len ≤ 0 →
      (process_incoming_link_ping E c).buf.len ≤ 0
      ∧ (process_incoming_link_ping E c).signal_received = c.signal_received
      ∧ (process_incoming_link_ping E c).signal_text = c.signal_text := by
    intro c h
    unfold process_incoming_link_ping
    split_ifs
    · exact ⟨le_refl _, rfl, rfl⟩
    · exact ⟨h, rfl, rfl⟩
  have h7 : ∀ c : link_context, c.buf.len ≤ 0 →
      process_incoming_link_occ E c = c := by
    intro c h
    unfold process_incoming_link_occ
    rw [hocc _ h]
    rfl
  have h8 : ∀ c : link_context, c.buf.len ≤ 0 →
      (process_incoming_link_to_tun c).to_tun.len ≤ 0
      ∧ (process_incoming_link_to_tun c).signal_received = c.signal_received
      ∧ (process_incoming_link_to_tun c).signal_text = c.signal_text := by
    intro c h
    unfold process_incoming_link_to_tun
    dsimp only
    split_ifs
    · exact ⟨le_refl _, rfl, rfl⟩
    · exact ⟨h, rfl, rfl⟩
  obtain ⟨a1, b1, c1⟩ := h1 c hbuf
  obtain ⟨a2, b2, c2⟩ := h2 _ a1
  obtain ⟨a3, b3, c3⟩ := h3 _ a2
  obtain ⟨a4, b4, c4⟩ := h4 _ a3
  obtain ⟨a5, b5, c5⟩ := h5 _ a4
  obtain ⟨a6, b6, c6⟩ := h6 _ a5
  have e7 := h7 _ a6
  obtain ⟨a8, b8, c8⟩ := h8 _ a6
  unfold process_incoming_link_post_decrypt
  rw [e7]
  refine ⟨?_, ?_, a8⟩
  · rw [b8, b6, b5, b4, b3, b2, b1]
  · rw [c8, c6, c5, c4, c3, c2, c1]

/-- C19: a data packet of non-zero length whose decryption fails
(`openvpn_decrypt` returns false). On a connection-oriented link
`process_incoming_link` sets `signal_received` to `SIGUSR1` and the text to
"decryption-error", and `to_tun` is left as it was (empty, as
`read_incoming_link` asserts). On a link that is not connection-oriented no
signal is raised and `to_tun` ends up empty, given that the failed decryption
leaves the buffer empty, that `fragment_incoming` and `lzo_decompress` keep
an empty buffer empty and that an empty buffer is no OCC message. -/
theorem process_incoming_link_decrypt_failure (E : link_stages) (SIGUSR1 : Int)
    (c : link_context)
    (hlen : (process_incoming_link_gremlin E (process_incoming_link_recv_size c)).buf.len > 0)
    (hfail : (E.openvpn_decrypt (process_incoming_link_pre_decrypt E c).buf).1 = false) :
    (c.link_socket_connection_oriented = true →
      (process_incoming_link E SIGUSR1 c).signal_received = SIGUSR1
      ∧ (process_incoming_link E SIGUSR1 c).signal_text = some "decryption-error"
      ∧ (process_incoming_link E SIGUSR1 c).to_tun = c.to_tun)
    ∧ (c.link_socket_connection_oriented = false →
      (E.openvpn_decrypt (process_incoming_link_pre_decrypt E c).buf).2.len ≤ 0 →
      (∀ b : packet_buffer, b.len ≤ 0 → (E.fragment_incoming b).len ≤ 0) →
      (∀ b : packet_buffer, b.len ≤ 0 → (E.lzo_decompress b).len ≤ 0) →
      (∀ b : packet_buffer, b.len ≤ 0 → E.is_occ_msg b = false) →
      (process_incoming_link E SIGUSR1 c).signal_received = c.signal_received
      ∧ (process_incoming_link E SIGUSR1 c).signal_text = c.signal_text
      ∧ (process_incoming_link E SIGUSR1 c).to_tun.len ≤ 0) := by
  obtain ⟨f1, f2, f3, f4⟩ := process_incoming_link_pre_decrypt_frame E c
  have hpre : process_incoming_link_tls E (process_incoming_link_verify E
      (process_incoming_link_gremlin E (process_incoming_link_recv_size c)))
      = process_incoming_link_pre_decrypt E c := rfl
  constructor
  · intro htcp
    unfold process_incoming_link
    dsimp only
    rw [if_pos hlen, hpre, hfail, f4, htcp]
    exact ⟨rfl, rfl, f3⟩
  · intro hudp hempty hfrag hlzo hocc
    have hc : (!(E.openvpn_decrypt (process_incoming_link_pre_decrypt E c).buf).1
        && (process_incoming_link_pre_decrypt E c).link_socket_connection_oriented)
        = false := by
      rw [f4, hudp, Bool.and_false]
    unfold process_incoming_link
    dsimp only
    rw [if_pos hlen, hpre, hc]
    have hpost := process_incoming_link_post_decrypt_empty E
      (process_incoming_link_pre_decrypt E c).tls_multi
      { process_incoming_link_pre_decrypt E c with
        buf := (E.openvpn_decrypt (process_incoming_link_pre_decrypt E c).buf).2 }
      hempty hfrag hlzo hocc
    dsimp only at hpost
    rw [if_neg (by decide)]
    exact ⟨hpost.1.trans f1, hpost.2.1.trans f2, hpost.2.2⟩

/-- C19 at a sample: a packet of three bytes that does not authenticate, on a
TCP link and on a UDP link. -/
theorem process_incoming_link_decrypt_failure_witness :
    ((process_incoming_link sample_link_stages 10 (sample_link_context true)).signal_received
        = 10
      ∧ (process_incoming_link sample_link_stages 10 (sample_link_context true)).signal_text
        = some "decryption-error"
      ∧ (process_incoming_link sample_link_stages 10 (sample_link_context true)).to_tun
        = (sample_link_context true).to_tun)
    ∧ ((process_incoming_link sample_link_stages 10 (sample_link_context false)).signal_received
        = (sample_link_context false).signal_received
      ∧ (process_incoming_link sample_link_stages 10 (sample_link_context false)).signal_text
        = (sample_link_context false).signal_text
      ∧ (process_incoming_link sample_link_stages 10 (sample_link_context false)).to_tun.len
        ≤ 0) :=
  ⟨(process_incoming_link_decrypt_failure sample_link_stages 10 (sample_link_context true)
      (by decide) (by decide)).1 rfl,
    (process_incoming_link_decrypt_failure sample_link_stages 10 (sample_link_context false)
      (by decide) (by decide)).2 rfl (by decide) (fun _ h => h) (fun _ h => h)
      (fun b h => by
        show decide (b.len ≥ 16) = false
        rw [decide_eq_false_iff_not]
        omega)⟩

/-- The sample, evaluated: on the TCP link the signal is raised and `to_tun`
keeps its length 0; on the UDP link the signal stays 0 and `to_tun` has
length 0; an authentic packet reaches `to_tun` with its three bytes. -/
theorem process_incoming_link_examples :
    (process_incoming_link sample_link_stages 10 (sample_link_context true)).signal_received
        = 10
    ∧ (process_incoming_link sample_link_stages 10 (sample_link_context false)).signal_received
        = 0
    ∧ (process_incoming_link sample_link_stages 10 (sample_link_context false)).to_tun.len = 0
    ∧ (process_incoming_link sample_link_stages 10
        { sample_link_context false with buf := { len := 3, data := [1, 8, 9] } }).to_tun
        = { len := 3, data := [1, 8, 9] } := by
  decide

/-! ## mbuf.c: first in, first out -/

/-- The queue has `len` elements. -/
theorem mbuf_queue_length (idx : Nat → Nat → Nat → Nat) (ms : mbuf_set) :
    (mbuf_queue idx ms).length = ms.len := by
  unfold mbuf_queue
  rw [List.length_map, List.length_range]

/-- With room left, `mbuf_add_item` returns true and puts the item behind the
queue; head, capacity and the size of the array stay. -/
theorem mbuf_add_item_room (idx : Nat → Nat → Nat → Nat) (ms : mbuf_set)
    (refcount : Nat → Int) (item : mbuf_item) (cap : Nat)
    (hcap : ms.capacity = cap) (hidx : ∀ h o, idx h o cap = (h + o) % cap)
    (harr : ms.array.length = cap) (hbuf : item.buffer ≠ 0) (hlen : ms.len < cap) :
    ∃ ms1 rc1, mbuf_add_item idx ms refcount item = some (true, ms1, rc1)
      ∧ ms1.len = ms.len + 1 ∧ ms1.capacity = cap ∧ ms1.head = ms.head
      ∧ ms1.array.length = cap
      ∧ mbuf_queue idx ms1 = mbuf_queue idx ms ++ [some item] := by
  subst hcap
  have hk : idx ms.head ms.len ms.capacity < ms.array.length := by
    rw [hidx, harr]
    exact Nat.mod_lt _ (by omega)
  have hstore := mbuf_add_item_store_ok idx ms refcount item true hlen hk hbuf
  refine ⟨mbuf_set.mk ms.head (ms.len + 1) ms.capacity
    (if ms.len + 1 > ms.max_queued then ms.len + 1 else ms.max_queued)
    (ms.array.set (idx ms.head ms.len ms.capacity) item),
    (fun p => if p = item.buffer then refcount p + 1 else refcount p),
    ?_, rfl, rfl, rfl, ?_, ?_⟩
  · unfold mbuf_add_item
    rw [if_neg (by omega)]
    exact hstore
  · show (ms.array.set _ item).length = ms.capacity
    rw [List.length_set, harr]
  · unfold mbuf_queue
    dsimp only
    rw [List.range_succ, List.map_append]
    congr 1
    · apply List.map_congr_left
      intro i hi
      rw [List.mem_range] at hi
      have hne : idx ms.head ms.len ms.capacity ≠ idx ms.head i ms.capacity := by
        rw [hidx, hidx]
        exact ring_index_ne ms.head ms.len i ms.capacity hlen (by omega) (by omega)
      rw [List.getElem?_set_ne hne]
    · simp only [List.map_cons, List.map_nil]
      rw [List.getElem?_set_self hk]

/-- Items added one after the other to a set with room for all of them are
all accepted and end up behind the queue, in the order of the calls. -/
theorem mbuf_add_items_room (idx : Nat → Nat → Nat → Nat) (cap : Nat)
    (hidx : ∀ h o, idx h o cap = (h + o) % cap) (items : List mbuf_item) :
    ∀ (ms : mbuf_set) (refcount : Nat → Int), ms.capacity = cap → ms.array.length = cap →
      ms.len + items.length ≤ cap → (∀ it ∈ items, it.buffer ≠ 0) →
      ∃ ms1 rc1, mbuf_add_items idx ms refcount items
          = some (items.map (fun _ => true), ms1, rc1)
        ∧ ms1.len = ms.len + items.length ∧ ms1.capacity = cap ∧ ms1.head = ms.head
        ∧ ms1.array.length = cap
        ∧ mbuf_queue idx ms1 = mbuf_queue idx ms ++ items.map some := by
  induction items with
  | nil =>
    intro ms refcount hcap harr _ _
    exact ⟨ms, refcount, rfl, rfl, hcap, rfl, harr, by simp⟩
  | cons it rest ih =>
    intro ms refcount hcap harr hlen hbuf
    have hl : (it :: rest).length = rest.length + 1 := rfl
    obtain ⟨ms1, rc1, h1, h2, h3, h4, h5, h6⟩ :=
      mbuf_add_item_room idx ms refcount it cap hcap hidx harr
        (hbuf it (List.mem_cons_self _ _)) (by omega)
    obtain ⟨ms2, rc2, g1, g2, g3, g4, g5, g6⟩ :=
      ih ms1 rc1 h3 h5 (by omega) (fun x hx => hbuf x (List.mem_cons_of_mem _ hx))
    refine ⟨ms2, rc2, ?_, by omega, g3, g4.trans h4, g5, ?_⟩
    · unfold mbuf_add_items
      rw [h1]
      dsimp only
      rw [g1]
      rfl
    · rw [g6, h6, List.append_assoc]
      rfl

/-- When the queue starts with a live item, `mbuf_extract_item` returns true
and that item, and leaves the rest of the queue. -/
theorem mbuf_extract_item_queue (idx : Nat → Nat → Nat → Nat) (ms : mbuf_set)
    (item0 x : mbuf_item) (q : List (Option mbuf_item)) (cap : Nat)
    (hcap : ms.capacity = cap) (hidx : ∀ h o, idx h o cap = (h + o) % cap)
    (hhead : ms.head < cap) (hq : mbuf_queue idx ms = some x :: q) (hlive : x.arg ≠ 0) :
    ∃ ms1, mbuf_extract_item idx ms item0 = some (true, ms1, x)
      ∧ ms1.len + 1 = ms.len ∧ ms1.capacity = cap ∧ ms1.head < cap
      ∧ ms1.array = ms.array ∧ mbuf_queue idx ms1 = q := by
  subst hcap
  have hlen : ms.len = q.length + 1 := by
    rw [← mbuf_queue_length idx ms, hq]
    rfl
  have hq0 := hq
  unfold mbuf_queue at hq0
  rw [hlen, List.range_succ_eq_map, List.map_cons, List.map_map] at hq0
  have hx : ms.array[ms.head]? = some x := by
    have := (List.cons.inj hq0).1
    rw [hidx, Nat.add_zero, Nat.mod_eq_of_lt hhead] at this
    exact this
  have hrest := (List.cons.inj hq0).2
  refine ⟨{ ms with head := idx ms.head 1 ms.capacity, len := ms.len - 1 }, ?_, ?_, rfl, ?_,
    rfl, ?_⟩
  · exact mbuf_extract_item_live_head idx ms item0 x (by omega) hx hlive
  · show ms.len - 1 + 1 = ms.len
    omega
  · show idx ms.head 1 ms.capacity < ms.capacity
    rw [hidx]
    exact Nat.mod_lt _ (by omega)
  · unfold mbuf_queue
    dsimp only
    have : ms.len - 1 = q.length := by omega
    rw [this]
    refine Eq.trans ?_ hrest
    apply List.map_congr_left
    intro i _
    simp only [Function.comp]
    rw [hidx, hidx, hidx, Nat.mod_add_mod, Nat.succ_eq_add_one]
    congr 2
    omega

/-- As many calls of `mbuf_extract_item` as the queue has items, all live,
return them in the order of the queue and leave the set empty. -/
theorem mbuf_extract_items_queue (idx : Nat → Nat → Nat → Nat) (cap : Nat)
    (hidx : ∀ h o, idx h o cap = (h + o) % cap) (items : List mbuf_item) :
    ∀ ms : mbuf_set, ms.capacity = cap → ms.head < cap →
      mbuf_queue idx ms = items.map some → (∀ it ∈ items, it.arg ≠ 0) →
      ∃ ms1, mbuf_extract_items idx items.length ms
          = some (items.map (fun it => (true, it)), ms1)
        ∧ ms1.len = 0 := by
  induction items with
  | nil =>
    intro ms _ _ hq _
    refine ⟨ms, rfl, ?_⟩
    rw [← mbuf_queue_length idx ms, hq]
    rfl
  | cons it rest ih =>
    intro ms hcap hhead hq hlive
    obtain ⟨ms1, h1, _, h3, h4, _, h6⟩ :=
      mbuf_extract_item_queue idx ms { buffer := 0, arg := 0 } it (rest.map some) cap hcap
        hidx hhead hq (hlive it (List.mem_cons_self _ _))
    obtain ⟨ms2, g1, g2⟩ := ih ms1 h3 h4 h6 (fun x hx => hlive x (List.mem_cons_of_mem _ hx))
    refine ⟨ms2, ?_, g2⟩
    show mbuf_extract_items idx (rest.length + 1) ms = _
    unfold mbuf_extract_items
    rw [h1]
    dsimp only
    rw [g1]
    rfl

/-- C21: with `MBUF_INDEX` the index in a ring of `capacity` elements: for
every list of at most `capacity` live items (non-NULL `arg` and buffer)
added one after the other with `mbuf_add_item` to an empty set, every call
returns true, and as many calls of `mbuf_extract_item` then return true with
exactly those items, in the order they were added, and leave `len == 0`. -/
theorem mbuf_first_in_first_out (idx : Nat → Nat → Nat → Nat) (ms : mbuf_set)
    (refcount : Nat → Int) (items : List mbuf_item)
    (hidx : ∀ h o, idx h o ms.capacity = (h + o) % ms.capacity)
    (harr : ms.array.length = ms.capacity) (hhead : ms.head < ms.capacity)
    (hempty : ms.len = 0) (hcount : items.length ≤ ms.capacity)
    (hlive : ∀ it ∈ items, it.arg ≠ 0 ∧ it.buffer ≠ 0) :
    ∃ ms1 rc1 ms2,
      mbuf_add_items idx ms refcount items = some (items.map (fun _ => true), ms1, rc1)
      ∧ ms1.len = items.length
      ∧ mbuf_extract_items idx items.length ms1 = some (items.map (fun it => (true, it)), ms2)
      ∧ ms2.len = 0 := by
  obtain ⟨ms1, rc1, h1, h2, h3, h4, _, h6⟩ :=
    mbuf_add_items_room idx ms.capacity hidx items ms refcount rfl harr (by omega)
      (fun it hit => (hlive it hit).2)
  have hq0 : mbuf_queue idx ms = [] := by
    unfold mbuf_queue
    rw [hempty]
    rfl
  rw [hq0, List.nil_append] at h6
  obtain ⟨ms2, g1, g2⟩ :=
    mbuf_extract_items_queue idx ms.capacity hidx items ms1 h3 (by rw [h4]; exact hhead) h6
      (fun it hit => (hlive it hit).1)
  exact ⟨ms1, rc1, ms2, h1, by omega, g1, g2⟩

/-- C21 at a sample: two packets queued in an empty set of capacity 4 come
out in the order they went in, and the set is empty again. -/
theorem mbuf_first_in_first_out_witness :
    ∃ ms1 rc1 ms2,
      mbuf_add_items sample_MBUF_INDEX sample_empty_mbuf_set (fun _ => 1)
          [{ buffer := 11, arg := 7 }, { buffer := 12, arg := 7 }]
        = some ([true, true], ms1, rc1)
      ∧ ms1.len = 2
      ∧ mbuf_extract_items sample_MBUF_INDEX 2 ms1
        = some ([(true, { buffer := 11, arg := 7 }), (true, { buffer := 12, arg := 7 })], ms2)
      ∧ ms2.len = 0 :=
  mbuf_first_in_first_out sample_MBUF_INDEX sample_empty_mbuf_set (fun _ => 1)
    [{ buffer := 11, arg := 7 }, { buffer := 12, arg := 7 }]
    (fun _ _ => rfl) (by decide) (by decide) (by decide) (by decide) (by decide)

/-! ## mbuf.c: the assertions of mbuf_add_item -/

/-- When no element of the array is live, the loop of `mbuf_extract_item`
does not return true. -/
theorem mbuf_extract_item_loop_none_live (idx : Nat → Nat → Nat → Nat) (n : Nat) :
    ∀ (ms : mbuf_set) (item : mbuf_item), (∀ it ∈ ms.array, it.arg = 0) →
      ∀ r, mbuf_extract_item_loop idx n ms item = some r → r.1 = false := by
  induction n with
  | zero =>
    intro ms item _ r hr
    unfold mbuf_extract_item_loop at hr
    rw [← Option.some.inj hr]
  | succ n ih =>
    intro ms item hdead r hr
    unfold mbuf_extract_item_loop at hr
    cases hx : ms.array[ms.head]? with
    | none =>
      rw [hx] at hr
      exact absurd hr (by simp)
    | some x =>
      rw [hx] at hr
      dsimp only at hr
      have hx0 : x.arg = 0 := hdead x (List.getElem?_mem hx)
      rw [if_neg (not_not.mpr hx0)] at hr
      exact ih
        { ms with head := idx ms.head 1 ms.capacity, len := n } x hdead r hr

/-- On a full set none of whose items is live, `mbuf_add_item` fails the
assertion `ASSERT (mbuf_extract_item (ms, &rm))`. -/
theorem mbuf_add_item_none_live (idx : Nat → Nat → Nat → Nat) (ms : mbuf_set)
    (refcount : Nat → Int) (item : mbuf_item) (hfull : ms.len = ms.capacity)
    (hdead : ∀ it ∈ ms.array, it.arg = 0) :
    mbuf_add_item idx ms refcount item = none := by
  unfold mbuf_add_item
  rw [if_pos hfull]
  cases hx : mbuf_extract_item idx ms { buffer := 0, arg := 0 } with
  | none => rfl
  | some r =>
    obtain ⟨ret, ms1, rm⟩ := r
    have hret : ret = false :=
      mbuf_extract_item_loop_none_live idx ms.len ms _ hdead (ret, ms1, rm) hx
    subst hret
    rfl

/-- C27, the failing input: a full set of capacity 2 whose two items are for
the instance 7; `mbuf_dereference` for that instance leaves both slots NULL
and the set full, and the next `mbuf_add_item` fails its assertion. -/
theorem mbuf_add_item_after_dereference_aborts :
    (mbuf_dereference sample_MBUF_INDEX sample_one_instance_mbuf_set (fun _ => 1) 7).map
        (fun r => r.1)
      = some { head := 1, len := 2, capacity := 2, max_queued := 2,
               array := [{ buffer := 0, arg := 0 }, { buffer := 0, arg := 0 }] }
    ∧ ((mbuf_dereference sample_MBUF_INDEX sample_one_instance_mbuf_set (fun _ => 1) 7).bind
        (fun r => mbuf_add_item sample_MBUF_INDEX r.1 r.2 { buffer := 15, arg := 5 })).isNone
      = true := by
  decide

/-! ## multi.h: when a route is defined -/

/-- C22 as amended: `multi_route_defined` returns false exactly when the
instance of the route is halted, or the route is a CACHE route whose
generation differs from the current one, or the route is AGEABLE and
`last_reference + ageable_ttl_secs < now`. Hence a bump of the current
generation makes undefined at once every CACHE route that was defined before
it, and every CACHE route whose generation is not the new one; of a CACHE
route whose generation is the new one nothing of the kind holds. -/
theorem multi_route_defined_iff (now : Int) (route_helper : mroute_helper)
    (r : multi_route) :
    (multi_route_defined now route_helper r = false ↔
      (r.instance_halt = true
        ∨ (r.flags &&& MULTI_ROUTE_CACHE ≠ 0
            ∧ r.cache_generation ≠ route_helper.cache_generation)
        ∨ (r.flags &&& MULTI_ROUTE_AGEABLE ≠ 0
            ∧ r.last_reference + route_helper.ageable_ttl_secs < now)))
    ∧ (r.flags &&& MULTI_ROUTE_CACHE ≠ 0 →
        multi_route_defined now route_helper r = true →
        multi_route_defined now (cache_generation_bump route_helper) r = false)
    ∧ (r.flags &&& MULTI_ROUTE_CACHE ≠ 0 →
        r.cache_generation ≠ (cache_generation_bump route_helper).cache_generation →
        multi_route_defined now (cache_generation_bump route_helper) r = false) := by
  have hiff : ∀ rh : mroute_helper, multi_route_defined now rh r = false ↔
      (r.instance_halt = true
        ∨ (r.flags &&& MULTI_ROUTE_CACHE ≠ 0 ∧ r.cache_generation ≠ rh.cache_generation)
        ∨ (r.flags &&& MULTI_ROUTE_AGEABLE ≠ 0
            ∧ r.last_reference + rh.ageable_ttl_secs < now)) := by
    intro rh
    unfold multi_route_defined
    split_ifs with h1 h2 h3
    · exact ⟨fun _ => Or.inl h1, fun _ => rfl⟩
    · exact ⟨fun _ => Or.inr (Or.inl h2), fun _ => rfl⟩
    · exact ⟨fun _ => Or.inr (Or.inr h3), fun _ => rfl⟩
    · constructor
      · intro h
        exact absurd h (by decide)
      · intro h
        rcases h with h | h | h
        · exact absurd h h1
        · exact absurd h h2
        · exact absurd h h3
  refine ⟨hiff route_helper, ?_, ?_⟩
  · intro hcache hdef
    rw [hiff]
    have hgen : r.cache_generation = route_helper.cache_generation := by
      by_contra hne
      have := (hiff route_helper).mpr (Or.inr (Or.inl ⟨hcache, hne⟩))
      rw [hdef] at this
      exact absurd this (by decide)
    refine Or.inr (Or.inl ⟨hcache, ?_⟩)
    show r.cache_generation ≠ (route_helper.cache_generation + 1) % 2 ^ 32
    rw [hgen]
    omega
  · intro hcache hne
    rw [hiff]
    exact Or.inr (Or.inl ⟨hcache, hne⟩)

/-- A CACHE route of generation 5 is defined while the current generation is
5 and undefined after the bump; a halted instance makes its route undefined;
an AGEABLE route last referenced at 100 with a ttl of 60 is defined at 160 and
undefined at 161. -/
theorem multi_route_defined_examples :
    multi_route_defined 1000 { cache_generation := 5, ageable_ttl_secs := 60 }
        { instance_halt := false, flags := 1, cache_generation := 5, last_reference := 0 }
      = true
    ∧ multi_route_defined 1000
        (cache_generation_bump { cache_generation := 5, ageable_ttl_secs := 60 })
        { instance_halt := false, flags := 1, cache_generation := 5, last_reference := 0 }
      = false
    ∧ multi_route_defined 1000 { cache_generation := 5, ageable_ttl_secs := 60 }
        { instance_halt := true, flags := 0, cache_generation := 5, last_reference := 0 }
      = false
    ∧ multi_route_defined 160 { cache_generation := 5, ageable_ttl_secs := 60 }
        { instance_halt := false, flags := 2, cache_generation := 0, last_reference := 100 }
      = true
    ∧ multi_route_defined 161 { cache_generation := 5, ageable_ttl_secs := 60 }
        { instance_halt := false, flags := 2, cache_generation := 0, last_reference := 100 }
      = false := by
  decide

/-- An instance of the bump: the CACHE route of generation 5, defined while
the current generation is 5, is undefined after it. -/
theorem multi_route_defined_iff_witness :
    (1 : Nat) &&& MULTI_ROUTE_CACHE ≠ 0
    ∧ multi_route_defined 1000 { cache_generation := 5, ageable_ttl_secs := 60 }
        { instance_halt := false, flags := 1, cache_generation := 5, last_reference := 0 }
      = true
    ∧ multi_route_defined 1000
        (cache_generation_bump { cache_generation := 5, ageable_ttl_secs := 60 })
        { instance_halt := false, flags := 1, cache_generation := 5, last_reference := 0 }
      = false :=
  ⟨by decide, by decide,
    (multi_route_defined_iff 1000 { cache_generation := 5, ageable_ttl_secs := 60 }
      { instance_halt := false, flags := 1, cache_generation := 5, last_reference := 0 }).2.1
      (by decide) (by decide)⟩

/-- C22 fails as stated: a bump of the current generation does not make every
CACHE route undefined. A CACHE route of generation 6 is undefined while the
current generation is 5 and defined once it is bumped to 6; a CACHE route of
generation 0 is defined once the `unsigned int` generation `2^32 - 1` wraps to
0. -/
theorem cache_generation_bump_leaves_cache_route_defined :
    (1 : Nat) &&& MULTI_ROUTE_CACHE ≠ 0
    ∧ multi_route_defined 1000 { cache_generation := 5, ageable_ttl_secs := 60 }
        { instance_halt := false, flags := 1, cache_generation := 6, last_reference := 0 }
      = false
    ∧ multi_route_defined 1000
        (cache_generation_bump { cache_generation := 5, ageable_ttl_secs := 60 })
        { instance_halt := false, flags := 1, cache_generation := 6, last_reference := 0 }
      = true
    ∧ multi_route_defined 1000
        (cache_generation_bump { cache_generation := 4294967295, ageable_ttl_secs := 60 })
        { instance_halt := false, flags := 1, cache_generation := 0, last_reference := 0 }
      = true
    ∧ ¬ (∀ (now : Int) (route_helper : mroute_helper) (r : multi_route),
          r.flags &&& MULTI_ROUTE_CACHE ≠ 0 →
          multi_route_defined now (cache_generation_bump route_helper) r = false) := by
  refine ⟨by decide, by decide, by decide, by decide, fun h => ?_⟩
  have h1 := h 1000 { cache_generation := 5, ageable_ttl_secs := 60 }
    { instance_halt := false, flags := 1, cache_generation := 6, last_reference := 0 }
    (by decide)
  exact absurd h1 (by decide)

/-! ## options.c: the comparison of the option strings -/

/-- Two characters have the same code iff they are the same. -/
theorem char_code_sub_eq_zero (a b : Char) :
    (a.toNat : Int) - (b.toNat : Int) = 0 ↔ a = b := by
  constructor
  · intro h
    have h1 : a.toNat = b.toNat := by omega
    rw [← Char.ofNat_toNat a, ← Char.ofNat_toNat b, h1]
  · intro h
    rw [h]
    omega

/-- The C string of an array that starts with a NUL is empty, and otherwise
starts with the first character. -/
theorem c_str_cons (c : Char) (t : List Char) :
    c_str (c :: t) = if c = NUL then [] else c :: c_str t := by
  unfold c_str
  by_cases h : c = NUL
  · rw [if_pos h, List.takeWhile_cons]
    simp [h]
  · rw [if_neg h, List.takeWhile_cons]
    simp [h]

/-- The C string of the empty array. -/
theorem c_str_nil : c_str [] = [] := rfl

/-- `strcmp` returns 0 iff the two C strings are equal. -/
theorem strcmp_eq_zero_iff (s1 : List Char) :
    ∀ s2 : List Char, strcmp s1 s2 = 0 ↔ c_str s1 = c_str s2 := by
  induction s1 with
  | nil =>
    intro s2
    unfold strcmp
    rw [char_code_sub_eq_zero, c_str_nil]
    cases s2 with
    | nil => simp [c_str_nil]
    | cons c2 t2 =>
      rw [c_str_cons]
      by_cases h : c2 = NUL
      · simp [h]
      · simp [h, Ne.symm h]
  | cons c1 t1 ih =>
    intro s2
    unfold strcmp
    dsimp only
    rw [c_str_cons]
    cases s2 with
    | nil =>
      rw [c_str_nil]
      by_cases h : c1 = NUL
      · simp [h]
      · simp [h, char_code_sub_eq_zero]
    | cons c2 t2 =>
      rw [c_str_cons]
      simp only [List.headD_cons, List.tail_cons]
      by_cases h12 : c1 = c2
      · subst h12
        by_cases h : c1 = NUL
        · simp [h]
        · simp [h, ih]
      · rw [if_pos h12, char_code_sub_eq_zero]
        by_cases h1 : c1 = NUL
        · have h2 : ¬ c2 = NUL := fun h => h12 (h1.trans h.symm)
          simp [h1, h2, Ne.symm h2]
        · by_cases h2 : c2 = NUL
          · simp [h1, h2, h12]
          · simp [h1, h2, h12]

/-- `strncmp` returns 0 iff the two C strings agree on their first `n`
characters. -/
theorem strncmp_eq_zero_iff (n : Nat) :
    ∀ s1 s2 : List Char, strncmp s1 s2 n = 0 ↔ (c_str s1).take n = (c_str s2).take n := by
  induction n with
  | zero =>
    intro s1 s2
    unfold strncmp
    simp
  | succ n ih =>
    intro s1 s2
    unfold strncmp
    dsimp only
    cases s1 with
    | nil =>
      cases s2 with
      | nil => simp [c_str_nil]
      | cons c2 t2 =>
        rw [c_str_cons, c_str_nil]
        simp only [List.headD_nil, List.headD_cons]
        by_cases h : c2 = NUL
        · simp [h]
        · simp [h, Ne.symm h, char_code_sub_eq_zero]
    | cons c1 t1 =>
      cases s2 with
      | nil =>
        rw [c_str_cons, c_str_nil]
        simp only [List.headD_nil, List.headD_cons]
        by_cases h : c1 = NUL
        · simp [h]
        · simp [h, char_code_sub_eq_zero]
      | cons c2 t2 =>
        rw [c_str_cons, c_str_cons]
        simp only [List.headD_cons, List.tail_cons]
        by_cases h12 : c1 = c2
        · subst h12
          by_cases h : c1 = NUL
          · simp [h]
          · simp [h, ih]
        · rw [if_pos h12, char_code_sub_eq_zero]
          by_cases h1 : c1 = NUL
          · have h2 : ¬ c2 = NUL := fun h => h12 (h1.trans h.symm)
            simp [h1, h2, Ne.symm h2]
          · by_cases h2 : c2 = NUL
            · simp [h1, h2, h12]
            · simp [h1, h2, h12]

/-- A NUL written behind `w` ends the C string within `w` or right behind it. -/
theorem c_str_append_nul_any (w x : List Char) : c_str (w ++ NUL :: x) = c_str w := by
  induction w with
  | nil =>
    rw [List.nil_append, c_str_cons, if_pos rfl]
    rfl
  | cons c w ih =>
    rw [List.cons_append, c_str_cons, c_str_cons, ih]

/-- C23: `options_cmp_equal_safe`, for a size `actual_n` within the array.
With `actual_n == 0` it returns true. Otherwise it writes a NUL at `actual_n
- 1`, so that the received string is the C string of the first `actual_n - 1`
characters; when the first two characters of the received and the expected
string differ it returns true (no mismatch is reported), and when they agree
it returns true iff the two strings are equal. -/
theorem options_cmp_equal_safe_spec (actual expected : List Char) (actual_n : Nat)
    (hn : actual_n ≤ actual.length) :
    (actual_n = 0 → options_cmp_equal_safe actual expected actual_n = some (true, actual))
    ∧ (0 < actual_n →
      ∃ ret, options_cmp_equal_safe actual expected actual_n
          = some (ret, actual.set (actual_n - 1) NUL)
        ∧ c_str (actual.set (actual_n - 1) NUL) = c_str (actual.take (actual_n - 1))
        ∧ ((c_str (actual.take (actual_n - 1))).take 2 ≠ (c_str expected).take 2 →
            ret = true)
        ∧ ((c_str (actual.take (actual_n - 1))).take 2 = (c_str expected).take 2 →
            (ret = true ↔ c_str (actual.take (actual_n - 1)) = c_str expected))) := by
  constructor
  · intro h0
    unfold options_cmp_equal_safe
    dsimp only
    rw [if_neg (by omega)]
  · intro hpos
    have hlt : actual_n - 1 < actual.length := by omega
    have hstr : c_str (actual.set (actual_n - 1) NUL) = c_str (actual.take (actual_n - 1)) := by
      rw [set_eq_take_cons_drop actual (actual_n - 1) NUL hlt, c_str_append_nul_any]
    by_cases hver : strncmp (actual.set (actual_n - 1) NUL) expected 2 = 0
    · refine ⟨decide (strcmp (actual.set (actual_n - 1) NUL) expected = 0), ?_, hstr, ?_, ?_⟩
      · unfold options_cmp_equal_safe
        dsimp only
        rw [if_pos hpos, if_pos hlt, if_neg (not_not.mpr hver)]
      · intro hne
        rw [strncmp_eq_zero_iff, hstr] at hver
        exact absurd hver hne
      · intro _
        rw [decide_eq_true_iff, strcmp_eq_zero_iff, hstr]
    · refine ⟨true, ?_, hstr, fun _ => rfl, ?_⟩
      · unfold options_cmp_equal_safe
        dsimp only
        rw [if_pos hpos, if_pos hlt, if_pos hver]
      · intro heq
        rw [strncmp_eq_zero_iff, hstr] at hver
        exact absurd heq hver

/-- C23 at a sample: the received bytes "V4,tun" followed by a byte that is
not a NUL, with `actual_n = 7`, against the expected string "V4,tap". -/
theorem options_cmp_equal_safe_spec_witness :
    ∃ ret, options_cmp_equal_safe "V4,tun!".toList "V4,tap".toList 7
        = some (ret, "V4,tun!".toList.set (7 - 1) NUL)
      ∧ c_str ("V4,tun!".toList.set (7 - 1) NUL) = c_str ("V4,tun!".toList.take (7 - 1))
      ∧ ((c_str ("V4,tun!".toList.take (7 - 1))).take 2 ≠ (c_str "V4,tap".toList).take 2 →
          ret = true)
      ∧ ((c_str ("V4,tun!".toList.take (7 - 1))).take 2 = (c_str "V4,tap".toList).take 2 →
          (ret = true ↔ c_str ("V4,tun!".toList.take (7 - 1)) = c_str "V4,tap".toList)) :=
  (options_cmp_equal_safe_spec "V4,tun!".toList "V4,tap".toList 7 (by decide)).2 (by decide)

/-- Four calls, evaluated: equal strings give true, strings of one version
that differ give false, strings of different versions give true, and
`actual_n == 0` gives true. -/
theorem options_cmp_equal_safe_examples :
    (options_cmp_equal_safe "V4,tun!".toList "V4,tun".toList 7).map (fun r => r.1) = some true
    ∧ (options_cmp_equal_safe "V4,tun!".toList "V4,tap".toList 7).map (fun r => r.1)
        = some false
    ∧ (options_cmp_equal_safe "V3,tun!".toList "V4,tap".toList 7).map (fun r => r.1)
        = some true
    ∧ (options_cmp_equal_safe "V4,tun!".toList "V4,tap".toList 0).map (fun r => r.1)
        = some true := by
  decide

/-! ## mroute.c: the address taken from a tun packet -/

/-- For a tun device and a buffer of at least the two header sizes whose first
byte has the version 4, the address is taken from behind `sizeof (struct
openvpn_ethhdr)` bytes. -/
theorem mroute_extract_addr_from_packet_tun (P : proto_layout) (addr : mroute_addr)
    (buf : buffer) (dest : Bool)
    (hver : P.OPENVPN_IPH_GET_VER (buf.data.headD 0) = 4)
    (hlen : P.sizeof_openvpn_ethhdr + P.sizeof_openvpn_iphdr ≤ BLEN buf)
    (hip : 1 ≤ P.sizeof_openvpn_iphdr) :
    mroute_extract_addr_from_packet P addr buf P.DEV_TYPE_TUN dest
      = some (true,
          { type := MR_ADDR_IPV4, len := 4,
            addr := (buf.data.drop (P.sizeof_openvpn_ethhdr
                + (if dest then P.iphdr_daddr else P.iphdr_saddr))).take 4
              ++ addr.addr.drop 4 }) := by
  unfold mroute_extract_addr_from_packet
  dsimp only
  rw [if_pos rfl, if_pos (by omega), if_pos hver, if_pos (by omega)]
  rfl

/-- C24, the failing inputs: for a tun device and an IPv4 datagram of 40
bytes from 10.8.0.1 to 10.8.0.6 the address returned for `dest = true` is
bytes 30 to 33 of the datagram, which are payload (110, 111, 112, 113), not
the destination field 10.8.0.6 of the header; for `dest = false` it is bytes
26 to 29; and for an IPv4 datagram of 28 bytes the function returns false. -/
theorem mroute_extract_addr_from_packet_tun_offset :
    (mroute_extract_addr_from_packet openvpn_proto_layout sample_mroute_addr
        sample_ipv4_datagram openvpn_proto_layout.DEV_TYPE_TUN true).map
        (fun r => (r.1, r.2.type, r.2.len, r.2.addr.take 4))
      = some (true, MR_ADDR_IPV4, 4, [110, 111, 112, 113])
    ∧ ip_header_addr_field openvpn_proto_layout sample_ipv4_datagram true = [10, 8, 0, 6]
    ∧ (mroute_extract_addr_from_packet openvpn_proto_layout sample_mroute_addr
        sample_ipv4_datagram openvpn_proto_layout.DEV_TYPE_TUN false).map
        (fun r => (r.1, r.2.addr.take 4))
      = some (true, [106, 107, 108, 109])
    ∧ ip_header_addr_field openvpn_proto_layout sample_ipv4_datagram false = [10, 8, 0, 1]
    ∧ (mroute_extract_addr_from_packet openvpn_proto_layout sample_mroute_addr
        sample_short_ipv4_datagram openvpn_proto_layout.DEV_TYPE_TUN true).map
        (fun r => r.1)
      = some false := by
  decide

/-! ## mtcp.c: multi_tcp_post -/

/-- C25: `multi_tcp_post` never reaches its fatal default case, and the new
action depends only on the pending output, the instance and the residual
input, not on the action just done: `TA_TUN_WRITE` whenever tun output is
pending, `TA_SOCKET_WRITE` when only link output is pending,
`TA_SOCKET_READ_RESIDUAL` when nothing is pending and there is an instance
whose socket holds residual input, and `TA_UNDEF` otherwise. -/
theorem multi_tcp_post_action (TUN_OUT LINK_OUT mi socket_read_residual : Bool)
    (action : Int) :
    ∃ called, multi_tcp_post TUN_OUT LINK_OUT mi socket_read_residual action
      = some
          (if TUN_OUT = true then TA_TUN_WRITE
            else if LINK_OUT = true then TA_SOCKET_WRITE
            else if mi = true ∧ socket_read_residual = true then TA_SOCKET_READ_RESIDUAL
            else TA_UNDEF,
           called) := by
  cases TUN_OUT <;> cases LINK_OUT <;> cases mi <;> cases socket_read_residual <;>
    exact ⟨_, rfl⟩
/-! ## mtcp.c: multi_tcp_process_outgoing_link -/

/-- On a full set whose head is live, `mbuf_add_item` returns false, drops the
head of the queue and puts the item behind the rest. -/
theorem mbuf_add_item_full_live (idx : Nat → Nat → Nat → Nat) (ms : mbuf_set)
    (refcount : Nat → Int) (item : mbuf_item) (cap : Nat)
    (hcap : ms.capacity = cap) (hidx : ∀ h o, idx h o cap = (h + o) % cap)
    (harr : ms.array.length = cap) (hbuf : item.buffer ≠ 0) (hfull : ms.len = cap)
    (h : mbuf_item) (hhead : ms.array[ms.head]? = some h) (hlive : h.arg ≠ 0) :
    ∃ ms1 rc1, mbuf_add_item idx ms refcount item = some (false, ms1, rc1)
      ∧ ms1.len = cap
      ∧ mbuf_queue idx ms1 = (mbuf_queue idx ms).tail ++ [some item] := by
  subst hcap
  have hlt : ms.head < ms.capacity := by
    rw [← harr]
    exact (List.getElem?_eq_some_iff.mp hhead).1
  obtain ⟨n, hn⟩ : ∃ n, ms.capacity = n + 1 := ⟨ms.capacity - 1, by omega⟩
  have hl : ms.len = n + 1 := by omega
  obtain ⟨ms0, e1, e2, e3, e4, e5, e6⟩ :=
    mbuf_extract_item_queue idx ms { buffer := 0, arg := 0 } h (mbuf_queue idx ms).tail
      ms.capacity rfl hidx hlt
      (by
        unfold mbuf_queue
        rw [hl, List.range_succ_eq_map, List.map_cons, List.tail_cons, hidx,
          Nat.add_zero, Nat.mod_eq_of_lt hlt, hhead])
      hlive
  obtain ⟨ms1, rc1, a1, a2, _, _, _, a6⟩ :=
    mbuf_add_item_room idx ms0 (mbuf_free_buf refcount h.buffer) item ms.capacity e3 hidx
      (by rw [e5]; exact harr) hbuf (by omega)
  refine ⟨ms1, rc1, ?_, by omega, by rw [a6, e6]⟩
  have hroom : ¬ ms0.len = ms0.capacity := by omega
  unfold mbuf_add_item at a1 ⊢
  rw [if_neg hroom] at a1
  rw [if_pos hfull, e1]
  have hlen0 : ms0.len < ms0.capacity := by omega
  have hk0 : idx ms0.head ms0.len ms0.capacity < ms0.array.length := by
    rw [e3, hidx, e5, harr]
    exact Nat.mod_lt _ (by omega)
  have st := mbuf_add_item_store_ok idx ms0 (mbuf_free_buf refcount h.buffer) item true
    hlen0 hk0 hbuf
  have sf := mbuf_add_item_store_ok idx ms0 (mbuf_free_buf refcount h.buffer) item false
    hlen0 hk0 hbuf
  rw [st] at a1
  have hpair := (Prod.mk.inj (Option.some.inj a1)).2
  show mbuf_add_item_store idx ms0 (mbuf_free_buf refcount h.buffer) item false = _
  rw [sf, hpair]

/-- C26: `multi_tcp_process_outgoing_link` for an instance with output
pending. When the write was deferred or the deferred queue is not empty, a
non-empty `to_link` is copied into a new buffer that becomes the last item of
the queue (a full queue first loses its oldest item), `to_link` is emptied and
nothing is written to the socket. When the write was not deferred and the
queue is empty, the packet is written directly. A direct write happens only
when the write was not deferred and the queue is empty. -/
theorem multi_tcp_process_outgoing_link_order (E : multi_tcp_env) (mi : Nat)
    (inst : tcp_instance) (heap : mbuf_heap) (defer : Bool) (hmi : mi ≠ 0) :
    ((defer = true ∨ inst.tcp_link_out_deferred.len ≠ 0) → 0 < BLEN inst.to_link →
      E.alloc ≠ 0 → (∀ b, BLEN (E.buf_reset b) = 0) →
      (∀ h o, E.MBUF_INDEX h o inst.tcp_link_out_deferred.capacity
        = (h + o) % inst.tcp_link_out_deferred.capacity) →
      inst.tcp_link_out_deferred.array.length = inst.tcp_link_out_deferred.capacity →
      (inst.tcp_link_out_deferred.len < inst.tcp_link_out_deferred.capacity
        ∨ (inst.tcp_link_out_deferred.len = inst.tcp_link_out_deferred.capacity
            ∧ ∃ h, inst.tcp_link_out_deferred.array[inst.tcp_link_out_deferred.head]? = some h
                ∧ h.arg ≠ 0)) →
      ∃ o, multi_tcp_process_outgoing_link E mi inst heap defer = some o
        ∧ o.wrote = false
        ∧ BLEN o.inst.to_link = 0
        ∧ mbuf_queue E.MBUF_INDEX o.inst.tcp_link_out_deferred
            = (if inst.tcp_link_out_deferred.len < inst.tcp_link_out_deferred.capacity then
                mbuf_queue E.MBUF_INDEX inst.tcp_link_out_deferred
              else (mbuf_queue E.MBUF_INDEX inst.tcp_link_out_deferred).tail)
              ++ [some { buffer := E.alloc, arg := mi }]
        ∧ o.heap.buf E.alloc = inst.to_link)
    ∧ (defer = false → inst.tcp_link_out_deferred.len = 0 →
      ∃ o, multi_tcp_process_outgoing_link E mi inst heap defer = some o
        ∧ o.wrote = true
        ∧ o.inst = (E.multi_process_outgoing_link_dowork inst).1)
    ∧ (∀ o, multi_tcp_process_outgoing_link E mi inst heap defer = some o →
        o.wrote = true → defer = false ∧ inst.tcp_link_out_deferred.len = 0) := by
  refine ⟨?_, ?_, ?_⟩
  · intro hdefer hlen halloc hreset hidx harr hq
    have hcond : (defer || mbuf_defined inst.tcp_link_out_deferred) = true := by
      rcases hdefer with h | h
      · rw [h]
        rfl
      · unfold mbuf_defined
        rw [decide_eq_true h, Bool.or_true]
    have hadd : ∃ ms1 rc1 ret,
        mbuf_add_item E.MBUF_INDEX inst.tcp_link_out_deferred
            (mbuf_alloc_buf E.alloc heap inst.to_link).refcount
            { buffer := E.alloc, arg := mi } = some (ret, ms1, rc1)
        ∧ mbuf_queue E.MBUF_INDEX ms1
            = (if inst.tcp_link_out_deferred.len < inst.tcp_link_out_deferred.capacity then
                mbuf_queue E.MBUF_INDEX inst.tcp_link_out_deferred
              else (mbuf_queue E.MBUF_INDEX inst.tcp_link_out_deferred).tail)
              ++ [some { buffer := E.alloc, arg := mi }] := by
      rcases hq with hroom | ⟨hfull, h, hhead, hlive⟩
      · obtain ⟨ms1, rc1, a1, _, _, _, _, a6⟩ :=
          mbuf_add_item_room E.MBUF_INDEX inst.tcp_link_out_deferred
            (mbuf_alloc_buf E.alloc heap inst.to_link).refcount
            { buffer := E.alloc, arg := mi } _ rfl hidx harr halloc hroom
        exact ⟨ms1, rc1, true, a1, by rw [if_pos hroom]; exact a6⟩
      · obtain ⟨ms1, rc1, a1, _, a3⟩ :=
          mbuf_add_item_full_live E.MBUF_INDEX inst.tcp_link_out_deferred
            (mbuf_alloc_buf E.alloc heap inst.to_link).refcount
            { buffer := E.alloc, arg := mi } _ rfl hidx harr halloc hfull h hhead hlive
        exact ⟨ms1, rc1, false, a1, by rw [if_neg (by omega)]; exact a3⟩
    obtain ⟨ms1, rc1, ret, hadd1, hadd2⟩ := hadd
    refine ⟨{ ret := E.multi_process_post
              inst := { to_link := E.buf_reset inst.to_link, tcp_link_out_deferred := ms1 }
              heap := { mbuf_alloc_buf E.alloc heap inst.to_link with
                        refcount := mbuf_free_buf rc1 E.alloc }
              wrote := false }, ?_, rfl, hreset _, hadd2, ?_⟩
    · unfold multi_tcp_process_outgoing_link
      dsimp only
      rw [if_pos hmi, if_pos hcond, if_pos hlen, hadd1]
    · show (mbuf_alloc_buf E.alloc heap inst.to_link).buf E.alloc = inst.to_link
      unfold mbuf_alloc_buf
      dsimp only
      rw [if_pos rfl]
  · intro hdefer hlen
    have hcond : ¬ (defer || mbuf_defined inst.tcp_link_out_deferred) = true := by
      unfold mbuf_defined
      rw [hdefer, decide_eq_false (not_not.mpr hlen)]
      decide
    refine ⟨multi_tcp_outcome.mk (E.multi_process_outgoing_link_dowork inst).2
      (E.multi_process_outgoing_link_dowork inst).1 heap true, ?_, rfl, rfl⟩
    unfold multi_tcp_process_outgoing_link
    dsimp only
    rw [if_pos hmi, if_neg hcond]
  · intro o ho hw
    by_cases hcond : (defer || mbuf_defined inst.tcp_link_out_deferred) = true
    · exfalso
      unfold multi_tcp_process_outgoing_link at ho
      dsimp only at ho
      rw [if_pos hmi, if_pos hcond] at ho
      split_ifs at ho
      · split at ho
        · exact absurd ho (by simp)
        · rw [← Option.some.inj ho] at hw
          exact absurd hw (by simp)
      · rw [← Option.some.inj ho] at hw
        exact absurd hw (by simp)
    · rw [Bool.or_eq_true, not_or] at hcond
      refine ⟨by simpa using hcond.1, ?_⟩
      have := hcond.2
      unfold mbuf_defined at this
      simpa using this

/-- C26 at a sample: a write that was deferred, with two items queued, and a
write that was not, with an empty queue. -/
theorem multi_tcp_process_outgoing_link_order_witness :
    (∃ o, multi_tcp_process_outgoing_link sample_multi_tcp_env 7
          (sample_tcp_instance sample_mbuf_set) sample_mbuf_heap true = some o
        ∧ o.wrote = false
        ∧ BLEN o.inst.to_link = 0
        ∧ mbuf_queue sample_multi_tcp_env.MBUF_INDEX o.inst.tcp_link_out_deferred
            = (if (sample_tcp_instance sample_mbuf_set).tcp_link_out_deferred.len
                  < (sample_tcp_instance sample_mbuf_set).tcp_link_out_deferred.capacity then
                mbuf_queue sample_multi_tcp_env.MBUF_INDEX
                  (sample_tcp_instance sample_mbuf_set).tcp_link_out_deferred
              else (mbuf_queue sample_multi_tcp_env.MBUF_INDEX
                  (sample_tcp_instance sample_mbuf_set).tcp_link_out_deferred).tail)
              ++ [some { buffer := sample_multi_tcp_env.alloc, arg := 7 }]
        ∧ o.heap.buf sample_multi_tcp_env.alloc
            = (sample_tcp_instance sample_mbuf_set).to_link)
    ∧ (∃ o, multi_tcp_process_outgoing_link sample_multi_tcp_env 7
          (sample_tcp_instance sample_empty_mbuf_set) sample_mbuf_heap false = some o
        ∧ o.wrote = true
        ∧ o.inst = (sample_multi_tcp_env.multi_process_outgoing_link_dowork
            (sample_tcp_instance sample_empty_mbuf_set)).1) :=
  ⟨(multi_tcp_process_outgoing_link_order sample_multi_tcp_env 7
      (sample_tcp_instance sample_mbuf_set) sample_mbuf_heap true (by decide)).1
      (Or.inl rfl) (by decide) (by decide) (fun _ => rfl) (fun _ _ => rfl) (by decide)
      (Or.inl (by decide)),
    (multi_tcp_process_outgoing_link_order sample_multi_tcp_env 7
      (sample_tcp_instance sample_empty_mbuf_set) sample_mbuf_heap false (by decide)).2.1
      rfl (by decide)⟩

/-- The sample, evaluated: the deferred packet is queued behind the two that
were waiting and `to_link` is empty; with an empty queue and a writable socket
the packet is written and nothing is queued. -/
theorem multi_tcp_process_outgoing_link_examples :
    (multi_tcp_process_outgoing_link sample_multi_tcp_env 7
        (sample_tcp_instance sample_mbuf_set) sample_mbuf_heap true).map
        (fun o => (o.wrote, o.inst.to_link.data,
          (mbuf_queue sample_MBUF_INDEX o.inst.tcp_link_out_deferred).map
            (Option.map mbuf_item.buffer)))
      = some (false, [], [some 11, some 12, some 21])
    ∧ (multi_tcp_process_outgoing_link sample_multi_tcp_env 7
        (sample_tcp_instance sample_empty_mbuf_set) sample_mbuf_heap false).map
        (fun o => (o.wrote, o.inst.tcp_link_out_deferred.len))
      = some (true, 0) := by
  decide

/-! ## multi.c: the instance read by multi_process_timeout -/

/-- Whatever `earliest_wakeup` is on entry, it is NULL when the two conditions
are evaluated: `multi_process_timeout` reads through a NULL pointer unless
both `link_out` and `tun_out` are set. -/
theorem multi_process_timeout_reads_null
    (multi_process_post : timeout_instance → timeout_instance) (m : timeout_multi_context)
    (h : m.link_out = none ∨ m.tun_out = none) :
    multi_process_timeout multi_process_post m = none := by
  unfold multi_process_timeout
  cases hw : m.earliest_wakeup with
  | none =>
    dsimp only
    by_cases hl : m.link_out = none
    · rw [if_pos hl]
      unfold earliest_wakeup_instance
      rw [hw]
    · rw [if_neg hl]
      dsimp only
      rw [if_pos (h.resolve_left hl)]
      unfold earliest_wakeup_instance
      rw [hw]
  | some i =>
    dsimp only
    by_cases hl : m.link_out = none
    · rw [if_pos hl]
      rfl
    · rw [if_neg hl]
      dsimp only
      rw [if_pos (h.resolve_left hl)]
      rfl

/-- C28, the failing input: `earliest_wakeup` is the first instance, which has
output pending for the link, and `link_out`, `tun_out` are NULL. The call
reads through a NULL pointer; so does the call with `earliest_wakeup` NULL on
entry. -/
theorem multi_process_timeout_null_read :
    multi_process_timeout id sample_timeout_multi_context = none
    ∧ multi_process_timeout id { sample_timeout_multi_context with earliest_wakeup := none }
      = none := by
  decide
/-! ## ssl.c: a subject without a common name -/

/-- For a subject that does not contain `/CN=`, `extract_common_name` writes
the NUL at `out[size - 1]` and nothing else. -/
theorem extract_common_name_without_cn (out : List Char) (size : Int) (subject : List Char)
    (hsize : 0 < size) (hnul : ∀ c ∈ subject, c ≠ NUL)
    (hcn : ¬ ['/', 'C', 'N', '='] <:+: subject) :
    extract_common_name out size subject = some (out.set (size.toNat - 1) NUL) := by
  have hscan : common_name_scan 0 subject ≠ 4 := by
    intro h4
    apply hcn
    have := common_name_scan_found subject [] 0 (Or.inl rfl) h4
    rw [List.nil_append] at this
    exact this
  have hle : common_name_scan 0 subject ≤ 4 := common_name_scan_le subject 0 (by omega)
  have hloop := extract_common_name_loop_scan subject []
    { out := out.set (size.toNat - 1) NUL, pos := 0, size := size.toNat - 1, state := 0 }
    hnul (by show (0 : Nat) ≤ 4; omega) hscan
  rw [List.append_nil] at hloop
  unfold extract_common_name
  rw [if_pos hsize]
  dsimp only
  rw [hloop]
  dsimp only
  unfold extract_common_name_loop extract_common_name_body
  dsimp only
  rw [if_neg hscan, if_neg (by decide)]
  split_ifs <;> rfl

/-- C30, the failing input: a subject without `/CN=`, `size = 64`, and an
output array that holds 64 characters `x` before the call. After the call the
array holds 63 characters `x` and the NUL at index 63: the string produced is
not empty, and its first character is the one the array held before. -/
theorem extract_common_name_keeps_old_content :
    (extract_common_name (List.replicate 64 'x') 64 "/C=US/ST=CO/O=NTLP".toList).map c_str
      = some (List.replicate 63 'x')
    ∧ (extract_common_name (List.replicate 64 'x') 64 "/C=US/ST=CO/O=NTLP".toList).map
        (fun a => a.head?)
      = some (some 'x')
    ∧ (extract_common_name (List.replicate 64 'y') 64 "/C=US/ST=CO/O=NTLP".toList).map
        (fun a => a.head?)
      = some (some 'y') := by
  decide

/-! ## options.c: what parse_line returns -/

/-- Whatever the state, the statements behind the loop return well when the
count and the parameters stored are within bounds. -/
theorem parse_line_finish_ok (n : Int) (L : Nat) (st : parse_line_st)
    (h1 : st.ret = st.p.length) (h2 : (st.ret : Int) ≤ n)
    (h3 : parse_line_parms_ok L st.p) :
    parse_line_ok n L (parse_line_finish st) := by
  have h0 : (0 : Int) ≤ n := le_trans (Int.ofNat_nonneg _) h2
  have hp : (st.p.length : Int) ≤ n := by rw [← h1]; exact h2
  unfold parse_line_finish
  split_ifs
  · exact ⟨h0, hp, h3⟩
  · exact ⟨h0, hp, h3⟩
  · exact ⟨h2, hp, h3⟩

/-- The end of a turn: storing `out` and the test of `ret` against `n`. -/
theorem parse_line_store_ok (n : Int) (L : Nat) (c : Char) (len : Nat) (st : parse_line_st)
    (out : Char)
    (h1 : st.ret = st.p.length) (h2 : (st.ret : Int) ≤ n)
    (h3 : parse_line_parms_ok L st.p) (h4 : st.parm.length ≤ PARM_SIZE)
    (h5 : st.parm.length ≤ len)
    (hs : st.state = STATE_INITIAL ∨ st.state = STATE_READING_QUOTED_PARM
        ∨ st.state = STATE_READING_UNQUOTED_PARM)
    (h6 : st.state = STATE_READING_UNQUOTED_PARM → out ≠ NUL ∨ 1 ≤ st.parm.length)
    (h7 : st.state = STATE_READING_QUOTED_PARM → st.parm = [] → out = NUL →
        st.backslash = false → c ≠ NUL → c = DQUOTE) :
    parse_line_step_ok n L c len (parse_line_store n st out) := by
  have h0 : (0 : Int) ≤ n := le_trans (Int.ofNat_nonneg _) h2
  have hp : (st.p.length : Int) ≤ n := by rw [← h1]; exact h2
  unfold parse_line_store
  by_cases hfull : out ≠ NUL ∧ st.parm.length ≥ PARM_SIZE
  · rw [if_pos hfull]
    exact ⟨h0, hp, h3⟩
  · rw [if_neg hfull]
    by_cases hout : out ≠ NUL
    · have hlt : st.parm.length < PARM_SIZE := by
        by_contra hc
        exact hfull ⟨hout, not_lt.mp hc⟩
      simp only [if_pos hout]
      by_cases hn : (st.ret : Int) ≥ n
      · rw [if_pos hn]
        exact parse_line_finish_ok n L _ h1 h2 h3
      · rw [if_neg hn]
        refine ⟨parse_line_finish_ok n L _ h1 h2 h3, fun hc =>
          ⟨⟨h1, not_le.mp hn, h3, ?_, hs, ?_, ?_⟩, ?_⟩⟩
        · simp only [List.length_append, List.length_singleton]; omega
        · intro _; simp only [List.length_append, List.length_singleton]; omega
        · intro _ he; simp at he
        · simp only [List.length_append, List.length_singleton]; omega
    · simp only [if_neg hout]
      by_cases hn : (st.ret : Int) ≥ n
      · rw [if_pos hn]
        exact parse_line_finish_ok n L _ h1 h2 h3
      · rw [if_neg hn]
        refine ⟨parse_line_finish_ok n L _ h1 h2 h3, fun hc =>
          ⟨⟨h1, not_le.mp hn, h3, h4, hs, ?_, ?_⟩, by omega⟩⟩
        · intro h
          rcases h6 h with h | h
          · exact absurd h hout
          · exact h
        · intro a b d
          exact h7 a b (not_not.mp hout) d hc

/-- Outside `STATE_DONE` the block that stores a parameter does nothing. -/
theorem parse_line_done_skip (n : Int) (st : parse_line_st) (h : st.state ≠ STATE_DONE) :
    parse_line_done n st = Except.ok st := by
  unfold parse_line_done
  rw [if_neg h]

/-- In `STATE_DONE`, with a character read and room in `p`, the parameter is
stored. -/
theorem parse_line_done_store (n : Int) (st : parse_line_st) (h : st.state = STATE_DONE)
    (hp : 0 < st.parm.length) (hr : (st.ret : Int) < n) :
    parse_line_done n st = Except.ok
      { st with p := st.p ++ [st.parm], state := STATE_INITIAL, parm := [], ret := st.ret + 1 } := by
  unfold parse_line_done
  rw [if_pos h, if_neg (not_not.mpr hp), if_neg (not_not.mpr hr)]

/-- A stored parameter keeps the bounds on the parameters. -/
theorem parse_line_parms_ok_append (L : Nat) (p : List (List Char)) (q : List Char)
    (hp : parse_line_parms_ok L p) (h1 : 1 ≤ q.length) (h2 : q.length ≤ PARM_SIZE)
    (h3 : q.length ≤ L) : parse_line_parms_ok L (p ++ [q]) := by
  intro x hx
  rcases List.mem_append.mp hx with hx | hx
  · exact hp x hx
  · rw [List.mem_singleton.mp hx]
    exact ⟨h1, h2, h3⟩

/-- One turn of the loop keeps the invariant, on a character that does not
close a pair of quotes just opened. -/
theorem parse_line_body_ok (n : Int) (L : Nat) (prev c : Char) (st : parse_line_st)
    (hinv : parse_line_inv n L prev st) (hL : st.parm.length ≤ L)
    (hq : ¬ (prev = DQUOTE ∧ c = DQUOTE)) :
    parse_line_step_ok n L c st.parm.length (parse_line_body n st c) := by
  obtain ⟨h1, h2, h3, h4, hs, h5, h6⟩ := hinv
  unfold parse_line_body
  by_cases hb : (!st.backslash && c == BACKSLASH) = true
  · rw [if_pos hb]
    exact parse_line_store_ok n L c _ _ NUL h1 (le_of_lt h2) h3 h4 (le_refl _) hs
      (fun h => Or.inr (h5 h)) (fun _ _ _ h => by simp at h)
  · rw [if_neg hb]
    unfold parse_line_read
    rcases hs with hs | hs | hs
    · rw [if_pos hs]
      by_cases hsp : (!space c) = true
      · rw [if_pos hsp]
        by_cases hcm : c = ';' ∨ c = '#'
        · rw [if_pos hcm]
          exact parse_line_finish_ok n L _ h1 (le_of_lt h2) h3
        · rw [if_neg hcm]
          by_cases hdq : (!st.backslash && c == DQUOTE) = true
          · rw [if_pos hdq]
            dsimp only
            rw [parse_line_done_skip n _ (by dsimp only; decide)]
            dsimp only
            refine parse_line_store_ok n L c _ _ NUL h1 (le_of_lt h2) h3 h4 (le_refl _)
              (Or.inr (Or.inl rfl)) (fun h => absurd h (by dsimp only; decide)) (fun _ _ _ _ _ => ?_)
            simp only [Bool.and_eq_true, beq_iff_eq] at hdq
            exact hdq.2
          · rw [if_neg hdq]
            dsimp only
            rw [parse_line_done_skip n _ (by dsimp only; decide)]
            dsimp only
            refine parse_line_store_ok n L c _ _ c h1 (le_of_lt h2) h3 h4 (le_refl _)
              (Or.inr (Or.inr rfl)) (fun _ => Or.inl ?_) (fun h => absurd h (by dsimp only; decide))
            intro hc
            rw [hc] at hsp
            exact absurd hsp (by decide)
      · rw [if_neg hsp]
        dsimp only
        rw [parse_line_done_skip n _ (by rw [hs]; decide)]
        dsimp only
        exact parse_line_store_ok n L c _ _ NUL h1 (le_of_lt h2) h3 h4 (le_refl _)
          (Or.inl hs) (fun h => absurd (hs.symm.trans h) (by decide))
          (fun h => absurd (hs.symm.trans h) (by decide))
    · rw [if_neg (by rw [hs]; decide), if_neg (by rw [hs]; decide), if_pos hs]
      by_cases hdq : (!st.backslash && c == DQUOTE) = true
      · rw [if_pos hdq]
        dsimp only
        simp only [Bool.and_eq_true, beq_iff_eq, Bool.not_eq_true'] at hdq
        have hpos : 0 < st.parm.length := by
          by_contra hc
          have hnil : st.parm = [] := List.length_eq_zero.mp (by omega)
          exact hq ⟨h6 hs hnil hdq.1, hdq.2⟩
        rw [parse_line_done_store n { st with state := STATE_DONE } rfl hpos h2]
        dsimp only
        refine parse_line_store_ok n L c _ _ NUL ?_ ?_
          (parse_line_parms_ok_append L _ _ h3 hpos h4 hL) (Nat.zero_le _) (Nat.zero_le _)
          (Or.inl rfl) (fun h => absurd h (by dsimp only; decide)) (fun h => absurd h (by dsimp only; decide))
        · simp only [List.length_append, List.length_singleton]; omega
        · push_cast; omega
      · rw [if_neg hdq]
        dsimp only
        rw [parse_line_done_skip n _ (by rw [hs]; decide)]
        dsimp only
        exact parse_line_store_ok n L c _ _ c h1 (le_of_lt h2) h3 h4 (le_refl _)
          (Or.inr (Or.inl hs)) (fun h => absurd (hs.symm.trans h) (by decide))
          (fun _ _ h _ hc => absurd h hc)
    · rw [if_neg (by rw [hs]; decide), if_pos hs]
      by_cases hsp : (!st.backslash && space c) = true
      · rw [if_pos hsp]
        dsimp only
        rw [parse_line_done_store n { st with state := STATE_DONE } rfl (h5 hs) h2]
        dsimp only
        refine parse_line_store_ok n L c _ _ NUL ?_ ?_
          (parse_line_parms_ok_append L _ _ h3 (h5 hs) h4 hL) (Nat.zero_le _) (Nat.zero_le _)
          (Or.inl rfl) (fun h => absurd h (by dsimp only; decide)) (fun h => absurd h (by dsimp only; decide))
        · simp only [List.length_append, List.length_singleton]; omega
        · push_cast; omega
      · rw [if_neg hsp]
        dsimp only
        rw [parse_line_done_skip n _ (by rw [hs]; decide)]
        dsimp only
        exact parse_line_store_ok n L c _ _ c h1 (le_of_lt h2) h3 h4 (le_refl _)
          (Or.inr (Or.inr hs)) (fun h => Or.inr (h5 hs))
          (fun h => absurd (hs.symm.trans h) (by decide))

/-- The loop of `parse_line` ends well from every state in which the
invariant holds, on characters of which no two in a row are double quotes. -/
theorem parse_line_loop_ok (n : Int) (L : Nat) :
    ∀ (line : List Char) (prev : Char) (st : parse_line_st),
      parse_line_inv n L prev st → st.parm.length + line.length ≤ L →
      List.Chain (fun a b => ¬ (a = DQUOTE ∧ b = DQUOTE)) prev line →
      parse_line_ok n L (parse_line_loop n st line) := by
  intro line
  induction line with
  | nil =>
    intro prev st hinv hL _
    have hbody := parse_line_body_ok n L prev NUL st hinv (by simpa using hL)
      (fun h => absurd h.2 (by decide))
    unfold parse_line_loop
    cases hstep : parse_line_body n st NUL with
    | next st1 => rw [hstep] at hbody; exact hbody.1
    | broke st1 => rw [hstep] at hbody; exact hbody
    | return_zero st1 => rw [hstep] at hbody; exact hbody
    | fault r => rw [hstep] at hbody; exact hbody.elim
  | cons c rest ih =>
    intro prev st hinv hL hchain
    rw [List.chain_cons] at hchain
    rw [List.length_cons] at hL
    have hbody := parse_line_body_ok n L prev c st hinv (by omega) hchain.1
    unfold parse_line_loop
    cases hstep : parse_line_body n st c with
    | next st1 =>
      rw [hstep] at hbody
      dsimp only
      by_cases hc : c = NUL
      · rw [if_pos hc]; exact hbody.1
      · rw [if_neg hc]
        have h := hbody.2 hc
        exact ih c st1 h.1 (by omega) hchain.2
    | broke st1 => rw [hstep] at hbody; exact hbody
    | return_zero st1 => rw [hstep] at hbody; exact hbody
    | fault r => rw [hstep] at hbody; exact hbody.elim

/-- Without two double quotes in a row, each character and the one behind it
are not both double quotes. -/
theorem no_adjacent_quotes_chain :
    ∀ (l : List Char) (a : Char), no_adjacent_quotes (a :: l) = true →
      List.Chain (fun a b => ¬ (a = DQUOTE ∧ b = DQUOTE)) a l := by
  intro l
  induction l with
  | nil => intro a _; exact List.Chain.nil
  | cons b rest ih =>
    intro a h
    unfold no_adjacent_quotes at h
    simp only [Bool.and_eq_true, Bool.not_eq_true', Bool.and_eq_false_imp, beq_iff_eq,
      beq_eq_false_iff_ne] at h
    exact List.Chain.cons (fun hab => h.1 hab.1 hab.2) (ih b h.2)

/-- On a line without an empty pair of quotes `parse_line` returns: for
`n ≥ 1` and every line of which no two characters in a row are double quotes,
the call returns a count from 0 to `n`, no assertion fails, at most `n`
parameters are stored, and each has at least one character, at most 256, and
no more than the line has: on a line that fits the callers' `char line[256]`
each parameter is shorter than 256 characters. -/
theorem parse_line_total_without_empty_quotes (line : List Char) (n : Int) (hn : 1 ≤ n)
    (hq : no_adjacent_quotes line = true) :
    ∃ ret p, parse_line line n = parse_line_result.returned ret p
      ∧ (ret : Int) ≤ n ∧ (p.length : Int) ≤ n
      ∧ ∀ q ∈ p, 1 ≤ q.length ∧ q.length ≤ 256 ∧ q.length ≤ line.length := by
  have hchain : List.Chain (fun a b => ¬ (a = DQUOTE ∧ b = DQUOTE)) NUL line := by
    cases line with
    | nil => exact List.Chain.nil
    | cons a l =>
      exact List.Chain.cons (fun h => absurd h.1 (by decide)) (no_adjacent_quotes_chain l a hq)
  have h := parse_line_loop_ok n line.length line NUL
    { ret := 0, state := STATE_INITIAL, backslash := false, parm := [], p := [] }
    ⟨rfl, by simpa using hn, fun q hq => absurd hq (List.not_mem_nil q), Nat.zero_le _,
      Or.inl rfl, fun h => absurd h (by decide), fun h => absurd h (by decide)⟩
    (by simp) hchain
  unfold parse_line
  cases hr : parse_line_loop n
      { ret := 0, state := STATE_INITIAL, backslash := false, parm := [], p := [] } line with
  | returned ret p =>
    rw [hr] at h
    exact ⟨ret, p, rfl, h.1, h.2.1, h.2.2⟩
  | assert_failed => rw [hr] at h; exact h.elim
  | out_of_bounds => rw [hr] at h; exact h.elim

/-- An instance: the line `remote "my host" 1194`. -/
theorem parse_line_total_without_empty_quotes_witness :
    (1 : Int) ≤ 5
    ∧ no_adjacent_quotes
        ("remote ".toList ++ [DQUOTE] ++ "my host".toList ++ [DQUOTE] ++ " 1194".toList) = true
    ∧ ∃ ret p,
        parse_line
          ("remote ".toList ++ [DQUOTE] ++ "my host".toList ++ [DQUOTE] ++ " 1194".toList) 5
          = parse_line_result.returned ret p
      ∧ (ret : Int) ≤ 5 ∧ (p.length : Int) ≤ 5
      ∧ ∀ q ∈ p, 1 ≤ q.length ∧ q.length ≤ 256
        ∧ q.length
          ≤ ("remote ".toList ++ [DQUOTE] ++ "my host".toList ++ [DQUOTE] ++ " 1194".toList).length :=
  ⟨by decide, by decide,
    parse_line_total_without_empty_quotes _ 5 (by decide) (by decide)⟩

/-- C29: `parse_line` trips its assertion on an empty quoted parameter. On the
line `push ""`, with or without the newline that `fgets` leaves, the closing
quote is read with `parm_len` 0 and `ASSERT (parm_len > 0)` fails, whatever
`n ≥ 1` is passed (here 5, the least `MAX_PARMS` the code accepts). -/
theorem parse_line_empty_quoted_parameter :
    parse_line ("push ".toList ++ [DQUOTE, DQUOTE, '\n']) 5 = parse_line_result.assert_failed
    ∧ parse_line ("push ".toList ++ [DQUOTE, DQUOTE]) 5 = parse_line_result.assert_failed
    ∧ parse_line [DQUOTE, DQUOTE] 1 = parse_line_result.assert_failed
    ∧ ¬ parse_line_as_claimed 5 (parse_line ("push ".toList ++ [DQUOTE, DQUOTE, '\n']) 5) :=
  ⟨by decide, by decide, by decide, fun h => by
    rw [show parse_line ("push ".toList ++ [DQUOTE, DQUOTE, '\n']) 5
      = parse_line_result.assert_failed by decide] at h
    exact h⟩

set_option maxRecDepth 100000 in
/-- A line of 256 characters other than blanks, longer than the callers'
`char line[256]` can hold, gives a parameter of 256 characters; one of 257 is
refused with 0. -/
theorem parse_line_parameter_of_256_characters :
    parse_line (List.replicate 256 'a') 5
      = parse_line_result.returned 1 [List.replicate 256 'a']
    ∧ parse_line (List.replicate 257 'a') 5 = parse_line_result.returned 0 [] := by
  decide

/-- A line of three parameters, the second one quoted and holding a space, and
a comment: three parameters are returned. With `n = 2` the first two. -/
theorem parse_line_examples :
    parse_line ("remote ".toList ++ [DQUOTE] ++ "my host".toList ++ [DQUOTE] ++ " 1194 # x".toList) 16
      = parse_line_result.returned 3 ["remote".toList, "my host".toList, "1194".toList]
    ∧ parse_line ("remote ".toList ++ [DQUOTE] ++ "my host".toList ++ [DQUOTE] ++ " 1194 # x".toList) 2
      = parse_line_result.returned 2 ["remote".toList, "my host".toList]
    ∧ parse_line ("push ".toList ++ [DQUOTE, DQUOTE]) 16 = parse_line_result.assert_failed := by
  decide

end OpenVPN
